import Mathlib

/-!
Verification of the Razumova crossbridge-kinetics core of the SSCP_2018
repository: the `rhs` derivative function of the four-state stiffness /
distortion model (notebook `L11/Razumova_Solutions-2000-PART1.ipynb` and the
compiled module `L11_widgets` with its `ReactionWidget` class), the `k_dev`
(time-to-half-max) diagnostic computed from a sampled `A_2` trajectory, and
the widget's solve-and-plot parameter wiring.

Numbers are embedded as exact rationals / reals.  The `k_dev` computation
mirrors the source line by line: `f_max = A_2[len(A_2)-1]`,
`f_half = (1-(1/e))*f_max`, an unguarded `while A_2[index] < f_half` scan
(running off the end of the array raises `IndexError` in the source, the
`indexError` outcome here), `t_half = time[index]`, and `ktr = 1/t_half`
where `t_half` is a numpy float, so division by zero yields `inf` (a warning,
not an exception) — the `infinite` outcome here.
-/

namespace Razumova

/-- The right-hand side of the Razumova model, translated from `rhs` in the
notebook (and the identical `ReactionWidget.rhs` of `L11_widgets`):
unpack `D, A_1, A_2 = y` and return
`[k_on*(R_T - D - A_1 - A_2)+f_prime*A_1+g*A_2-(k_off+f)*D,
  f*D+h_prime*A_2-(f_prime+h)*A_1, h*A_1-(h_prime+g)*A_2]`.
The time argument `t` is accepted (the integrator passes it) and, exactly as
in the source, never used. -/
def rhs {K : Type} [CommRing K] (y : K × K × K) (t : K)
    (R_T k_on k_off f f_prime h h_prime g : K) : K × K × K :=
  let D := y.1
  let A_1 := y.2.1
  let A_2 := y.2.2
  let dD_dt := k_on * (R_T - D - A_1 - A_2) + f_prime * A_1 + g * A_2 - (k_off + f) * D
  let dA1_dt := f * D + h_prime * A_2 - (f_prime + h) * A_1
  let dA2_dt := h * A_1 - (h_prime + g) * A_2
  (dD_dt, dA1_dt, dA2_dt)

/-- Outcome of the `k_dev` cell.  `ok v` is a printed finite `k_dev = v`;
`infinite` is the numpy behaviour of `1 / t_half` at `t_half = 0.0`
(returns `inf` with a `RuntimeWarning`); `indexError` is the Python
`IndexError` raised by an out-of-bounds `A_2[index]` (or `time[index]`,
or `A_2[len(A_2)-1]` on an empty trajectory). -/
inductive KdevOutcome (K : Type) where
  | ok (v : K)
  | infinite
  | indexError

/-- The unguarded scan `index = 0; while A_2[index] < f_half: index += 1`:
first position whose value is not less than `f_half`, or `none` when the
loop runs off the end of the list (Python `IndexError`). -/
def scanIdx {K : Type} [LinearOrderedField K] (f_half : K) : List K → Option Nat
  | [] => none
  | a :: rest => if a < f_half then (scanIdx f_half rest).map Nat.succ else some 0

/-- The `k_dev` cell of the notebook (equally `ReactionWidget.solve_and_plot`):
`f_max = A_2[len(A_2)-1]`, `f_half = (1-(1/e))*f_max`, the `while` scan,
`t_half = time[index]`, `ktr = 1 / t_half`.  The parameter `e` is Euler's
number (`math.e` in the notebook, `np.exp(1)` in the widget). -/
def kdev {K : Type} [LinearOrderedField K] (e : K) (time A_2 : List K) : KdevOutcome K :=
  match A_2.getLast? with
  | none => .indexError
  | some f_max =>
    let f_half := (1 - 1 / e) * f_max
    match scanIdx f_half A_2 with
    | none => .indexError
    | some index =>
      match time.get? index with
      | none => .indexError
      | some t_half => if t_half = 0 then .infinite else .ok (1 / t_half)

/-- C1: the derivative function computes exactly the three stated rates, for
every real state and parameter tuple, with no validation or clamping. -/
theorem rhs_formula (D A_1 A_2 t R_T k_on k_off f f_prime h h_prime g : ℝ) :
    rhs (D, A_1, A_2) t R_T k_on k_off f f_prime h h_prime g =
      (k_on * (R_T - D - A_1 - A_2) + f_prime * A_1 + g * A_2 - (k_off + f) * D,
       f * D + h_prime * A_2 - (f_prime + h) * A_1,
       h * A_1 - (h_prime + g) * A_2) := rfl

/-- C3: the sum of the three returned derivatives equals
`k_on*R_off - k_off*D` (with `R_off = R_T - D - A_1 - A_2`), which is minus
the implied rate of change of `R_off` in the four-state mass-action scheme;
and after one explicit integration step of any size `dt` the total
`D + A_1 + A_2 + R_off` recomputed from the new state is still `R_T`, so the
total is conserved along any trajectory built from the derivative function. -/
theorem rhs_conservation (D A_1 A_2 t R_T k_on k_off f f_prime h h_prime g dt : ℝ) :
    (rhs (D, A_1, A_2) t R_T k_on k_off f f_prime h h_prime g).1
      + (rhs (D, A_1, A_2) t R_T k_on k_off f f_prime h h_prime g).2.1
      + (rhs (D, A_1, A_2) t R_T k_on k_off f f_prime h h_prime g).2.2
      = k_on * (R_T - D - A_1 - A_2) - k_off * D
    ∧ (D + dt * (rhs (D, A_1, A_2) t R_T k_on k_off f f_prime h h_prime g).1)
      + (A_1 + dt * (rhs (D, A_1, A_2) t R_T k_on k_off f f_prime h h_prime g).2.1)
      + (A_2 + dt * (rhs (D, A_1, A_2) t R_T k_on k_off f f_prime h h_prime g).2.2)
      + (R_T - (D + dt * (rhs (D, A_1, A_2) t R_T k_on k_off f f_prime h h_prime g).1)
          - (A_1 + dt * (rhs (D, A_1, A_2) t R_T k_on k_off f f_prime h h_prime g).2.1)
          - (A_2 + dt * (rhs (D, A_1, A_2) t R_T k_on k_off f f_prime h h_prime g).2.2))
      = R_T := by
  constructor
  · simp only [rhs]
    ring
  · ring

/-- C6: the derivative function is pure and deterministic — its output is a
function of the state and parameters alone (it does not even depend on the
time argument), so two calls with identical state and parameter inputs
return identical outputs; in the shallow embedding it is a function, with
no way to mutate its arguments, matching the source, which only reads
`y` and the parameters. -/
theorem rhs_pure (y : ℝ × ℝ × ℝ) (t t2 R_T k_on k_off f f_prime h h_prime g : ℝ) :
    rhs y t R_T k_on k_off f f_prime h h_prime g
      = rhs y t2 R_T k_on k_off f f_prime h h_prime g := rfl

/-- Helper: the scan returns `none` (the loop runs off the end) when every
sample is strictly below the threshold. -/
theorem scanIdx_none_of_all_lt {K : Type} [LinearOrderedField K] (f_half : K)
    (l : List K) (h : ∀ a ∈ l, a < f_half) : scanIdx f_half l = none := by
  induction l with
  | nil => rfl
  | cons a rest ih =>
    have ha : a < f_half := h a (List.mem_cons_self a rest)
    simp [scanIdx, ha, ih (fun x hx => h x (List.mem_cons_of_mem a hx))]

/-- Helper: the scan stops exactly at the first position whose value is not
less than the threshold. -/
theorem scanIdx_eq_some_first {K : Type} [LinearOrderedField K] (f_half : K)
    (l : List K) (i : Nat) (x : K) (hx : l.get? i = some x) (hcross : f_half ≤ x)
    (hfirst : ∀ j, j < i → ∀ y, l.get? j = some y → y < f_half) :
    scanIdx f_half l = some i := by
  induction l generalizing i with
  | nil => simp at hx
  | cons a rest ih =>
    cases i with
    | zero =>
      have : a = x := by simpa using hx
      subst this
      simp [scanIdx, not_lt.mpr hcross]
    | succ n =>
      have ha : a < f_half := hfirst 0 (Nat.succ_pos n) a rfl
      have hrest := ih n (by simpa using hx)
        (fun j hj y hy => hfirst (j + 1) (Nat.succ_lt_succ hj) y (by simpa using hy))
      simp [scanIdx, ha, hrest]

/-- Helper: if some position carries a value not below the threshold, the
scan stops at or before that position. -/
theorem scanIdx_le_of_get {K : Type} [LinearOrderedField K] (f_half : K)
    (l : List K) (j : Nat) (x : K) (hx : l.get? j = some x) (hcross : f_half ≤ x) :
    ∃ i, scanIdx f_half l = some i ∧ i ≤ j := by
  induction l generalizing j with
  | nil => simp at hx
  | cons a rest ih =>
    by_cases ha : a < f_half
    · cases j with
      | zero =>
        have : a = x := by simpa using hx
        subst this
        exact absurd hcross (not_le.mpr ha)
      | succ n =>
        obtain ⟨i, hi, hin⟩ := ih n (by simpa using hx)
        exact ⟨i + 1, by simp [scanIdx, ha, hi], Nat.succ_le_succ hin⟩
    · exact ⟨0, by simp [scanIdx, ha], Nat.zero_le j⟩

/-- Helper: the last element of a list is at an in-bounds position. -/
theorem getLast?_get? {K : Type} (l : List K) (m : K) (hm : l.getLast? = some m) :
    ∃ j, l.get? j = some m ∧ j < l.length := by
  induction l with
  | nil => simp at hm
  | cons a rest ih =>
    cases rest with
    | nil =>
      have : m = a := by simpa using hm.symm
      subst this
      exact ⟨0, rfl, by simp⟩
    | cons b r =>
      obtain ⟨j, hj, hjl⟩ := ih hm
      exact ⟨j + 1, by simpa using hj, by simpa using Nat.succ_lt_succ hjl⟩

/-- C2: on a trajectory whose `A_2` samples reach `f_half = (1 - 1/e) * f_max`
(`f_max` the value at the final sampled time) first at position `i`, whose
sample time `t` is nonzero, the `k_dev` cell reports `k_dev = 1 / t`. -/
theorem kdev_first_crossing (time A_2 : List ℝ) (m x t : ℝ) (i : Nat)
    (hm : A_2.getLast? = some m)
    (hx : A_2.get? i = some x)
    (hcross : (1 - 1 / Real.exp 1) * m ≤ x)
    (hfirst : ∀ j, j < i → ∀ y, A_2.get? j = some y → y < (1 - 1 / Real.exp 1) * m)
    (ht : time.get? i = some t) (ht0 : t ≠ 0) :
    kdev (Real.exp 1) time A_2 = .ok (1 / t) := by
  unfold kdev
  rw [hm]
  simp only
  rw [scanIdx_eq_some_first _ _ i x hx hcross hfirst]
  simp only
  rw [ht]
  simp only
  rw [if_neg ht0]

/-- Witness for C2: on `time = [0, 1]`, `A_2 = [0, 1]` the first crossing of
`f_half = 1 - 1/e ≈ 0.632` is at index 1, time 1, so `k_dev = 1`. -/
theorem kdev_first_crossing_witness :
    kdev (Real.exp 1) [0, 1] [0, 1] = .ok 1 := by
  have he : (1:ℝ) < Real.exp 1 := by linarith [Real.exp_one_gt_d9]
  have hinv : (0:ℝ) < 1 / Real.exp 1 := by positivity
  have hinv1 : 1 / Real.exp 1 < 1 := by
    rw [div_lt_one (by positivity)]; exact he
  have h := kdev_first_crossing [0, 1] [0, 1] 1 1 1 1 rfl rfl
    (by nlinarith)
    (by
      intro j hj y hy
      interval_cases j
      have : y = 0 := by simpa using hy.symm
      subst this
      nlinarith)
    rfl one_ne_zero
  simpa using h

/-- Counterexample for C4: on the constant-zero trajectory the claim predicts
`InsufficientTrajectoryError`, but `f_max = 0` gives `f_half = 0`, the scan
stops at index 0 (`0 < 0` is false), `t_half = time[0] = 0`, and the numpy
division `1 / 0.0` returns `inf` — the code prints `k_dev = inf` instead of
raising the out-of-bounds error. -/
theorem kdev_zero_trajectory :
    kdev (Real.exp 1) [0, 1, 2] [0, 0, 0] = .infinite := by
  have h0 : ([0, 0, 0] : List ℝ).getLast? = some 0 := rfl
  unfold kdev
  rw [h0]
  simp only
  have hs : scanIdx ((1 - 1 / Real.exp 1) * 0) ([0, 0, 0] : List ℝ) = some 0 := by
    simp [scanIdx]
  rw [hs]
  simp

/-- C4 (amended): on every trajectory all of whose samples are strictly below
`f_half` — which forces the final value to be negative, so the constant-zero
trajectory is not such a case — the scan runs off the end of the sequence and
the computation ends in the out-of-bounds error (Python `IndexError`, the
spec's `InsufficientTrajectoryError`) rather than any numeric `k_dev`. -/
theorem kdev_threshold_never_reached (time A_2 : List ℝ) (m : ℝ)
    (hm : A_2.getLast? = some m)
    (hall : ∀ a ∈ A_2, a < (1 - 1 / Real.exp 1) * m) :
    kdev (Real.exp 1) time A_2 = .indexError := by
  unfold kdev
  rw [hm]
  simp only
  rw [scanIdx_none_of_all_lt _ _ hall]

/-- Witness for the amended C4: the one-sample trajectory `A_2 = [-1]` has
`f_half = -(1 - 1/e) > -1`, so no sample reaches it and the scan errors. -/
theorem kdev_threshold_never_reached_witness :
    kdev (Real.exp 1) [0] [-1] = .indexError := by
  have hinv : (0:ℝ) < 1 / Real.exp 1 := by positivity
  exact kdev_threshold_never_reached [0] [-1] (-1) rfl (by
    intro a ha
    have : a = -1 := by simpa using ha
    subst this
    nlinarith)

/-- Counterexample for C5: on `time = [0, 1]`, `A_2 = [1, 1]` the threshold is
crossed at the first sample, `t_half = 0`, and the claim predicts a raised
`DivisionByZeroError`; but `t_half` is a numpy float, `1 / t_half` evaluates
to `inf` with only a `RuntimeWarning`, and the code prints `k_dev = inf` —
it implicitly returns infinity instead of raising. -/
theorem kdev_crossing_at_time_zero :
    kdev (Real.exp 1) [0, 1] [1, 1] = .infinite := by
  have hinv : (0:ℝ) < 1 / Real.exp 1 := by positivity
  have h1 : ([1, 1] : List ℝ).getLast? = some 1 := rfl
  have hs : scanIdx ((1 - 1 / Real.exp 1) * 1) ([1, 1] : List ℝ) = some 0 := by
    have h2 : ¬((1:ℝ) < (1 - 1 / Real.exp 1) * 1) := by nlinarith
    simp only [scanIdx, if_neg h2]
  unfold kdev
  rw [h1]
  simp only
  rw [hs]
  simp

/-- C5 (amended): whenever the half-max threshold is crossed at the first
sample and the first sample time is `0`, the computation yields the infinite
outcome (numpy `1 / 0.0 = inf`), not an error and not a finite value. -/
theorem kdev_infinite_of_first_sample (a m : ℝ) (arest trest : List ℝ)
    (hm : (a :: arest).getLast? = some m)
    (hcross : (1 - 1 / Real.exp 1) * m ≤ a) :
    kdev (Real.exp 1) (0 :: trest) (a :: arest) = .infinite := by
  unfold kdev
  rw [hm]
  simp only
  have hs : scanIdx ((1 - 1 / Real.exp 1) * m) (a :: arest) = some 0 := by
    simp only [scanIdx, if_neg (not_lt.mpr hcross)]
  rw [hs]
  simp

/-- Witness for the amended C5: `time = [0, 5]`, `A_2 = [2, 2]` crosses
`f_half = 2 * (1 - 1/e)` at the first sample, and the outcome is infinite. -/
theorem kdev_infinite_of_first_sample_witness :
    kdev (Real.exp 1) [0, 5] [2, 2] = .infinite := by
  have hinv : (0:ℝ) < 1 / Real.exp 1 := by positivity
  exact kdev_infinite_of_first_sample 2 2 [2] [5] rfl (by nlinarith)

/-- C9: for every non-empty `A_2` sequence with non-negative final value, the
first-not-less-than-threshold scan stops at an in-bounds index, because
`f_half = (1 - 1/e) * f_max ≤ f_max` when `f_max ≥ 0`, so at the latest the
final sample satisfies the exit condition; the off-the-end case therefore
requires a negative final value. -/
theorem scan_inbounds_of_nonneg_last (A_2 : List ℝ) (m : ℝ)
    (hm : A_2.getLast? = some m) (h0 : 0 ≤ m) :
    ∃ i, scanIdx ((1 - 1 / Real.exp 1) * m) A_2 = some i ∧ i < A_2.length := by
  obtain ⟨j, hj, hjl⟩ := getLast?_get? A_2 m hm
  have hinv : (0:ℝ) < 1 / Real.exp 1 := by positivity
  have hth : (1 - 1 / Real.exp 1) * m ≤ m := by nlinarith
  obtain ⟨i, hi, hij⟩ := scanIdx_le_of_get _ A_2 j m hj hth
  exact ⟨i, hi, lt_of_le_of_lt hij hjl⟩

/-- Witness for C9: the one-sample sequence `[0]` has non-negative final
value and the scan stops in bounds. -/
theorem scan_inbounds_of_nonneg_last_witness :
    ∃ i, scanIdx ((1 - 1 / Real.exp 1) * 0) ([0] : List ℝ) = some i ∧ i < 1 := by
  simpa using scan_inbounds_of_nonneg_last [0] 0 rfl le_rfl

/-- Modelled from the spec: the external ODE-integration service of spec §6
(described in §1 as a fixed-step explicit-method wrapper), which is not part
of the repository source.  It advances the state from `y0` by explicit
(Euler) steps of size `dt`, evaluating the repository's `rhs` at the current
state and time; `odeSolve … n` is the state after `n` steps, i.e. at time
`n * dt`. -/
def odeSolve (dt : ℚ) (R_T k_on k_off f f_prime h h_prime g : ℚ)
    (y0 : ℚ × ℚ × ℚ) : Nat → ℚ × ℚ × ℚ
  | 0 => y0
  | n + 1 =>
    let y := odeSolve dt R_T k_on k_off f f_prime h h_prime g y0 n
    let d := rhs y ((n : ℚ) * dt) R_T k_on k_off f f_prime h h_prime g
    (y.1 + dt * d.1, y.2.1 + dt * d.2.1, y.2.2 + dt * d.2.2)

/-- Helper for kernel evaluation: pass `n` through a constructor match so
that an arithmetic argument is forced to a numeral before recursing. -/
def withNat {α : Type} (n : Nat) (k : Nat → α) : α :=
  match n with
  | 0 => k 0
  | m + 1 => k (m + 1)

/-- One Euler step of the `t = 10` run (parameters `R_T=1, k_on=400,
k_off=50, f=50, f_prime=400, h=8, h_prime=6, g=4`, step `dt = 1/500`) in
scaled natural-number form: a state `(v1, v2, v3, s)` stands for the
rationals `(v1/s, v2/s, v3/s)`.  With this step size all coefficients are
non-negative (`500 - (k_on + k_off + f) = 0`). -/
def stepN (p : Nat × Nat × Nat × Nat) : Nat × Nat × Nat × Nat :=
  (400 * p.2.2.2 - 396 * p.2.2.1,
   50 * p.1 + 92 * p.2.1 + 6 * p.2.2.1,
   8 * p.2.1 + 490 * p.2.2.1,
   500 * p.2.2.2)

/-- Kernel-evaluable iteration of `stepN`, forcing every component to a
numeral at each step (so evaluation depth stays bounded). -/
def iterN : Nat → Nat → Nat → Nat → Nat → Nat × Nat × Nat × Nat
  | 0, v1, v2, v3, s => (v1, v2, v3, s)
  | n + 1, v1, v2, v3, s =>
    withNat (400 * s - 396 * v3) fun a =>
    withNat (50 * v1 + 92 * v2 + 6 * v3) fun b =>
    withNat (8 * v2 + 490 * v3) fun c =>
    withNat (500 * s) fun d =>
    iterN n a b c d

/-- Tuple form of `iterN`. -/
def iterNState (n : Nat) (p : Nat × Nat × Nat × Nat) : Nat × Nat × Nat × Nat :=
  iterN n p.1 p.2.1 p.2.2.1 p.2.2.2

theorem withNat_eq {α : Type} (n : Nat) (k : Nat → α) : withNat n k = k n := by
  cases n <;> rfl

theorem iterNState_succ (n : Nat) (p : Nat × Nat × Nat × Nat) :
    iterNState (n + 1) p = iterNState n (stepN p) := by
  simp [iterNState, iterN, withNat_eq, stepN]

theorem stepN_comm (n : Nat) (p : Nat × Nat × Nat × Nat) :
    iterNState (n + 1) p = stepN (iterNState n p) := by
  induction n generalizing p with
  | zero =>
    have h0 : ∀ q : Nat × Nat × Nat × Nat, iterNState 0 q = q := fun q => rfl
    rw [iterNState_succ, h0, h0]
  | succ m ih =>
    rw [iterNState_succ, ih, ← iterNState_succ]

theorem iterNState_add (m n : Nat) (p : Nat × Nat × Nat × Nat) :
    iterNState (m + n) p = iterNState m (iterNState n p) := by
  induction n generalizing p with
  | zero => rfl
  | succ k ih =>
    calc iterNState (m + (k + 1)) p
        = iterNState ((m + k) + 1) p := by rw [Nat.add_succ]
      _ = stepN (iterNState (m + k) p) := stepN_comm _ _
      _ = stepN (iterNState m (iterNState k p)) := by rw [ih]
      _ = iterNState (m + 1) (iterNState k p) := (stepN_comm _ _).symm
      _ = iterNState m (stepN (iterNState k p)) := iterNState_succ _ _
      _ = iterNState m (iterNState (k + 1) p) := by rw [← stepN_comm]

/-- Invariant of the scaled run from the zero state: every component is at
most the denominator, and the denominator is positive. -/
theorem iterN_bounds (n : Nat) :
    (iterNState n (0, 0, 0, 1)).1 ≤ (iterNState n (0, 0, 0, 1)).2.2.2
    ∧ (iterNState n (0, 0, 0, 1)).2.1 ≤ (iterNState n (0, 0, 0, 1)).2.2.2
    ∧ (iterNState n (0, 0, 0, 1)).2.2.1 ≤ (iterNState n (0, 0, 0, 1)).2.2.2
    ∧ 0 < (iterNState n (0, 0, 0, 1)).2.2.2 := by
  induction n with
  | zero => simp [iterNState, iterN]
  | succ m ih =>
    obtain ⟨h1, h2, h3, h4⟩ := ih
    rw [stepN_comm]
    simp only [stepN]
    refine ⟨?_, ?_, ?_, ?_⟩ <;> omega

/-- Refinement: the modelled integration service on the notebook's `t = 10`
run coincides with the scaled natural-number iteration. -/
theorem odeSolve_eq_iterN (n : Nat) :
    odeSolve (1/500) 1 400 50 50 400 8 6 4 (0, 0, 0) n
      = (((iterNState n (0, 0, 0, 1)).1 : ℚ) / ((iterNState n (0, 0, 0, 1)).2.2.2 : ℚ),
         ((iterNState n (0, 0, 0, 1)).2.1 : ℚ) / ((iterNState n (0, 0, 0, 1)).2.2.2 : ℚ),
         ((iterNState n (0, 0, 0, 1)).2.2.1 : ℚ) / ((iterNState n (0, 0, 0, 1)).2.2.2 : ℚ)) := by
  induction n with
  | zero => simp [odeSolve, iterNState, iterN]
  | succ m ih =>
    obtain ⟨h1, h2, h3, hs⟩ := iterN_bounds m
    rw [stepN_comm]
    have hsQ : ((iterNState m (0, 0, 0, 1)).2.2.2 : ℚ) ≠ 0 := by
      exact_mod_cast Nat.pos_iff_ne_zero.mp hs
    have hle : 396 * (iterNState m (0, 0, 0, 1)).2.2.1
        ≤ 400 * (iterNState m (0, 0, 0, 1)).2.2.2 := by
      omega
    simp only [odeSolve, ih, rhs, stepN, Prod.ext_iff]
    refine ⟨?_, ?_, ?_⟩ <;>
    · try rw [Nat.cast_sub hle]
      push_cast
      field_simp
      first
      | ring1
      | norm_num

/-- Value of `rhs` at a scaled state, as integer numerators over `s`. -/
theorem rhs_scaled (v1 v2 v3 s : Nat) (t : ℚ) (hs : 0 < s) :
    rhs ((v1 : ℚ) / (s : ℚ), (v2 : ℚ) / (s : ℚ), (v3 : ℚ) / (s : ℚ)) t 1 400 50 50 400 8 6 4
      = (((400 * (s : ℤ) - 500 * (v1 : ℤ) - 396 * (v3 : ℤ) : ℤ) : ℚ) / (s : ℚ),
         ((50 * (v1 : ℤ) + 6 * (v3 : ℤ) - 408 * (v2 : ℤ) : ℤ) : ℚ) / (s : ℚ),
         ((8 * (v2 : ℤ) - 10 * (v3 : ℤ) : ℤ) : ℚ) / (s : ℚ)) := by
  have hsQ : (s : ℚ) ≠ 0 := by
    exact_mod_cast Nat.pos_iff_ne_zero.mp hs
  simp only [rhs, Prod.ext_iff]
  refine ⟨?_, ?_, ?_⟩ <;>
  · push_cast
    field_simp
    first
    | ring1
    | norm_num

/-- An integer numerator bounded by the denominator over a factor of 1000
gives a rational of absolute value at most `1/1000`. -/
theorem abs_le_div_bound (a : ℤ) (s : Nat) (hs : 0 < s) (h : 1000 * a.natAbs ≤ s) :
    |(a : ℚ) / (s : ℚ)| ≤ 1 / 1000 := by
  have hsQ : (0 : ℚ) < (s : ℚ) := by exact_mod_cast hs
  rw [abs_div, abs_of_pos hsQ, div_le_div_iff hsQ (by norm_num)]
  have habs : |(a : ℚ)| = ((a.natAbs : ℚ)) := by
    rw [Int.cast_natAbs, Int.cast_abs]
  rw [habs]
  have hQ : ((1000 * a.natAbs : Nat) : ℚ) ≤ ((s : Nat) : ℚ) := by exact_mod_cast h
  push_cast at hQ
  linarith

set_option maxRecDepth 20000 in
set_option maxHeartbeats 4000000 in
/-- Checkpoint 1 of the kernel evaluation of the scaled `t = 10` run
(steps 0 to 1000 of 5000). -/
theorem iterChunk1 :
    iterNState 1000 (0, 0, 0, 1)
    = (69222202169505361407644727522720826282766982048154029211004671524921626128230155629696690996481922261547613153369876959658403711823706167640455819254063829312604366580082141009143834428780176543554386862665003043886810575522798186558967425454422541035130873978519548116830184855651528802801416550284881629630754962946737899966965110627446405415074392025438637111942619827180336960895473010183745480605538038521813300905260542824044452496596862868103205600331551128292859890353242539643166499814770822577743005963879873725003266136027037570627451612706048380139924415680225802591258172404424502762538868960840712603182647169883716194218776258863182408623639898133406238826650012082474011408191720803546854703329143763835122421941256979968939455374181101795226397311538645367824355336722003415430847315439337945988159253753385246292306582406384938001321359343852750698736524456475500930106569415451134398917529713413805525892521989426809381086760900961041519139638428097097319560513022946162462263950625276358441604282969144949596784289635617950086339052327433436404485274934864185627361166942873955505372068480929635195551978590135147424198584189538965737396616184270291045192248688166598253339899992321945885428211636840723571265092770638221738525238359508445441165931325843093562817635555543016755137704036108359987624659488597390089072263955375145310998406834028999804272268080623583463799985555111206143203657357628207839476373021166062317047548959691938689680027686710303122461706829003279422927124634428965070651318671252367163140957292360296724930708152572728617291904136474033694815620485951112877675028996921966233652987560621046136325721590995220575764751889040226165160471508593540799182707082400117440474280494275548797108994545973120111452784203248474746219870356085775162955539111926477798863437945320039386832226393302306341820645721669156572383189698463977457248501688819457144235162389970785422881237894992999068876453682416840295129708003421055578253634694752044740487914588677206955609597732549776052217142546304225776771872618722560041932636882561835585195862761256255995637049156860384469179096731271705155261848552785038553692539240944891456024050856233755176275187935877367914120004354351157614899168294747021256310775388550595301582213299066024367146009853755342094906922678600934048248801775171281169691057542683368131659460581722333921260094032608919085763435208037920853067723243511805192666901307221780941124149438966340710923750387426508592225262394464085709773256294406064230639522674718223953336886141529774237831644585544614056594946533429795603897520373947850456607777146590487388616815526601152994362200272160026202547440065131667674789532508405830727344418979840000, 8584102451535546790197281277410814306473860423526484252337058554201656510652339397904511141582356674153497688800688706011063603748997276265096434444604087454713072016486474653724440036464719607075531313845730424817941576043685075596614928442384347269250502704934170528951344686610539365737436476852119880630906392594592731933628614274029184454114735533561561766804120681271545521398922533784247165017928035153421555455867108904124122317287004256973826708648456094933303619416531761451032336785864258968869943661095557740058649538472309378249726257683005817982583818951378848196072272282291997021061550552781326788090083458389033099734887085336191540111795711459417875060655138332305269802861590570194114888844011329019779396927646163069276707293067059663590652658601797271878623273848851176328446014690216131285317271764568218808001589476510660904298427195994650531270604252307163442753692404908362368335015094061035931934703440999354255208367164077579150713986703723532975366692775497153245050515230109419784471349900383969959002352804518545687144991396976535365957337049717898437176772218470308719191030533767623209612370366706420100703565962094576449399135573409005199005968893466818826303447599439283592042504016432392303345444037169919730295254681428469043386208934047160217548448871712263428249906115677428918005887573751655425508881578830846705129379670022120559244576836256671939472488408506817796401845022033479181070442239497751479999635544878683929886663205040675415800132247456275568721612172457906976729351832169775426505526392696195350649822768852411725530477093448470379681874680519548701696510083288536279287636654455886906817301140137406267403811962295332160979623850556139219490625376479177322773444681280309152931557610496944156032517602452053381083652914656127712031457056225350032901694170446158110289500841665914522768154786783580292079003000115946011827365415890290413179981547867285956325638888659985970715116181173443666403572575476551504315917513724280036703621730585248496710307160164238869530066536868466945850950784425644295400613132991468190385763721125051625491915956015132342059384148240023822621505385486913102926771801330717175602501162223777933680915041090128596175237237966843467054328489697313696514180524921038567962482222859318438439837850849206229838592833681348581297053905079306684394355550140297363261412515948890864882311337767353685821062459459085670340065880354638999209760789404515306477091643116707104806128198579419140340489902587198246663812875108424480326179702806542456030223556409781212563030048921775874356289310716779863381283082780718509406200558529007768943414512523285850093796334639171067704993055457305295940511702660953629910934487040000, 6867281958084640164742315524292188065898126231543889388095184574587677954933391875030528824601838831443050617130448958150482069768761290091268309868048912302195539446200418430200261374745544526092141611023406234238018128927533087437270159890177735025589264433404112968023844583252702210908359153548104709480843042148168383866286021375977487338966930626353443726081184824413364228293288160320201330242151754909095114084304422887213194796301219079592438595497547287849507603075210779376940768364316246602641415229152560547714783781041521441504039682958792342196031629777381991052699334218093995045580029717493767271976809859216904885817597271030135754963604905845073748974359362178931475148539703645486928766687889647348701195743961507840215787083985104953560223712330917793497376231743518533448454676380908334000973843290025874249021362027676923224668789887168433045779694802494142775998656657575758979496233046998983059849349063693489807472683553095074848428374017746137738003054073105091602920536247735391173118857195825678731775199559550414296732921217671553782141533832487950517536196982725637778258158374852977164835249569392042445319471947595525427116540407592486579127126525934992352970545152874074180305401040153719571540046696746792285706400454807411501839345729360973657591762983733554575496071240389233074375163735992670047519472282729534236566411137027541917681354080908726473340363905592254284379231827921517330126991108579486646440451423411230664308830330215786479438562850959107520337204552365884661966098296883369257428989704659152673183424515399857982683756385454664869143843781224057684606172980605386918121577727750838529022042309382080259535623684307016524552965311680527815717497441242184877911904412516445814102507695590098313765879734441895027671325832024698244286118251001049528767809144078135709801656168555896749149601698711720920850582801877383483962193754337329582165978300171794532934207093850249741257773682847320625376493692944428807267555051115631460554521593017208182180415179554200368969812863270923724253842234407926797894379549783006168468352552067657042196140143029605929660049788672896437622102078225212283674815235969130130184581399564495813025693683395592982815074235780877577418547976874034812883372994374108764200953104103177224125017802778525528680822923836796899401338147555013369874618033475039930663604698311031967452351343965535908116635573468230989861887892624414727424422680477965493758130310647998106324797641295210919449841107350565642185972336033971898453605385000770272193309395696831025223350315435924275850668119949523690532870157559606476623994295611185278859316813405811157471286134847320511830671647322417530664541943547719146819152773120000, 93326361850321887899008954472381716961709144637170802462171433979596691097577563445444032709788110235959498993032424262421548752135403239484152081720393075623441066613832515027399507598590183151110049079626511311824051251479593379080517827112541510381069837885442648111946981422866095922201766291044279845616944888714746652800632836845264742926182986216520279319528949360711785066366874106543980553071813632059984482604195410121322962986950219451460990421460866836124479295203482686461765792691604742006593638904173789582211836507804555662844427392538751712785479678155634640371487768176689985539206926543942400871197367470174986262669074729676253580392937623383398104692787455860525369644165039062500000000000000000000000000000000000000000000000000000000000000000000000000000000000000000000000000000000000000000000000000000000000000000000000000000000000000000000000000000000000000000000000000000000000000000000000000000000000000000000000000000000000000000000000000000000000000000000000000000000000000000000000000000000000000000000000000000000000000000000000000000000000000000000000000000000000000000000000000000000000000000000000000000000000000000000000000000000000000000000000000000000000000000000000000000000000000000000000000000000000000000000000000000000000000000000000000000000000000000000000000000000000000000000000000000000000000000000000000000000000000000000000000000000000000000000000000000000000000000000000000000000000000000000000000000000000000000000000000000000000000000000000000000000000000000000000000000000000000000000000000000000000000000000000000000000000000000000000000000000000000000000000000000000000000000000000000000000000000000000000000000000000000000000000000000000000000000000000000000000000000000000000000000000000000000000000000000000000000000000000000000000000000000000000000000000000000000000000000000000000000000000000000000000000000000000000000000000000000000000000000000000000000000000000000000000000000000000000000000000000000000000000000000000000000000000000000000000000000000000000000000000000000000000000000000000000000000000000000000000000000000000000000000000000000000000000000000000000000000000000000000000000000000000000000000000000000000000000000000000000000000000000000000000000000000000000000000000000000000000000000000000000000000000000000000000000000000000000000000000000000000000000000000000000000000000000000000000000000000000000000000000000000000000000000000000000000000000000000000000000000000000000000000000000000000000000000000000000000000000000000000000000000000000000000000000000000000000000000000000000000000000000000000000000000000000000000000000000000000000000000000000000000000000000000000000000000000000000000000000000000000000000000000000) := by decide

set_option maxRecDepth 20000 in
set_option maxHeartbeats 4000000 in
/-- Checkpoint 2 of the kernel evaluation of the scaled `t = 10` run
(steps 1000 to 2000 of 5000). -/
theorem iterChunk2 :
    iterNState 1000 (69222202169505361407644727522720826282766982048154029211004671524921626128230155629696690996481922261547613153369876959658403711823706167640455819254063829312604366580082141009143834428780176543554386862665003043886810575522798186558967425454422541035130873978519548116830184855651528802801416550284881629630754962946737899966965110627446405415074392025438637111942619827180336960895473010183745480605538038521813300905260542824044452496596862868103205600331551128292859890353242539643166499814770822577743005963879873725003266136027037570627451612706048380139924415680225802591258172404424502762538868960840712603182647169883716194218776258863182408623639898133406238826650012082474011408191720803546854703329143763835122421941256979968939455374181101795226397311538645367824355336722003415430847315439337945988159253753385246292306582406384938001321359343852750698736524456475500930106569415451134398917529713413805525892521989426809381086760900961041519139638428097097319560513022946162462263950625276358441604282969144949596784289635617950086339052327433436404485274934864185627361166942873955505372068480929635195551978590135147424198584189538965737396616184270291045192248688166598253339899992321945885428211636840723571265092770638221738525238359508445441165931325843093562817635555543016755137704036108359987624659488597390089072263955375145310998406834028999804272268080623583463799985555111206143203657357628207839476373021166062317047548959691938689680027686710303122461706829003279422927124634428965070651318671252367163140957292360296724930708152572728617291904136474033694815620485951112877675028996921966233652987560621046136325721590995220575764751889040226165160471508593540799182707082400117440474280494275548797108994545973120111452784203248474746219870356085775162955539111926477798863437945320039386832226393302306341820645721669156572383189698463977457248501688819457144235162389970785422881237894992999068876453682416840295129708003421055578253634694752044740487914588677206955609597732549776052217142546304225776771872618722560041932636882561835585195862761256255995637049156860384469179096731271705155261848552785038553692539240944891456024050856233755176275187935877367914120004354351157614899168294747021256310775388550595301582213299066024367146009853755342094906922678600934048248801775171281169691057542683368131659460581722333921260094032608919085763435208037920853067723243511805192666901307221780941124149438966340710923750387426508592225262394464085709773256294406064230639522674718223953336886141529774237831644585544614056594946533429795603897520373947850456607777146590487388616815526601152994362200272160026202547440065131667674789532508405830727344418979840000, 8584102451535546790197281277410814306473860423526484252337058554201656510652339397904511141582356674153497688800688706011063603748997276265096434444604087454713072016486474653724440036464719607075531313845730424817941576043685075596614928442384347269250502704934170528951344686610539365737436476852119880630906392594592731933628614274029184454114735533561561766804120681271545521398922533784247165017928035153421555455867108904124122317287004256973826708648456094933303619416531761451032336785864258968869943661095557740058649538472309378249726257683005817982583818951378848196072272282291997021061550552781326788090083458389033099734887085336191540111795711459417875060655138332305269802861590570194114888844011329019779396927646163069276707293067059663590652658601797271878623273848851176328446014690216131285317271764568218808001589476510660904298427195994650531270604252307163442753692404908362368335015094061035931934703440999354255208367164077579150713986703723532975366692775497153245050515230109419784471349900383969959002352804518545687144991396976535365957337049717898437176772218470308719191030533767623209612370366706420100703565962094576449399135573409005199005968893466818826303447599439283592042504016432392303345444037169919730295254681428469043386208934047160217548448871712263428249906115677428918005887573751655425508881578830846705129379670022120559244576836256671939472488408506817796401845022033479181070442239497751479999635544878683929886663205040675415800132247456275568721612172457906976729351832169775426505526392696195350649822768852411725530477093448470379681874680519548701696510083288536279287636654455886906817301140137406267403811962295332160979623850556139219490625376479177322773444681280309152931557610496944156032517602452053381083652914656127712031457056225350032901694170446158110289500841665914522768154786783580292079003000115946011827365415890290413179981547867285956325638888659985970715116181173443666403572575476551504315917513724280036703621730585248496710307160164238869530066536868466945850950784425644295400613132991468190385763721125051625491915956015132342059384148240023822621505385486913102926771801330717175602501162223777933680915041090128596175237237966843467054328489697313696514180524921038567962482222859318438439837850849206229838592833681348581297053905079306684394355550140297363261412515948890864882311337767353685821062459459085670340065880354638999209760789404515306477091643116707104806128198579419140340489902587198246663812875108424480326179702806542456030223556409781212563030048921775874356289310716779863381283082780718509406200558529007768943414512523285850093796334639171067704993055457305295940511702660953629910934487040000, 6867281958084640164742315524292188065898126231543889388095184574587677954933391875030528824601838831443050617130448958150482069768761290091268309868048912302195539446200418430200261374745544526092141611023406234238018128927533087437270159890177735025589264433404112968023844583252702210908359153548104709480843042148168383866286021375977487338966930626353443726081184824413364228293288160320201330242151754909095114084304422887213194796301219079592438595497547287849507603075210779376940768364316246602641415229152560547714783781041521441504039682958792342196031629777381991052699334218093995045580029717493767271976809859216904885817597271030135754963604905845073748974359362178931475148539703645486928766687889647348701195743961507840215787083985104953560223712330917793497376231743518533448454676380908334000973843290025874249021362027676923224668789887168433045779694802494142775998656657575758979496233046998983059849349063693489807472683553095074848428374017746137738003054073105091602920536247735391173118857195825678731775199559550414296732921217671553782141533832487950517536196982725637778258158374852977164835249569392042445319471947595525427116540407592486579127126525934992352970545152874074180305401040153719571540046696746792285706400454807411501839345729360973657591762983733554575496071240389233074375163735992670047519472282729534236566411137027541917681354080908726473340363905592254284379231827921517330126991108579486646440451423411230664308830330215786479438562850959107520337204552365884661966098296883369257428989704659152673183424515399857982683756385454664869143843781224057684606172980605386918121577727750838529022042309382080259535623684307016524552965311680527815717497441242184877911904412516445814102507695590098313765879734441895027671325832024698244286118251001049528767809144078135709801656168555896749149601698711720920850582801877383483962193754337329582165978300171794532934207093850249741257773682847320625376493692944428807267555051115631460554521593017208182180415179554200368969812863270923724253842234407926797894379549783006168468352552067657042196140143029605929660049788672896437622102078225212283674815235969130130184581399564495813025693683395592982815074235780877577418547976874034812883372994374108764200953104103177224125017802778525528680822923836796899401338147555013369874618033475039930663604698311031967452351343965535908116635573468230989861887892624414727424422680477965493758130310647998106324797641295210919449841107350565642185972336033971898453605385000770272193309395696831025223350315435924275850668119949523690532870157559606476623994295611185278859316813405811157471286134847320511830671647322417530664541943547719146819152773120000, 93326361850321887899008954472381716961709144637170802462171433979596691097577563445444032709788110235959498993032424262421548752135403239484152081720393075623441066613832515027399507598590183151110049079626511311824051251479593379080517827112541510381069837885442648111946981422866095922201766291044279845616944888714746652800632836845264742926182986216520279319528949360711785066366874106543980553071813632059984482604195410121322962986950219451460990421460866836124479295203482686461765792691604742006593638904173789582211836507804555662844427392538751712785479678155634640371487768176689985539206926543942400871197367470174986262669074729676253580392937623383398104692787455860525369644165039062500000000000000000000000000000000000000000000000000000000000000000000000000000000000000000000000000000000000000000000000000000000000000000000000000000000000000000000000000000000000000000000000000000000000000000000000000000000000000000000000000000000000000000000000000000000000000000000000000000000000000000000000000000000000000000000000000000000000000000000000000000000000000000000000000000000000000000000000000000000000000000000000000000000000000000000000000000000000000000000000000000000000000000000000000000000000000000000000000000000000000000000000000000000000000000000000000000000000000000000000000000000000000000000000000000000000000000000000000000000000000000000000000000000000000000000000000000000000000000000000000000000000000000000000000000000000000000000000000000000000000000000000000000000000000000000000000000000000000000000000000000000000000000000000000000000000000000000000000000000000000000000000000000000000000000000000000000000000000000000000000000000000000000000000000000000000000000000000000000000000000000000000000000000000000000000000000000000000000000000000000000000000000000000000000000000000000000000000000000000000000000000000000000000000000000000000000000000000000000000000000000000000000000000000000000000000000000000000000000000000000000000000000000000000000000000000000000000000000000000000000000000000000000000000000000000000000000000000000000000000000000000000000000000000000000000000000000000000000000000000000000000000000000000000000000000000000000000000000000000000000000000000000000000000000000000000000000000000000000000000000000000000000000000000000000000000000000000000000000000000000000000000000000000000000000000000000000000000000000000000000000000000000000000000000000000000000000000000000000000000000000000000000000000000000000000000000000000000000000000000000000000000000000000000000000000000000000000000000000000000000000000000000000000000000000000000000000000000000000000000000000000000000000000000000000000000000000000000000000000000000000000000000000000)
    = (6460256287525352766080860952026580646215994138178389285014733060626011143282820096940367448932406789771638363968486015542452389401925409418830114111754762565023740678902986347652157303401423810837230913191855582548856048587267655336106934093968273366129439469273474957064463272626913711336655608319894023517897554646380019017050283894483547974293376227535656892732645051566712876863776215690830410521234545623355351090561108569979992047870764572314216426631413386925120573766411309879705374740253149322359946298372222872293313353820481226433084890779753137736994299808958792817760264037923968359709960775579906092170409753998387282069579183964493526286738400008439584424672104586163654262913730296244632286823834836091097256796070154414693109746334688107325870118297375295736589128652744701473135131373235764268407622944511956937965988502615329442296472286387342999540956707596503593225230483119367005271508426280313042548274012025474405830241854428417931047885337918722637211886939179490002711308303056017593947016042857216620052074617445986376370252139157980479566932687972475657251028500749657955884699537930735899193985969340568891116257466856802990164113322799246677523158893959100238383442430804859838140661926299528664730970854529601024588367445240283970558876718049310351438526370413199128955512510087360009479245954235344485862445590310368874733977557820783844593399443346059148143353205454329203774048740746719040418878486525740655135108019205873840275100777963243906642299739074031733042402713993112090471505975898787231842588993264662153829743368881932297846386327599987929657165256046547439927516422931922843925910407676259858790585790415984190150639658184357576914275522446333029897455893858531752790737923347534632423684704122743976207949116690879199078038754381304069918279508987034451258434224979488692973047782673889848577940964914438876478750554386447197029238126774265653615412165213599720020953673509321683836431742584432867207349888280315127373623484852606007225986363935631834252929534506923516908634573015654024487239180871359961978009864762549826374645706988121987466508448307202158971031536131923663881947271191777867862463956353819287453760150569088026967464618100087019451485964772225567750253314642063849871365227638147933387812983190995839148466520660460156735198379456232771905040221350054795400670184948127440064029735483224568627681190492983965890811183026197300240247585580206144278029085196500846013382849911461146784211475514416029661330399555034971856614177509826722107819903930339325403183415137038792200130819297389974331374032616087072057885132692038404229921892749773240683419480806252599615708923721233175885147399699268404521076865955845041462629736828418078028359597880143470210311358527262765470270076044951727369756106584798515361921897402914110934727609626338921365812859914514388273525474380830675467686445852394809802642771977342145791711701473737313812528691441715141416401932387981245349458257638280557033582679210895448903092241451282587356804556071651684429443225947521508911240278343569691875938617464206326705914632164097499082768849136114576425688696550365662864455461751455310188215898305045576475891906755032957998462120565088992692636519190832169236717939502920630592895222691565412858829729155636999976349329612552060252850310882841097459946122962863885048088943972067038046999358557002222757354966127524769740800619294605235060762660535281644147658120021992198314459594786970945684745043956729317057493759350591825277159297701081687443187649590747334285920319694135926566892826145307727629475590062083246026151663850114020374443152262197028184535044240850398202977020083262730254407156111963541907329072757675608349985616218717140319860372160422135241126216153475028265462121141061329542274586941044093651952513083059152671913741139061987799986712169147654859509228508142246123277996233769791077101797607281149412952083063763982035365449061842510133186891984156042643090094850480373764129202364859109933825754837854063143272033627391088345934480677151919436720075733113062888492961727774179539588522183447252404903524072724316834171373182381585196436255693075014837988624686296949548948415035363023093809272573758743030760794708976420210546813794309043694886634457822848478572750009589469900467888983543121857775889484423987685877184548192613237418261804868367337356591981554388236896499437016704197200300564902937805590028063024823107926346187289207744786045179842062891538281655376640578014884238330729314490013368047244838561859534473372924537187683243695940877047657130756482604163888513794638979062816449206135782369079234537678505928852775508519446883721245632619425108870708020427284657200449085904499595193096657753976603031433711361850989774859336430969879570209659032035629010456304239012726571435616147637782770628883162374618645317018280051612974161403348505831585208477638313131420388355774996664039065877738687842695949822674971489527602254152160687240551790271888855729497669101503121752396555556711096342521892142914267369781502879802214902722264580225571540510955543498564142634820818189672499340701425285138836919435046370024871440449369237155900004383856886787393944808135912970572732591180547069483229119596210682958665009346815335402728817614143454491945281696976045302810672022185100086776506418203288029209171004178259032175907839468546333087041683334675535938794005350295203436658347780880195091213374550179840000, 801123051528441563252551595357980746624789216633099496867130555067287489745930956195834984515279272222350020913690257082099209856744611215502857593561896264627894814222109669099817940926943455090319174717175842689263737951643762822715686872280712448346929371936329259944928010115752058066770091274767075355935246386568420280001883761565865947050060459100014320669814455250034583993938376908265384250342940079371472527318758298643960307873018457365641652180901130714622684228267209231234236659625385925496455820832970086696526812200712343469509903530273894569748190243898628621509887564859380490805926376697997986799045154308593774908108747615581137899556959041453902028473092246364003257405807844784912145657238991242238428446548970628548457426481131634811456317120902863461414806581201551342966054064304241468850876661973119238464796534839527063353830385837568477472427725724453789684442206002192016114723177728201654395115686161551584878182505342454645133866460527216827753790332365958779205363560576211067488367445028486499591330041320913226650869142856911770124420067484351640426774954104532086268716546933901637552881931281238950890099600542493109547726199221109139464957471171073710408408052468542887406984002815707456539580616616817234911498318571822582109510204956874887157557512981801256261132235803159074560954803853717638723561462554990384032142212735516949221834503593709769914845134573768781040554630281192951379770880628411338956975684282361428151569863867547739649752451579621769257726471999441388094885779106888698321450933560141370091756660356927485704671314109616620501309940953892895885482346519681483470106381293702927090249760551138044615705834624247223861958456514441021765068760008499067108272831521101541406977491639268819905997177929363810902882500843731501235685620281408816370298827463721314635957176650273471089957451468901703790863577042169302410897033122646101085167702589890199699601304117822946162321775216675201231735787796358140182692967308669235533275998522607610071024322172334626494166803151833951057380461680537330332490570653536655838098614368428142313735352571052244156911226311308303840647136397396048552355132952557581276786162141875575039823462512357311478197884110844154182444161881488589354449463240803374216401647714089869271482900287393034206963561944748205132597279787028036714474353313215304277181093346283191607736080716900369960017528187044758107477427126018255168340597456344340862186677700618134284706294977845731687257388848043229946850739897876323151652006127875568303032560006242982095973190706448631521898031486325611283578533015628352553071849366109855770423753147788004126192123805247472239287452099036228582812732809866335342490519015309804887802403035155290810538849753619540324818269107348309958381374541863759900437279856736183258127680289246110212852840525888211216662549473564325358308359192721483808619000465662802053468020021509428188866099263926066463743289479087742264109758814374389653460922292303436891079266340295512536914198710649479372400278450772073378356567177506102614034925337306569301234663822471936260646191718515636149871771521925449559886902657552913483801436980203219996164774150146819288441278889495555545907847986249073938089567547547257183893216421711465392175094881258817449105556357766635772325304647363778690909906998624204822471887514608472546866444342805843290126720639159509685561533875651157700718779763454722860235134416888643350435338232352877703415941875057135232979700229844514605802393173471669518704532228431051104703808515963194856109836770443499647216529296093263422373470511095582725935730129157448824213315201841088657874454727015659145732684448643841331438786961631141527328022197420435051355901128876045121161851512396239665795865776323688663686536275866588067553861999175402358448923494656633608960471375954963917203851778635177790457264614931705127646560038339907111024255965809063777130957078928557624930549175114162870743997581727947341227121670005296045301481795120978411901689840666915997877130413537907362431776248449296175847556735363630019605229978266332033902355181208403253031040199114616008290044423561046620562478814483817559104155296175127129933023897018774751037648114616039275458522394900657763817569922017417655245965660508549898400269572113231389560741094695825121366247168508233155230090516383767644026210764237464279600408870195401134765656709286794824360219622776079871789418265460104705297244783798162381679256783675005429774030218477615687749024083104766128710356635652725461061376843201350950853792023140192072303764466927889384908972853934240068068509902637418361789626793980486271245910868053770008834614510121065044256543661683044361555576516955552064802489298125456102551322699311220005822742992811224496993667700684144299643451895716363603845430070127590518306833558025274806272690173757488161020357842634462992127055705902543103068256479047107146526515482954975494630203386243052234739391576508136458854781191212859428043996807323490442627559151209358869701806416826757111501584838406392446247692120860793176690427115687389478412895021826138746384625280153930388170031732023641038383679669902502819152233378070933944690247734799615480732732153521419217787112696711917021548920027992452723830768759456351921230617228339190773800149034309407081742242090086966030068041884221538764727374766949224597883634379106418047345500500876829308452215099495698838627287040000, 640898441222753250482364340134401571802568516623007989919234113468774536698397590559460310230551935534096160824182240299722563250525684687677196579523774390259376271328171576248301123950395784026016017730862827975546948950134049550480512429462761828378988991969886215022133056196588509647518071634369356082786922699506950788204689611313612629679430942848268478582488998857262590764213187622190884125159421065206357950889642181280154026511705188818533140055523969642921784901096411685946974288659286207762485822223011452261407286097546746743458577204525557619455627514369355293155360174149248094722030178199260986393167956016341245527691809764867293275932705451647144093949891398651727021492895410722705224194281579208247168687859976611616295199818650986375535976180912631817187483324406680727570832380265355258113572082552361990617329429970582376494294178939067591502863996881508213754635296344169860229380221060740845792116226090268300329703940647710550197686447641189072766502191012141679967951826906304246281770624589038211417246031235217842691652550936205016168513752447101870313308011135042599762142394815278999445308677730767791589283971525426284965804210804049263022863307019327006498646320062292711647719896635095242062978423640752472751434720072773208896513843310654990786256252612670927176883568807846708425434364557202840402326734315143654225431617367166890968609548206527711505504738426597646984620212633227176521188651427329060026551022534307844361377592477899631666220820085618959173623932639241555180587245397787761412752842926167303281104374576923254123702380810085808065566574428762472817508067780096328116632323827439793473960125902229044555674912430491473833518839897141636478251965540415065152752783891828554453902186273371844849289924234689590815724899472104047277832124054313952157939820789250349176149467038345277750680590403307051461320467891317460364074188676046572708681015406288654037541116863544393867523664595325301366345627825476787112711872290356146171961434123691575262612793504261846400654358612945368722355677300676150427705814933968465114677802088694722370039692668060205165821303319442563577106763737243820033576139575265032233021086467176746446302747772884748501701005537798227238456675596173402805862898400866308314439460988461321305728521843355730128456533324914647176314414883555849724408530435096773441149088912578642133075792649931801370379839494519881743719947318825839531332792828144541781779105428001617056319299170939862041219920421546453676282428174552982140751602495832216216620833329244095174080762267132375825863760957771114673684309453542396114471907563796299122834139667104035680836046127129266152868042633906385361387440221595941133971989649136857117510743918431962296267238163363335804753266825062323612648662056946985302627456113014498712820794923742870894941563640387597575384657916545423389299717371608677488880554377588705784269389258192629812217364711815233260810793875349645465247693137742408822691947719498428071147474786716896811002735382717398659755671283844755763168541940006085159188217275359594850958250224793808914007910509508106748812789318989290671938599199438697617942349940951388724535185247315385340878189118193963367555257181821288276536017573746126050242310809054481185455672685459818854566643713715256679785567822286173102392732442864063559602317735519846879585976043929483700409563295960842609499706138287710594870151296732610805420958714842373090513970694696714888832299384309308680112820620031336337657169223899641090456453095049408022715710782389782911239672967067848093707188688774569772836567161639039781635841197515517344368305735590553756150033484779105609676058505772235864823270474015483434107760003315110754107827757088364749045415314824606045397674598710286947395992400447614118505670094567052189696965651975401834669372520270762500538810343728071062658609053907671304193467413775173166260489692910540457791474779239144328095649437291107500520149189608458388499986901674687929524274976937891634549724997340183381308096830609137425787805355290223496284760271787688954241234774301852989029659815816470091545412229094666948123587609163283883445932167661044552086628741396115398062053586637086524231130330675823764594530028372187924025586692715586530333010861199105403529318453190328501661171865135919146528911456638178299208228750647429421969183489957317752697650233801226546770455774844179053078866524788869111189929714676298709678599409701227800898772814525154537355647584198623693123530931858381797930999267512511461544421799386918224459505521998041006068333861625513839700943023727749805546039139902896724607286916579555033621455249844577942735371170149715525547441647305565476508299958288553825493256920968202000155854227467535222664314937294647914255994219465580416731037692931168310918505514490180698373085076811206746081288778312593674843567756736580997897381937927762719267933668440791828641849332651228606570781300060919733323516738677638998382345476436222145567673325300168132979376070253736507884920311070034871642608830399978687539321000413048728191686465048322329954051856473883288396701586792470600386547072257412915473472237475544066079986015442472881846872236223558919959769845227634131131789160490585899210311323524082414552400827971482346849774494019588584804997302635031714748532943467411872109866770251988570770660312885001265865124697058659302711588293037474949262221356860022476368773120000, 8709809816217216675576195494778872295859103742705388616643493229498288853406267413784738750799787881065564087177455120636204302371988336325082790824523036861101510642310297318447709123389909423848058563741972347190631037097171023413380668241414700728236292773514839473656091148077736590843829271858158119489111346172569156704165450765756969786882964666248393140109267575668656408298646070204782097365838907453671672111084786993170266671074617066361875947135006391938516720952066668786783643050569131627555772825443192202344728299862325347122982599626872616462694211150589984160695878009089205793496692367369138273474482983971728958032776671155797534940527121150874216297971559649762801049039753450465677856954534268254341852956454284242934621120533951374600285384915464962670268988864342143564817254507584260454411083557907581652637627076370977974936091524648573492321785474712689085955921654034206967162205440970870425343051747838142719951184454116021190019932676989631583660352193458980692548134866635939714653527236052218936036231623449630232267998890233331755343019458150138631277297447700057982818129921667532664411723954458093534437165699093082974942430071690521240520515991064485660006040292614878811004636108229416459721345185526447158906837895065758610176983854320292100380027943225395420207520222138666413804725767545421539197820832759366485245492231492825396799162263050675392150878906250000000000000000000000000000000000000000000000000000000000000000000000000000000000000000000000000000000000000000000000000000000000000000000000000000000000000000000000000000000000000000000000000000000000000000000000000000000000000000000000000000000000000000000000000000000000000000000000000000000000000000000000000000000000000000000000000000000000000000000000000000000000000000000000000000000000000000000000000000000000000000000000000000000000000000000000000000000000000000000000000000000000000000000000000000000000000000000000000000000000000000000000000000000000000000000000000000000000000000000000000000000000000000000000000000000000000000000000000000000000000000000000000000000000000000000000000000000000000000000000000000000000000000000000000000000000000000000000000000000000000000000000000000000000000000000000000000000000000000000000000000000000000000000000000000000000000000000000000000000000000000000000000000000000000000000000000000000000000000000000000000000000000000000000000000000000000000000000000000000000000000000000000000000000000000000000000000000000000000000000000000000000000000000000000000000000000000000000000000000000000000000000000000000000000000000000000000000000000000000000000000000000000000000000000000000000000000000000000000000000000000000000000000000000000000000000000000000000000000000000000000000000000000000000000000000000000000000000000000000000000000000000000000000000000000000000000000000000000000000000000000000000000000000000000000000000000000000000000000000000000000000000000000000000000000000000000000000000000000000000000000000000000000000000000000000000000000000000000000000000000000000000000000000000000000000000000000000000000000000000000000000000000000000000000000000000000000000000000000000000000000000000000000000000000000000000000000000000000000000000000000000000000000000000000000000000000000000000000000000000000000000000000000000000000000000000000000000000000000000000000000000000000000000000000000000000000000000000000000000000000000000000000000000000000000000000000000000000000000000000000000000000000000000000000000000000000000000000000000000000000000000000000000000000000000000000000000000000000000000000000000000000000000000000000000000000000000000000000000000000000000000000000000000000000000000000000000000000000000000000000000000000000000000000000000000000000000000000000000000000000000000000000000000000000000000000000000000000000000000000000000000000000000000000000000000000000000000000000000000000000000000000000000000000000000000000000000000000000000000000000000000000000000000000000000000000000000000000000000000000000000000000000000000000000000000000000000000000000000000000000000000000000000000000000000000000000000000000000000000000000000000000000000000000000000000000000000000000000000000000000000000000000000000000000000000000000000000000000000000000000000000000000000000000000000000000000000000000000000000000000000000000000000000000000000000000000000000000000000000000000000000000000000000000000000000000000000000000000000000000000000000000000000000000000000000000000000000000000000000000000000000000000000000000000000000000000000000000000000000000000000000000000000000000000000000000000000000000000000000000000000000000000000000000000000000000000000000000000000000000000000000000000000000000000000000000000000000000000000000000000000000000000000000000000000000000000000000000000000000000000000000000000000000000000000000000000000000000000000000000000000000000000000000000000000000000000000000000000000000000000000000000000000000000000000000000000000000000000000000000000000000000000000000000000000000000000000000000000000000000000000000000000000000000000000000000000000000000000000000000000000000000000000000000000000000000000000000000000000000000000000000000000000000000000000000000000000000000000000000000000000000000000000000000000000000000000000000000000000000000000000000000000000000000000000000000000000000000000000000000000000000000000000000000000000000000000000000000000000000000000000000000000000000000000000000000000000) := by decide

set_option maxRecDepth 20000 in
set_option maxHeartbeats 4000000 in
/-- Checkpoint 3 of the kernel evaluation of the scaled `t = 10` run
(steps 2000 to 3000 of 5000). -/
theorem iterChunk3 :
    iterNState 1000 (6460256287525352766080860952026580646215994138178389285014733060626011143282820096940367448932406789771638363968486015542452389401925409418830114111754762565023740678902986347652157303401423810837230913191855582548856048587267655336106934093968273366129439469273474957064463272626913711336655608319894023517897554646380019017050283894483547974293376227535656892732645051566712876863776215690830410521234545623355351090561108569979992047870764572314216426631413386925120573766411309879705374740253149322359946298372222872293313353820481226433084890779753137736994299808958792817760264037923968359709960775579906092170409753998387282069579183964493526286738400008439584424672104586163654262913730296244632286823834836091097256796070154414693109746334688107325870118297375295736589128652744701473135131373235764268407622944511956937965988502615329442296472286387342999540956707596503593225230483119367005271508426280313042548274012025474405830241854428417931047885337918722637211886939179490002711308303056017593947016042857216620052074617445986376370252139157980479566932687972475657251028500749657955884699537930735899193985969340568891116257466856802990164113322799246677523158893959100238383442430804859838140661926299528664730970854529601024588367445240283970558876718049310351438526370413199128955512510087360009479245954235344485862445590310368874733977557820783844593399443346059148143353205454329203774048740746719040418878486525740655135108019205873840275100777963243906642299739074031733042402713993112090471505975898787231842588993264662153829743368881932297846386327599987929657165256046547439927516422931922843925910407676259858790585790415984190150639658184357576914275522446333029897455893858531752790737923347534632423684704122743976207949116690879199078038754381304069918279508987034451258434224979488692973047782673889848577940964914438876478750554386447197029238126774265653615412165213599720020953673509321683836431742584432867207349888280315127373623484852606007225986363935631834252929534506923516908634573015654024487239180871359961978009864762549826374645706988121987466508448307202158971031536131923663881947271191777867862463956353819287453760150569088026967464618100087019451485964772225567750253314642063849871365227638147933387812983190995839148466520660460156735198379456232771905040221350054795400670184948127440064029735483224568627681190492983965890811183026197300240247585580206144278029085196500846013382849911461146784211475514416029661330399555034971856614177509826722107819903930339325403183415137038792200130819297389974331374032616087072057885132692038404229921892749773240683419480806252599615708923721233175885147399699268404521076865955845041462629736828418078028359597880143470210311358527262765470270076044951727369756106584798515361921897402914110934727609626338921365812859914514388273525474380830675467686445852394809802642771977342145791711701473737313812528691441715141416401932387981245349458257638280557033582679210895448903092241451282587356804556071651684429443225947521508911240278343569691875938617464206326705914632164097499082768849136114576425688696550365662864455461751455310188215898305045576475891906755032957998462120565088992692636519190832169236717939502920630592895222691565412858829729155636999976349329612552060252850310882841097459946122962863885048088943972067038046999358557002222757354966127524769740800619294605235060762660535281644147658120021992198314459594786970945684745043956729317057493759350591825277159297701081687443187649590747334285920319694135926566892826145307727629475590062083246026151663850114020374443152262197028184535044240850398202977020083262730254407156111963541907329072757675608349985616218717140319860372160422135241126216153475028265462121141061329542274586941044093651952513083059152671913741139061987799986712169147654859509228508142246123277996233769791077101797607281149412952083063763982035365449061842510133186891984156042643090094850480373764129202364859109933825754837854063143272033627391088345934480677151919436720075733113062888492961727774179539588522183447252404903524072724316834171373182381585196436255693075014837988624686296949548948415035363023093809272573758743030760794708976420210546813794309043694886634457822848478572750009589469900467888983543121857775889484423987685877184548192613237418261804868367337356591981554388236896499437016704197200300564902937805590028063024823107926346187289207744786045179842062891538281655376640578014884238330729314490013368047244838561859534473372924537187683243695940877047657130756482604163888513794638979062816449206135782369079234537678505928852775508519446883721245632619425108870708020427284657200449085904499595193096657753976603031433711361850989774859336430969879570209659032035629010456304239012726571435616147637782770628883162374618645317018280051612974161403348505831585208477638313131420388355774996664039065877738687842695949822674971489527602254152160687240551790271888855729497669101503121752396555556711096342521892142914267369781502879802214902722264580225571540510955543498564142634820818189672499340701425285138836919435046370024871440449369237155900004383856886787393944808135912970572732591180547069483229119596210682958665009346815335402728817614143454491945281696976045302810672022185100086776506418203288029209171004178259032175907839468546333087041683334675535938794005350295203436658347780880195091213374550179840000, 801123051528441563252551595357980746624789216633099496867130555067287489745930956195834984515279272222350020913690257082099209856744611215502857593561896264627894814222109669099817940926943455090319174717175842689263737951643762822715686872280712448346929371936329259944928010115752058066770091274767075355935246386568420280001883761565865947050060459100014320669814455250034583993938376908265384250342940079371472527318758298643960307873018457365641652180901130714622684228267209231234236659625385925496455820832970086696526812200712343469509903530273894569748190243898628621509887564859380490805926376697997986799045154308593774908108747615581137899556959041453902028473092246364003257405807844784912145657238991242238428446548970628548457426481131634811456317120902863461414806581201551342966054064304241468850876661973119238464796534839527063353830385837568477472427725724453789684442206002192016114723177728201654395115686161551584878182505342454645133866460527216827753790332365958779205363560576211067488367445028486499591330041320913226650869142856911770124420067484351640426774954104532086268716546933901637552881931281238950890099600542493109547726199221109139464957471171073710408408052468542887406984002815707456539580616616817234911498318571822582109510204956874887157557512981801256261132235803159074560954803853717638723561462554990384032142212735516949221834503593709769914845134573768781040554630281192951379770880628411338956975684282361428151569863867547739649752451579621769257726471999441388094885779106888698321450933560141370091756660356927485704671314109616620501309940953892895885482346519681483470106381293702927090249760551138044615705834624247223861958456514441021765068760008499067108272831521101541406977491639268819905997177929363810902882500843731501235685620281408816370298827463721314635957176650273471089957451468901703790863577042169302410897033122646101085167702589890199699601304117822946162321775216675201231735787796358140182692967308669235533275998522607610071024322172334626494166803151833951057380461680537330332490570653536655838098614368428142313735352571052244156911226311308303840647136397396048552355132952557581276786162141875575039823462512357311478197884110844154182444161881488589354449463240803374216401647714089869271482900287393034206963561944748205132597279787028036714474353313215304277181093346283191607736080716900369960017528187044758107477427126018255168340597456344340862186677700618134284706294977845731687257388848043229946850739897876323151652006127875568303032560006242982095973190706448631521898031486325611283578533015628352553071849366109855770423753147788004126192123805247472239287452099036228582812732809866335342490519015309804887802403035155290810538849753619540324818269107348309958381374541863759900437279856736183258127680289246110212852840525888211216662549473564325358308359192721483808619000465662802053468020021509428188866099263926066463743289479087742264109758814374389653460922292303436891079266340295512536914198710649479372400278450772073378356567177506102614034925337306569301234663822471936260646191718515636149871771521925449559886902657552913483801436980203219996164774150146819288441278889495555545907847986249073938089567547547257183893216421711465392175094881258817449105556357766635772325304647363778690909906998624204822471887514608472546866444342805843290126720639159509685561533875651157700718779763454722860235134416888643350435338232352877703415941875057135232979700229844514605802393173471669518704532228431051104703808515963194856109836770443499647216529296093263422373470511095582725935730129157448824213315201841088657874454727015659145732684448643841331438786961631141527328022197420435051355901128876045121161851512396239665795865776323688663686536275866588067553861999175402358448923494656633608960471375954963917203851778635177790457264614931705127646560038339907111024255965809063777130957078928557624930549175114162870743997581727947341227121670005296045301481795120978411901689840666915997877130413537907362431776248449296175847556735363630019605229978266332033902355181208403253031040199114616008290044423561046620562478814483817559104155296175127129933023897018774751037648114616039275458522394900657763817569922017417655245965660508549898400269572113231389560741094695825121366247168508233155230090516383767644026210764237464279600408870195401134765656709286794824360219622776079871789418265460104705297244783798162381679256783675005429774030218477615687749024083104766128710356635652725461061376843201350950853792023140192072303764466927889384908972853934240068068509902637418361789626793980486271245910868053770008834614510121065044256543661683044361555576516955552064802489298125456102551322699311220005822742992811224496993667700684144299643451895716363603845430070127590518306833558025274806272690173757488161020357842634462992127055705902543103068256479047107146526515482954975494630203386243052234739391576508136458854781191212859428043996807323490442627559151209358869701806416826757111501584838406392446247692120860793176690427115687389478412895021826138746384625280153930388170031732023641038383679669902502819152233378070933944690247734799615480732732153521419217787112696711917021548920027992452723830768759456351921230617228339190773800149034309407081742242090086966030068041884221538764727374766949224597883634379106418047345500500876829308452215099495698838627287040000, 640898441222753250482364340134401571802568516623007989919234113468774536698397590559460310230551935534096160824182240299722563250525684687677196579523774390259376271328171576248301123950395784026016017730862827975546948950134049550480512429462761828378988991969886215022133056196588509647518071634369356082786922699506950788204689611313612629679430942848268478582488998857262590764213187622190884125159421065206357950889642181280154026511705188818533140055523969642921784901096411685946974288659286207762485822223011452261407286097546746743458577204525557619455627514369355293155360174149248094722030178199260986393167956016341245527691809764867293275932705451647144093949891398651727021492895410722705224194281579208247168687859976611616295199818650986375535976180912631817187483324406680727570832380265355258113572082552361990617329429970582376494294178939067591502863996881508213754635296344169860229380221060740845792116226090268300329703940647710550197686447641189072766502191012141679967951826906304246281770624589038211417246031235217842691652550936205016168513752447101870313308011135042599762142394815278999445308677730767791589283971525426284965804210804049263022863307019327006498646320062292711647719896635095242062978423640752472751434720072773208896513843310654990786256252612670927176883568807846708425434364557202840402326734315143654225431617367166890968609548206527711505504738426597646984620212633227176521188651427329060026551022534307844361377592477899631666220820085618959173623932639241555180587245397787761412752842926167303281104374576923254123702380810085808065566574428762472817508067780096328116632323827439793473960125902229044555674912430491473833518839897141636478251965540415065152752783891828554453902186273371844849289924234689590815724899472104047277832124054313952157939820789250349176149467038345277750680590403307051461320467891317460364074188676046572708681015406288654037541116863544393867523664595325301366345627825476787112711872290356146171961434123691575262612793504261846400654358612945368722355677300676150427705814933968465114677802088694722370039692668060205165821303319442563577106763737243820033576139575265032233021086467176746446302747772884748501701005537798227238456675596173402805862898400866308314439460988461321305728521843355730128456533324914647176314414883555849724408530435096773441149088912578642133075792649931801370379839494519881743719947318825839531332792828144541781779105428001617056319299170939862041219920421546453676282428174552982140751602495832216216620833329244095174080762267132375825863760957771114673684309453542396114471907563796299122834139667104035680836046127129266152868042633906385361387440221595941133971989649136857117510743918431962296267238163363335804753266825062323612648662056946985302627456113014498712820794923742870894941563640387597575384657916545423389299717371608677488880554377588705784269389258192629812217364711815233260810793875349645465247693137742408822691947719498428071147474786716896811002735382717398659755671283844755763168541940006085159188217275359594850958250224793808914007910509508106748812789318989290671938599199438697617942349940951388724535185247315385340878189118193963367555257181821288276536017573746126050242310809054481185455672685459818854566643713715256679785567822286173102392732442864063559602317735519846879585976043929483700409563295960842609499706138287710594870151296732610805420958714842373090513970694696714888832299384309308680112820620031336337657169223899641090456453095049408022715710782389782911239672967067848093707188688774569772836567161639039781635841197515517344368305735590553756150033484779105609676058505772235864823270474015483434107760003315110754107827757088364749045415314824606045397674598710286947395992400447614118505670094567052189696965651975401834669372520270762500538810343728071062658609053907671304193467413775173166260489692910540457791474779239144328095649437291107500520149189608458388499986901674687929524274976937891634549724997340183381308096830609137425787805355290223496284760271787688954241234774301852989029659815816470091545412229094666948123587609163283883445932167661044552086628741396115398062053586637086524231130330675823764594530028372187924025586692715586530333010861199105403529318453190328501661171865135919146528911456638178299208228750647429421969183489957317752697650233801226546770455774844179053078866524788869111189929714676298709678599409701227800898772814525154537355647584198623693123530931858381797930999267512511461544421799386918224459505521998041006068333861625513839700943023727749805546039139902896724607286916579555033621455249844577942735371170149715525547441647305565476508299958288553825493256920968202000155854227467535222664314937294647914255994219465580416731037692931168310918505514490180698373085076811206746081288778312593674843567756736580997897381937927762719267933668440791828641849332651228606570781300060919733323516738677638998382345476436222145567673325300168132979376070253736507884920311070034871642608830399978687539321000413048728191686465048322329954051856473883288396701586792470600386547072257412915473472237475544066079986015442472881846872236223558919959769845227634131131789160490585899210311323524082414552400827971482346849774494019588584804997302635031714748532943467411872109866770251988570770660312885001265865124697058659302711588293037474949262221356860022476368773120000, 8709809816217216675576195494778872295859103742705388616643493229498288853406267413784738750799787881065564087177455120636204302371988336325082790824523036861101510642310297318447709123389909423848058563741972347190631037097171023413380668241414700728236292773514839473656091148077736590843829271858158119489111346172569156704165450765756969786882964666248393140109267575668656408298646070204782097365838907453671672111084786993170266671074617066361875947135006391938516720952066668786783643050569131627555772825443192202344728299862325347122982599626872616462694211150589984160695878009089205793496692367369138273474482983971728958032776671155797534940527121150874216297971559649762801049039753450465677856954534268254341852956454284242934621120533951374600285384915464962670268988864342143564817254507584260454411083557907581652637627076370977974936091524648573492321785474712689085955921654034206967162205440970870425343051747838142719951184454116021190019932676989631583660352193458980692548134866635939714653527236052218936036231623449630232267998890233331755343019458150138631277297447700057982818129921667532664411723954458093534437165699093082974942430071690521240520515991064485660006040292614878811004636108229416459721345185526447158906837895065758610176983854320292100380027943225395420207520222138666413804725767545421539197820832759366485245492231492825396799162263050675392150878906250000000000000000000000000000000000000000000000000000000000000000000000000000000000000000000000000000000000000000000000000000000000000000000000000000000000000000000000000000000000000000000000000000000000000000000000000000000000000000000000000000000000000000000000000000000000000000000000000000000000000000000000000000000000000000000000000000000000000000000000000000000000000000000000000000000000000000000000000000000000000000000000000000000000000000000000000000000000000000000000000000000000000000000000000000000000000000000000000000000000000000000000000000000000000000000000000000000000000000000000000000000000000000000000000000000000000000000000000000000000000000000000000000000000000000000000000000000000000000000000000000000000000000000000000000000000000000000000000000000000000000000000000000000000000000000000000000000000000000000000000000000000000000000000000000000000000000000000000000000000000000000000000000000000000000000000000000000000000000000000000000000000000000000000000000000000000000000000000000000000000000000000000000000000000000000000000000000000000000000000000000000000000000000000000000000000000000000000000000000000000000000000000000000000000000000000000000000000000000000000000000000000000000000000000000000000000000000000000000000000000000000000000000000000000000000000000000000000000000000000000000000000000000000000000000000000000000000000000000000000000000000000000000000000000000000000000000000000000000000000000000000000000000000000000000000000000000000000000000000000000000000000000000000000000000000000000000000000000000000000000000000000000000000000000000000000000000000000000000000000000000000000000000000000000000000000000000000000000000000000000000000000000000000000000000000000000000000000000000000000000000000000000000000000000000000000000000000000000000000000000000000000000000000000000000000000000000000000000000000000000000000000000000000000000000000000000000000000000000000000000000000000000000000000000000000000000000000000000000000000000000000000000000000000000000000000000000000000000000000000000000000000000000000000000000000000000000000000000000000000000000000000000000000000000000000000000000000000000000000000000000000000000000000000000000000000000000000000000000000000000000000000000000000000000000000000000000000000000000000000000000000000000000000000000000000000000000000000000000000000000000000000000000000000000000000000000000000000000000000000000000000000000000000000000000000000000000000000000000000000000000000000000000000000000000000000000000000000000000000000000000000000000000000000000000000000000000000000000000000000000000000000000000000000000000000000000000000000000000000000000000000000000000000000000000000000000000000000000000000000000000000000000000000000000000000000000000000000000000000000000000000000000000000000000000000000000000000000000000000000000000000000000000000000000000000000000000000000000000000000000000000000000000000000000000000000000000000000000000000000000000000000000000000000000000000000000000000000000000000000000000000000000000000000000000000000000000000000000000000000000000000000000000000000000000000000000000000000000000000000000000000000000000000000000000000000000000000000000000000000000000000000000000000000000000000000000000000000000000000000000000000000000000000000000000000000000000000000000000000000000000000000000000000000000000000000000000000000000000000000000000000000000000000000000000000000000000000000000000000000000000000000000000000000000000000000000000000000000000000000000000000000000000000000000000000000000000000000000000000000000000000000000000000000000000000000000000000000000000000000000000000000000000000000000000000000000000000000000000000000000000000000000000000000000000000000000000000000000000000000000000000000000000000000000000000000000000000000000000000000000000000000000000000000000000000000000000000000000000000000000000000000000000000000000000000000000000000000000000000000000000000000000000000000000000000000000000000000000000000000000000000000000000000000000000000000000000)
    = (602912215935408191611159167179920158556254495625542406713321240122431462329126225142296313371759190106811963032082600225896239320126316366059307631731692838500691531535689710132219722963744672943531640881068340981690320631348688708543480792871349201014774853486814373175358926781267494359216494865567795151456304751361797437704947593263695243970858442077761198645081362034005502279104683201436755927199603322797977635228427392190236962489722993071765206605519992646264066194602494127889101571775956737675486117755643370961165548842628438921625733314167933554795703323080995596981779881706312063923247694300021237505928513429860045554547797753870532482236974794522711224745749247547127752282517132289460757336562173063873046838925732000832764737851273791393355197857932804639696935025315938069056016102550397110794252663116773519471888173579201616998600737049358395296144506108261585262095774888310280988177317187258490495886620170080084927397228011005560173776745097190950551493911505029516550351093506309550527727337664993969218752632756992016478925631113708215930815254801623758474346869515043177422917086448622572048435500361112501909771584854256920413507953791415798313411688126698002332702329094708449173694797406759003491523927878565483218297700311902821605046961615343062568246966863217992229204097378288334886269307511096145896429365478679186961599357503318494475015899977656547777406788825788012888718917143124071403743754605097435294310717004799744633128003437584092037298706002507016613811336308043995485275898021082885068026711223502865100069531807276472488536340049715944723051921038563738615455570280736087752244435514455572297975441578768805876808973808855316343213505587829798877694508655079067516678190681263399178434296632791847389967913688491832451984351235305312878776482683858927128714835649429217714584664780556094518381099742843183881145741896243306268434457994025328878017835546104120488845517544445912116628020382024032107953244411085800402897558613749980107178152942764029587746442754975313030990868522118578721449324784781050384310716292438566121516630486001151442684604267917629342541183206405076766226284674226025161258653088634513643280977963320120604805195345551574705722928333517198306525401660315284997507994018018068465322557185531284862732482495907855683828580683998482435355041657743117274978048715108060052510274862971663764873772802145249642038168005670756086405504962248562438337418100335577657221444741251963927979433895533233378883479706041557627337384668079159107106172340593153588591314628782666393727574838801919335837071712648739304018320164911971357095458419947005896895810982771039447562324369117385339343963153100308667981698636895502193560840677406720440137040531182754970835713254661999420178798752697253363486895270127404350401361650188901982086563532590510922254747171462920272465067624856139822439086751516155994924773273492466523800296003098045008147564694572447483643858767028767589729687037619640979348783052310709805289697783662428402495493245390669718121271181081486281487853746724161724914826867154022742164222317374391461014038035843180556717993727468144579722299866330684506703048503288979596737715540494776958841282205322743500836278372259409799495062768493085511729332996118878518730422635575139201407105762901518924240432128097632593920120729914479770659344760896293017055371421119887725344158306373700131949210714560474644031785679994387973535240492502134813424057083757022274989367100003492381553219431483338759350413123178860229873873477210821504364352834592727612376519788427202418871759381794335032553942971476521064009271047824246085655953262157338397087892366207529170784566516213271409238926903664801272202753046653373203027887014789704343830454659792545766923162820395214883393008921509601303095720917959352389555598893580930317664908820674704185784757547885677436403508940328111296248176982294824393483747643505158552160570421112268745959130320632238622802661352244706263341268406756570949434370021978288792167288200159928531819613745118220630620196416198428170929198160323621444851895441765679498489466184013218652407238139933956134506961167503996805305205488986526150421399475880167934285039547592685831048685822340961166092706045579896776072870152548533852980582424960943233150140760909285424646378088902999448133864179437137398296656450417441244417038288771813720279151282879301455547185375520964322545739007053610323549385224458164836835724192003384215785317279132906862295238780640081036069075669929075625841911226415049641765909589304475162276322810621159170752489970646469450286799611739856084651505263298642716243211513906382641532682485891823443805285254728429260401808419802814075924916506699401404858509150213899037572200106373696215550692870203866508980013047015479176852441691892500501352707488690237454715433397761417078021947512618690031030049112849283471099456741311061385060010118876098212690522573042330183920044112456113670667360844439389558130340492009780954429776486759604360272613004921722951979984285442685547166949900693883823347979596166725731370795035975654741230746808595636003819896022323778286859255521066431281721543213800267453937387269775685457259121024112026477664074730082820082577388148076391876605916801762063726858738331839599413205622424120192695948522452383733668019878775349385821043677152753984863896886489207552636988681639132699845439713401715633560606937950582620989011177415232628703876781712341743620840848327250700252771137982876417279431689411756217758782786973128709211083787786034722567263041783607803047146162251725633569375965293173914854748927050956686025442323122646138350637783910014302105470389149195417549452662338836816293459293168873482782175364159417171637082590524756384940597494926781731619662111064113967101860774845726144740333138426005487190274200350865285307350951438869072657122277796860302482598678214312900652890882697112090227570797993524799635426419277130490893734186150506437246783670064223710345558786875678516087341956442667892550536608458322936289962303044527332099382895928778578686165069909798137861627197221882502081648615461464604937549348819006669131511871344209304949474598807980171317729800311509075823040938743878205942506970896971867314488441995887971045187378104842761660857613296931224326963946648120811578875890297737797068359978931417789672909015324709931629423722077382274360136900608220714545406403587132114774509982940214615712499658142316271726867726983229651919014278612466606162461408444093880572097442003883949229093827461554361704611204874095526268552958736752277187977636127430706395052054158092961118986097159432335968885049180811510017622719444181659135516097828289685182513591973592432587288581237523329205578114557171628950490382328340123895049837753827611559777944734605226753666071124387987085983628505228822496656376034465209394572922723433884523064729209543150837020525029372584959487383333303393450747535753044237938347259109017704757648515369357401598729370592636813429522620430279487143389913044421943034108043067161425014012707985450887659785307587590915902792808087092716068556326791845289101216383183746747706638193876655720742715263370579134133822194662418266420230708318875072330331868080461297222295671819863975050764840729520938245034649397735273189758094900962015107542766617014096805007906762447022863171309093771667775686180602321972139236747978009556635361528819722980073370232419608918525734827494947538201934709989733402957654815872225784190085235013973882849076457501560002294304082110746938708716770338740979797657794477099622312027695446306961466755156436371649741336369221983571406871189461863967468879493219137849344729495302897259146553906642925765756722206170905405169970339296942202010882081240581582970372355146411407441201045581001047885834815909365457798161771705553953994521198731081435543439708031844852913892086165493316058459506574465628593825458402071606356287016038018587550201105629455389056265698789535750004786168126581370005651825880777717956122880322590566582319226801727456189794668073460876790061909187367922151568597356734851682626784519866735737108947169167679948681379840000, 74765899793577404713685412596658296369475708489557332723207250787592430442930525131297250237044762016801100332940756334492543960896566460642512555032290992874252915419741055190069893769037270161449833613711924290011790862991434958456075582967149708982863174075572197575501491447614581088479596185773729319548867474282749658008736545099844525108840223928395055740734282045562933128816262215859812657220391548878698058348779458671593025254446373472616537674311836416660908872238583002618074935918516646212309650578853601976831534514836153472478855859623250855208669681686753806009574385602285800498389830546064436293234335213267829567813410053408415568487455100276422220743687305574890227710597218366601917598758346074874343408923677793385143935637799100536508980966236684515823920925978487256034290365424318968457432526830317398065084767471073161453713035978295287405762548009309881844907705296622966438456066255165716205417564231849723059227611372409790542534482855753179588506796715620033961434336736977411480104846291876358725868079866862399819905610551352723068193410363354602637615287121865490617952977213893125177911346230695220146344580724859512860324284741003763648399102412377302484595859004588264020932913248098789626030101646818817363704925876198752985220171046244700288839982677644740178201275166101770006306994031657585582133608974045859465725007152870777457311202288650427612097209502325741727299953112088447016695349583048811482244322342947160166461845874816064293868035864249083424920419448540233730143042161537622406539655607132353963101780848157303685704368672295937615121412647216080272513765814724843702290205898544432963223281438433795851655832218012168897204947248802216692470826002922596220198672890663134233499436671242288208194784435036631637931152182458871064347826124295242305327386876485661499132349847764694143522054523252075399934565697642506209394655320623956805273818313272330146806345921634281959398864895674164269767285960933914216811996909879272879629893027023974958778476502857870952478058436840985067641083921615258456633198958971586497388798190225592218642152428562799238107899954262891484922283406998690167678796278985330529542593997555666048296179337855497251706943189519589452186507485129328798793052389916013762894239753230897388446737743026456639906760556629947127063311598352677415877446022448187441862380479532074254706522039095497529140489266734238888566235129279900739608789108359345208562045661700438486074841966727932457133280152091803119040485868381047490185638708898808006184600012509371217318854672074365098532904752775883778885530626659136234997741989069559686607268809259619181356972528706785533334982223430863417304778379357744627219892865678025315609667901924822190457527291658228526029667645099882509923953455446738582806938905884900292413024355713164469482619831353000085565228788659501942328908728932423493947713083570951928306149670697881835319116381558264186378894410868587570778296276725370684797164020857074069943130174632714630395052647920500593716853003483107016368529276415357751865756341644081702887651260496703962973273662348892374184885326223597468504094472364442428116728638212892207616430282760615813048634283391036201121894679481943191326141723080109691025647805356413922278175215170844367973723174971768151875910104016056850275323416865460882373776066346693950943587240521062393590389312742151585816997831930888968014843147136534691119075115618278649873896157922562517563302546901348975601070822706873844718575756083811459586023574685597525033978989228332900695625321951733565884860682882554946881491509721672302642625036567558832713218127297512076822065339696199846774248308689484724973611436259930744108175856136822201399499473228812973091593210435422061262078972746085915144225273339583143933848029949442360969093054875059002444074696343237906947063894275082082526843650991140340964854355209338792489613046552025238235338037225233189613525311719424127009201699862888577668249451212082552403260892128065665502868573639317891350377753479725155576583284287489669869586906815811815760708682442947185580323079153086591506831203369286801316509143333374969173741739861779177718613388301810164280325249950576457427454656887234854559082487087087539289590126742969270333817237580723066087171059785027820415986566881187822905081136545734520400173764358076672586187176630201189144840956570794307681493207704129245184285170709008657859262481959319666245448407211451594441309298902676166658511578072082458985609629834344109128817443265994750431804228317665256956315531615424367347343300899268192796224715224978129799007809325580604696418105578463443178105953919448063987060493234192716498711897216258824225902297910525593535194911188055345181229433327818758770828938615456704209459435231764191319400197831791581269490184764158434695939980919016001509741550643350775478775414572135168285220270696098821793509621908448417563826270833334131523839837179144983506203211279880047996351599619354383458859985768979787627685181021646909326779603276652224638262156569297352444245151251650527608207414962330833768870394205740194597477951369090674596627030656385916963860307440374337782830885663677228684113881067628420844325054483270253892502209254362308077478332272401680128649291818543161619178299345133664630427825387586374711504301390955309715622943083974677489372397595831845027248265087734365868064392207657491984542866578377753884945926299184301891683325827844895550411398502737568857216353062981316099115675749709334587043100691706615215329595431796724305747107529603523247433153220534998963665133311090212335848806860428352184006079205056029834189348160066277217448469033956175169085752746579942720307582635472995358478019755782859599504495951225533028945086362083610779822883517708394385354535503264229674567952139154016199404508340654610548869617425233251418524564021776751597061345734148736528625944087791794604591033459253559274354842724084655250068858615743846060896152366551357951892812868271954166779296309875784462658519871028730973001801175254734673077425918692608184796606375218292340162553466786747880141826841705615556302653119525265432348353615192388249169259980680220438250908030897322930854239730827403305657126783399954515895078599045003202179274692509256783345682997112145594544270751048037070829509137316154168417778793293303752079365181811632047714777454652624320812374272752186961925613029157901493383226796899234122094470282073121775158654835676756596076098960064926670179160476700563867332527953983856949692385641498065631702284242462443795275629334845379083778563096272624822747651442543367887868419043592598014274403537530929818402365705977163547362080158616471660377503839060748830246991904865756011011630455395225750932586866808713448417663318402301016673369986113504498830421968609300336518504341216393341156394998984758054878867910608737435624082080932960497623374064355175537867825159683177458593138905916170230859554972595683932621977604632842513487055596336480061693490175895427165834756669038571909108080382038942478896841441748871214809907064509035464256643523104908667991341990655662137981415067111667226557783802060119916140669046695737524938465882735389480810482374579031363729480871725371880215966044108333179936138823893125819135089606249877091460242485790430861662418653049034772802432982695309064967724714242444967934627867034231232866930127605770079279180069618801909075995199067821262986678448967745869880307464872585264754594063816326754885108563195170550953272620292841466121714940416808609132768922734379339300166822829089703785023617333316370819010064776683514838336669180325227676136642821465790391988618120067188731153442899514357801123875046481436317368635005272218500703020691227435937714715712417349880269831703707179298931285927291472261453697711452590120566780209468907968605110902880590322617604208756844172105027571002152414486642675505517481964221890786879162621145598594539201592489727992484525752618472611272928182161330930688267100380101322632816269589127967622721077727008627792468854276396742262846273066189126009368570804503274424315114557055506322081213433593430320087040000, 59812719834861923770948330072770818819645652350171261006875189889990039993807301168215914893343192600385986347824043414050549519874812514780240919467470409756392175377972001090107087813391868629049407629384698021844362267436999930420345775260289124136726811178228072115464709271195926214230627841386718283805420932544040469980740601162032395121386972086185091384374852656611872588306180378105009744189981506113656246713820288847647239192955146623510706190259040212524137049042943807017484663788651676385042172955453594858479052766277214592997105819101588459375921859757844311185159741404022127804108224968091519659528294153009047751955131603624238042386423673894205172341756521455196377123317066274044230593922796579403742231692413324750098856009860269660522010974832593389074959629382499326235379078548156925020833781719168772291532626722219707202789389802343394434339365116194231356096534886910296846402495538008415949480790889520396014113926155096473406639260725380656926542903084425664019541207060454556778791320339387190547415594273560157618854901712949644791402582878024988402847199697510311812990302991043182884015737749404914587091478230117342559624906389288203452715427522357996456937324435118079927210098470639594283601241503419423148693452201004065831490991361121569709901882451154981166471106768371697784958179068053682994030115784727248630228378110117406772876596189709186658957077128075580513166874414516022424207328659037314956940671084456763321546347640952738616629615777538764345728941332085700992653492148276562660692800053726828616386422547460876632127732083938886081156886576149217946341510020588862293928194388599821828686555587548181714823917674445802962352713386267917654694941141116629951823115943816415478035273953326848114178238150262921816250947638327655161291868750710990596559073384922993753460012574903290057117582751516852752545878373858094517167713905706563952275768137590130160567436492192975925605875856785233437874659370416899300928257647814224533880739014387943367009115792442695437530031891292652454518383401155026771289004375470485599486354701293522947713140285655431887453113958528971138125624961095679245717870075782820087810464821092730877055302719939192885851252475381623535397326219326462029791102140782991341245846661452164666391380823189773755004032587731250454303211551935107110091459864098194527297766280583211323010281784152745079688489019803674802891143332764110539185610765840780297163891558654670270114705704800265204763356321861071339157040764609081872120114924315642943773405608772300369968842276283702648861182821862891259378336648724215442682473436826986671915196066673600008571490549528094412385038715078823362439885819480395606595658015505901843957941860196746872003250646597511304957553561101423603072943571475107205046444683966199723633293262470134317541990004584998999361966398384666273971448870377299859748903690752584436015161323837358236843793431357047700307735732439643564560674723007358821458035084929973354792627664045635235230361043261107274805477792544374758308661414898224005895680020766259764479412696150725809533183188878788306291780490764645495144030132006408491098223089676360048855473832240413977801482142243850805850848068807224251623214565832870107342718926135162193960395693195362389504695988626632529897182888857129772528230723424291185346374263461235327775844456057256243312713495148488990352320408889979284771677813294273463433044034537913518110226767169787803845181638877120393055810812310633656923601786736928721976657424198837953553129515170016804416726868998272854110222122945209567807948223095208350508451991040666369731484180232982684940623091213655218243449143343825096509082570893414285501873796740041120875312772309570702544351930649465813055791360449672635230704837181480415993538023985782591980500634276766524707658389335395233447654287827932906599180269437512133703765778626951913699384287252312227533036379636070304764069885631777751262707930513113592811908707458790655339646273204489653314403221111129700007285054138543870358310930556691274007120980833364021884789391248410359210043744600305989941630244938444896345774791886059640777425812431597760152032123972379469571019468056088675973353117525235931786299688358715011904165943793403192157775358091127805296126692637289714909617861168907795871241611349015042910998697827625935364993925152948911012246298556071213024372743089497902441265138005232210085017311985160659550934141818443223437761652165431713648102252001950267716143025562541738515304220425972451427804749129010085652273716261719927056852778236264963993125393646287196136421086424447132818193749796848021994724584357872543862204833907416960705337118979627018172107472406579661850151368792018325761335752712818373241799572011079780780448661123152428276004221148388272883620604848069563924937587320480740689161864152391655338671876969529927719812447233265276140141618783411273001940379688116664307520571568638275153441094547881084124948529209268962030124184237897440171526653781539604363742998415781493983593008276484275079650736900710671779240466088153075088467329295347811420230815687470086181223921567884636225586062776303539143667835578200665071783619291849200579862308720950849446520367168140437669284577397275619369323841747066823894032511766182060656447450224960904668613888799575852877125089808315252677474306552416628582761964881047454960734538117305135863774145623086579794041022275676197959252754372302038486987745135140047419440997549373707573266521735219235878879208917648124235278439747490612240687492836358211580906993983480032507524911813260316119379100440296742439308730147043704364686252455552087879422794690816092352456567972063121016709260174619106975399930826060095983168402567391229517960483392288991584602373251306490576300844240558228821131717030965738635398333725136931039194052822780833029045554621366154399831903613702363912981083931586730628728154826103355547664067641020653605902537135064827523500296849920088145182311401040544592326007725504450721112057033509295470750341710249610902764257947740037345886133858228718047887198278661094819768452879035890641736814617097604946293172298418378653837762980480514737723319419902237338092850213787514939763133684837758479676260857826137423659788223600397664954721010596132455576217129188593929351827026384626811587336660409654791906628942713663115096087841090135342219057371908007128448333253170761545698004325117068668088807895320841500708939623156684539667430383680509511059169149425823740055929444270479679720153138728329150539809082337738584744894734064011958415106111121653628615273660166145928134549934628149315356994145142197800446205508946797721935538682829996723708849550087664569680676851327687185853694055668564516918174789590587918360251623478122761367971787727946464679819449298594581758812335233213398143501206225644662892554293647938028065119094054660298829828397362411016059660526637582528598466271102499030934019212491776789869068743298107963614518957702232378352782761486414793628768711676064597046771311869573604765432249516905532974647764457289969956318663703869278648059193931861809202204764138651424585811078265572121339025960834632763031269903932057752764247552352933565900806253106872993551160370928861275216412312651980913723297732666519399313894225482805883925364843547471754208560404956699034453857119519915806221831560508885447364979642859430037641911573735509662476201771426371846819232265666999651607663753969196262270110940635958687899770244573822753894057332350683789038688934412131515815973824137125702381655949853701970588261347767467477982265178122322844555075288291233678862487111735366744950493595416883107413536192942717329771103655976362204872483026358932268929864454557630346294624232584404445127057443241408033233434327901502169534204028926518518166741161317125885104438457214870066955430047147573915289722638948143067802641898596311856647632301875661755180035259973937913665959224603746798730348132666910138315841703113623072198920312113852699327306811205043178358496240076771688057129821214214616114207797762802115872794850630047554542063580470686423763610033315925584773120000, 812854862555773544047187805746851132153264908694967832906084437675450180938492493241918372852117594282266295754867644982255185377340525351710082405600542427541273473629279324050612827225414652971788467183051565999773019684249856195955731300847136062393254531411232739309233429988384932080987139179189005602306907594331951601738701111714640102615736702090530319124081966157327911498906166747418787113654575020827885165231606412478915583693043999649026010583632019408561352414120498730698725243281223962045510617570613344550677765498057635538145924780208714137474796372544428144835314064010148244265483565529698807624340217812501142611280509214321078755348726781042084847583746937869683777380311917403365557738853351331063428824936571838132373418794443586457725789936175691100202380588740842715924668992836361883848592108013218206825033425769820771795735101481691161229241838370294448135676414035617485971324409442435186331194602800003926065099694619312114320503633837283906017508637752967179443828576136450519597855962438315638743232637515065591518325193011489242562818912085346117852520185747574505186753466282221049719024365539359721698218648716568696825819020119484328587331552053230600371257122634967532945837851687462100586416615464448859492563770827870061999619224661071982219023180896129291599850948665632672093144847233335295761865920718763421344838748861336698078962934508020767923284304121746738808037942135774964746115095462850580715957709884951093981026694040290339044760761288119349080345229397584781122033802811955394319290214878835632142727392206124257132786177737641620504613479077842167255871721133451153784125620960753223011922678948617045228618549647746158992081327290846183093855222613185002212987625973003867913533092963646066033144829693788256060872500676068365294740040678985494767512822032433698927732840860847847564250745025641971159711063674712390517220814076855332175153604704462005922394145722403048575167269988531934680304947498466891041043032857186982202678082038294173043469153034120921380424001776790859721457153890038522929019360052649290082626976072788238525390625000000000000000000000000000000000000000000000000000000000000000000000000000000000000000000000000000000000000000000000000000000000000000000000000000000000000000000000000000000000000000000000000000000000000000000000000000000000000000000000000000000000000000000000000000000000000000000000000000000000000000000000000000000000000000000000000000000000000000000000000000000000000000000000000000000000000000000000000000000000000000000000000000000000000000000000000000000000000000000000000000000000000000000000000000000000000000000000000000000000000000000000000000000000000000000000000000000000000000000000000000000000000000000000000000000000000000000000000000000000000000000000000000000000000000000000000000000000000000000000000000000000000000000000000000000000000000000000000000000000000000000000000000000000000000000000000000000000000000000000000000000000000000000000000000000000000000000000000000000000000000000000000000000000000000000000000000000000000000000000000000000000000000000000000000000000000000000000000000000000000000000000000000000000000000000000000000000000000000000000000000000000000000000000000000000000000000000000000000000000000000000000000000000000000000000000000000000000000000000000000000000000000000000000000000000000000000000000000000000000000000000000000000000000000000000000000000000000000000000000000000000000000000000000000000000000000000000000000000000000000000000000000000000000000000000000000000000000000000000000000000000000000000000000000000000000000000000000000000000000000000000000000000000000000000000000000000000000000000000000000000000000000000000000000000000000000000000000000000000000000000000000000000000000000000000000000000000000000000000000000000000000000000000000000000000000000000000000000000000000000000000000000000000000000000000000000000000000000000000000000000000000000000000000000000000000000000000000000000000000000000000000000000000000000000000000000000000000000000000000000000000000000000000000000000000000000000000000000000000000000000000000000000000000000000000000000000000000000000000000000000000000000000000000000000000000000000000000000000000000000000000000000000000000000000000000000000000000000000000000000000000000000000000000000000000000000000000000000000000000000000000000000000000000000000000000000000000000000000000000000000000000000000000000000000000000000000000000000000000000000000000000000000000000000000000000000000000000000000000000000000000000000000000000000000000000000000000000000000000000000000000000000000000000000000000000000000000000000000000000000000000000000000000000000000000000000000000000000000000000000000000000000000000000000000000000000000000000000000000000000000000000000000000000000000000000000000000000000000000000000000000000000000000000000000000000000000000000000000000000000000000000000000000000000000000000000000000000000000000000000000000000000000000000000000000000000000000000000000000000000000000000000000000000000000000000000000000000000000000000000000000000000000000000000000000000000000000000000000000000000000000000000000000000000000000000000000000000000000000000000000000000000000000000000000000000000000000000000000000000000000000000000000000000000000000000000000000000000000000000000000000000000000000000000000000000000000000000000000000000000000000000000000000000000000000000000000000000000000000000000000000000000000000000000000000000000000000000000000000000000000000000000000000000000000000000000000000000000000000000000000000000000000000000000000000000000000000000000000000000000000000000000000000000000000000000000000000000000000000000000000000000000000000000000000000000000000000000000000000000000000000000000000000000000000000000000000000000000000000000000000000000000000000000000000000000000000000000000000000000000000000000000000000000000000000000000000000000000000000000000000000000000000000000000000000000000000000000000000000000000000000000000000000000000000000000000000000000000000000000000000000000000000000000000000000000000000000000000000000000000000000000000000000000000000000000000000000000000000000000000000000000000000000000000000000000000000000000000000000000000000000000000000000000000000000000000000000000000000000000000000000000000000000000000000000000000000000000000000000000000000000000000000000000000000000000000000000000000000000000000000000000000000000000000000000000000000000000000000000000000000000000000000000000000000000000000000000000000000000000000000000000000000000000000000000000000000000000000000000000000000000000000000000000000000000000000000000000000000000000000000000000000000000000000000000000000000000000000000000000000000000000000000000000000000000000000000000000000000000000000000000000000000000000000000000000000000000000000000000000000000000000000000000000000000000000000000000000000000000000000000000000000000000000000000000000000000000000000000000000000000000000000000000000000000000000000000000000000000000000000000000000000000000000000000000000000000000000000000000000000000000000000000000000000000000000000000000000000000000000000000000000000000000000000000000000000000000000000000000000000000000000000000000000000000000000000000000000000000000000000000000000000000000000000000000000000000000000000000000000000000000000000000000000000000000000000000000000000000000000000000000000000000000000000000000000000000000000000000000000000000000000000000000000000000000000000000000000000000000000000000000000000000000000000000000000000000000000000000000000000000000000000000000000000000000000000000000000000000000000000000000000000000000000000000000000000000000000000000000000000000000000000000000000000000000000000000000000000000000000000000000000000000000000000000000000000000000000000000000000000000000000000000000000000000000000000000000000000000000000000000000000000000000000000000000000000000000000000000000000000000000000000000000000000000000000000000000000000000000000000000000000000000000000000000000000000000000000000000000000000000000000000000000000000000000000000000000000000000000000000000000000000000000000000000000000000000000000000000000000000) := by decide

set_option maxRecDepth 20000 in
set_option maxHeartbeats 4000000 in
/-- Checkpoint 4 of the kernel evaluation of the scaled `t = 10` run
(steps 3000 to 4000 of 5000). -/
theorem iterChunk4 :
    iterNState 1000 (602912215935408191611159167179920158556254495625542406713321240122431462329126225142296313371759190106811963032082600225896239320126316366059307631731692838500691531535689710132219722963744672943531640881068340981690320631348688708543480792871349201014774853486814373175358926781267494359216494865567795151456304751361797437704947593263695243970858442077761198645081362034005502279104683201436755927199603322797977635228427392190236962489722993071765206605519992646264066194602494127889101571775956737675486117755643370961165548842628438921625733314167933554795703323080995596981779881706312063923247694300021237505928513429860045554547797753870532482236974794522711224745749247547127752282517132289460757336562173063873046838925732000832764737851273791393355197857932804639696935025315938069056016102550397110794252663116773519471888173579201616998600737049358395296144506108261585262095774888310280988177317187258490495886620170080084927397228011005560173776745097190950551493911505029516550351093506309550527727337664993969218752632756992016478925631113708215930815254801623758474346869515043177422917086448622572048435500361112501909771584854256920413507953791415798313411688126698002332702329094708449173694797406759003491523927878565483218297700311902821605046961615343062568246966863217992229204097378288334886269307511096145896429365478679186961599357503318494475015899977656547777406788825788012888718917143124071403743754605097435294310717004799744633128003437584092037298706002507016613811336308043995485275898021082885068026711223502865100069531807276472488536340049715944723051921038563738615455570280736087752244435514455572297975441578768805876808973808855316343213505587829798877694508655079067516678190681263399178434296632791847389967913688491832451984351235305312878776482683858927128714835649429217714584664780556094518381099742843183881145741896243306268434457994025328878017835546104120488845517544445912116628020382024032107953244411085800402897558613749980107178152942764029587746442754975313030990868522118578721449324784781050384310716292438566121516630486001151442684604267917629342541183206405076766226284674226025161258653088634513643280977963320120604805195345551574705722928333517198306525401660315284997507994018018068465322557185531284862732482495907855683828580683998482435355041657743117274978048715108060052510274862971663764873772802145249642038168005670756086405504962248562438337418100335577657221444741251963927979433895533233378883479706041557627337384668079159107106172340593153588591314628782666393727574838801919335837071712648739304018320164911971357095458419947005896895810982771039447562324369117385339343963153100308667981698636895502193560840677406720440137040531182754970835713254661999420178798752697253363486895270127404350401361650188901982086563532590510922254747171462920272465067624856139822439086751516155994924773273492466523800296003098045008147564694572447483643858767028767589729687037619640979348783052310709805289697783662428402495493245390669718121271181081486281487853746724161724914826867154022742164222317374391461014038035843180556717993727468144579722299866330684506703048503288979596737715540494776958841282205322743500836278372259409799495062768493085511729332996118878518730422635575139201407105762901518924240432128097632593920120729914479770659344760896293017055371421119887725344158306373700131949210714560474644031785679994387973535240492502134813424057083757022274989367100003492381553219431483338759350413123178860229873873477210821504364352834592727612376519788427202418871759381794335032553942971476521064009271047824246085655953262157338397087892366207529170784566516213271409238926903664801272202753046653373203027887014789704343830454659792545766923162820395214883393008921509601303095720917959352389555598893580930317664908820674704185784757547885677436403508940328111296248176982294824393483747643505158552160570421112268745959130320632238622802661352244706263341268406756570949434370021978288792167288200159928531819613745118220630620196416198428170929198160323621444851895441765679498489466184013218652407238139933956134506961167503996805305205488986526150421399475880167934285039547592685831048685822340961166092706045579896776072870152548533852980582424960943233150140760909285424646378088902999448133864179437137398296656450417441244417038288771813720279151282879301455547185375520964322545739007053610323549385224458164836835724192003384215785317279132906862295238780640081036069075669929075625841911226415049641765909589304475162276322810621159170752489970646469450286799611739856084651505263298642716243211513906382641532682485891823443805285254728429260401808419802814075924916506699401404858509150213899037572200106373696215550692870203866508980013047015479176852441691892500501352707488690237454715433397761417078021947512618690031030049112849283471099456741311061385060010118876098212690522573042330183920044112456113670667360844439389558130340492009780954429776486759604360272613004921722951979984285442685547166949900693883823347979596166725731370795035975654741230746808595636003819896022323778286859255521066431281721543213800267453937387269775685457259121024112026477664074730082820082577388148076391876605916801762063726858738331839599413205622424120192695948522452383733668019878775349385821043677152753984863896886489207552636988681639132699845439713401715633560606937950582620989011177415232628703876781712341743620840848327250700252771137982876417279431689411756217758782786973128709211083787786034722567263041783607803047146162251725633569375965293173914854748927050956686025442323122646138350637783910014302105470389149195417549452662338836816293459293168873482782175364159417171637082590524756384940597494926781731619662111064113967101860774845726144740333138426005487190274200350865285307350951438869072657122277796860302482598678214312900652890882697112090227570797993524799635426419277130490893734186150506437246783670064223710345558786875678516087341956442667892550536608458322936289962303044527332099382895928778578686165069909798137861627197221882502081648615461464604937549348819006669131511871344209304949474598807980171317729800311509075823040938743878205942506970896971867314488441995887971045187378104842761660857613296931224326963946648120811578875890297737797068359978931417789672909015324709931629423722077382274360136900608220714545406403587132114774509982940214615712499658142316271726867726983229651919014278612466606162461408444093880572097442003883949229093827461554361704611204874095526268552958736752277187977636127430706395052054158092961118986097159432335968885049180811510017622719444181659135516097828289685182513591973592432587288581237523329205578114557171628950490382328340123895049837753827611559777944734605226753666071124387987085983628505228822496656376034465209394572922723433884523064729209543150837020525029372584959487383333303393450747535753044237938347259109017704757648515369357401598729370592636813429522620430279487143389913044421943034108043067161425014012707985450887659785307587590915902792808087092716068556326791845289101216383183746747706638193876655720742715263370579134133822194662418266420230708318875072330331868080461297222295671819863975050764840729520938245034649397735273189758094900962015107542766617014096805007906762447022863171309093771667775686180602321972139236747978009556635361528819722980073370232419608918525734827494947538201934709989733402957654815872225784190085235013973882849076457501560002294304082110746938708716770338740979797657794477099622312027695446306961466755156436371649741336369221983571406871189461863967468879493219137849344729495302897259146553906642925765756722206170905405169970339296942202010882081240581582970372355146411407441201045581001047885834815909365457798161771705553953994521198731081435543439708031844852913892086165493316058459506574465628593825458402071606356287016038018587550201105629455389056265698789535750004786168126581370005651825880777717956122880322590566582319226801727456189794668073460876790061909187367922151568597356734851682626784519866735737108947169167679948681379840000, 74765899793577404713685412596658296369475708489557332723207250787592430442930525131297250237044762016801100332940756334492543960896566460642512555032290992874252915419741055190069893769037270161449833613711924290011790862991434958456075582967149708982863174075572197575501491447614581088479596185773729319548867474282749658008736545099844525108840223928395055740734282045562933128816262215859812657220391548878698058348779458671593025254446373472616537674311836416660908872238583002618074935918516646212309650578853601976831534514836153472478855859623250855208669681686753806009574385602285800498389830546064436293234335213267829567813410053408415568487455100276422220743687305574890227710597218366601917598758346074874343408923677793385143935637799100536508980966236684515823920925978487256034290365424318968457432526830317398065084767471073161453713035978295287405762548009309881844907705296622966438456066255165716205417564231849723059227611372409790542534482855753179588506796715620033961434336736977411480104846291876358725868079866862399819905610551352723068193410363354602637615287121865490617952977213893125177911346230695220146344580724859512860324284741003763648399102412377302484595859004588264020932913248098789626030101646818817363704925876198752985220171046244700288839982677644740178201275166101770006306994031657585582133608974045859465725007152870777457311202288650427612097209502325741727299953112088447016695349583048811482244322342947160166461845874816064293868035864249083424920419448540233730143042161537622406539655607132353963101780848157303685704368672295937615121412647216080272513765814724843702290205898544432963223281438433795851655832218012168897204947248802216692470826002922596220198672890663134233499436671242288208194784435036631637931152182458871064347826124295242305327386876485661499132349847764694143522054523252075399934565697642506209394655320623956805273818313272330146806345921634281959398864895674164269767285960933914216811996909879272879629893027023974958778476502857870952478058436840985067641083921615258456633198958971586497388798190225592218642152428562799238107899954262891484922283406998690167678796278985330529542593997555666048296179337855497251706943189519589452186507485129328798793052389916013762894239753230897388446737743026456639906760556629947127063311598352677415877446022448187441862380479532074254706522039095497529140489266734238888566235129279900739608789108359345208562045661700438486074841966727932457133280152091803119040485868381047490185638708898808006184600012509371217318854672074365098532904752775883778885530626659136234997741989069559686607268809259619181356972528706785533334982223430863417304778379357744627219892865678025315609667901924822190457527291658228526029667645099882509923953455446738582806938905884900292413024355713164469482619831353000085565228788659501942328908728932423493947713083570951928306149670697881835319116381558264186378894410868587570778296276725370684797164020857074069943130174632714630395052647920500593716853003483107016368529276415357751865756341644081702887651260496703962973273662348892374184885326223597468504094472364442428116728638212892207616430282760615813048634283391036201121894679481943191326141723080109691025647805356413922278175215170844367973723174971768151875910104016056850275323416865460882373776066346693950943587240521062393590389312742151585816997831930888968014843147136534691119075115618278649873896157922562517563302546901348975601070822706873844718575756083811459586023574685597525033978989228332900695625321951733565884860682882554946881491509721672302642625036567558832713218127297512076822065339696199846774248308689484724973611436259930744108175856136822201399499473228812973091593210435422061262078972746085915144225273339583143933848029949442360969093054875059002444074696343237906947063894275082082526843650991140340964854355209338792489613046552025238235338037225233189613525311719424127009201699862888577668249451212082552403260892128065665502868573639317891350377753479725155576583284287489669869586906815811815760708682442947185580323079153086591506831203369286801316509143333374969173741739861779177718613388301810164280325249950576457427454656887234854559082487087087539289590126742969270333817237580723066087171059785027820415986566881187822905081136545734520400173764358076672586187176630201189144840956570794307681493207704129245184285170709008657859262481959319666245448407211451594441309298902676166658511578072082458985609629834344109128817443265994750431804228317665256956315531615424367347343300899268192796224715224978129799007809325580604696418105578463443178105953919448063987060493234192716498711897216258824225902297910525593535194911188055345181229433327818758770828938615456704209459435231764191319400197831791581269490184764158434695939980919016001509741550643350775478775414572135168285220270696098821793509621908448417563826270833334131523839837179144983506203211279880047996351599619354383458859985768979787627685181021646909326779603276652224638262156569297352444245151251650527608207414962330833768870394205740194597477951369090674596627030656385916963860307440374337782830885663677228684113881067628420844325054483270253892502209254362308077478332272401680128649291818543161619178299345133664630427825387586374711504301390955309715622943083974677489372397595831845027248265087734365868064392207657491984542866578377753884945926299184301891683325827844895550411398502737568857216353062981316099115675749709334587043100691706615215329595431796724305747107529603523247433153220534998963665133311090212335848806860428352184006079205056029834189348160066277217448469033956175169085752746579942720307582635472995358478019755782859599504495951225533028945086362083610779822883517708394385354535503264229674567952139154016199404508340654610548869617425233251418524564021776751597061345734148736528625944087791794604591033459253559274354842724084655250068858615743846060896152366551357951892812868271954166779296309875784462658519871028730973001801175254734673077425918692608184796606375218292340162553466786747880141826841705615556302653119525265432348353615192388249169259980680220438250908030897322930854239730827403305657126783399954515895078599045003202179274692509256783345682997112145594544270751048037070829509137316154168417778793293303752079365181811632047714777454652624320812374272752186961925613029157901493383226796899234122094470282073121775158654835676756596076098960064926670179160476700563867332527953983856949692385641498065631702284242462443795275629334845379083778563096272624822747651442543367887868419043592598014274403537530929818402365705977163547362080158616471660377503839060748830246991904865756011011630455395225750932586866808713448417663318402301016673369986113504498830421968609300336518504341216393341156394998984758054878867910608737435624082080932960497623374064355175537867825159683177458593138905916170230859554972595683932621977604632842513487055596336480061693490175895427165834756669038571909108080382038942478896841441748871214809907064509035464256643523104908667991341990655662137981415067111667226557783802060119916140669046695737524938465882735389480810482374579031363729480871725371880215966044108333179936138823893125819135089606249877091460242485790430861662418653049034772802432982695309064967724714242444967934627867034231232866930127605770079279180069618801909075995199067821262986678448967745869880307464872585264754594063816326754885108563195170550953272620292841466121714940416808609132768922734379339300166822829089703785023617333316370819010064776683514838336669180325227676136642821465790391988618120067188731153442899514357801123875046481436317368635005272218500703020691227435937714715712417349880269831703707179298931285927291472261453697711452590120566780209468907968605110902880590322617604208756844172105027571002152414486642675505517481964221890786879162621145598594539201592489727992484525752618472611272928182161330930688267100380101322632816269589127967622721077727008627792468854276396742262846273066189126009368570804503274424315114557055506322081213433593430320087040000, 59812719834861923770948330072770818819645652350171261006875189889990039993807301168215914893343192600385986347824043414050549519874812514780240919467470409756392175377972001090107087813391868629049407629384698021844362267436999930420345775260289124136726811178228072115464709271195926214230627841386718283805420932544040469980740601162032395121386972086185091384374852656611872588306180378105009744189981506113656246713820288847647239192955146623510706190259040212524137049042943807017484663788651676385042172955453594858479052766277214592997105819101588459375921859757844311185159741404022127804108224968091519659528294153009047751955131603624238042386423673894205172341756521455196377123317066274044230593922796579403742231692413324750098856009860269660522010974832593389074959629382499326235379078548156925020833781719168772291532626722219707202789389802343394434339365116194231356096534886910296846402495538008415949480790889520396014113926155096473406639260725380656926542903084425664019541207060454556778791320339387190547415594273560157618854901712949644791402582878024988402847199697510311812990302991043182884015737749404914587091478230117342559624906389288203452715427522357996456937324435118079927210098470639594283601241503419423148693452201004065831490991361121569709901882451154981166471106768371697784958179068053682994030115784727248630228378110117406772876596189709186658957077128075580513166874414516022424207328659037314956940671084456763321546347640952738616629615777538764345728941332085700992653492148276562660692800053726828616386422547460876632127732083938886081156886576149217946341510020588862293928194388599821828686555587548181714823917674445802962352713386267917654694941141116629951823115943816415478035273953326848114178238150262921816250947638327655161291868750710990596559073384922993753460012574903290057117582751516852752545878373858094517167713905706563952275768137590130160567436492192975925605875856785233437874659370416899300928257647814224533880739014387943367009115792442695437530031891292652454518383401155026771289004375470485599486354701293522947713140285655431887453113958528971138125624961095679245717870075782820087810464821092730877055302719939192885851252475381623535397326219326462029791102140782991341245846661452164666391380823189773755004032587731250454303211551935107110091459864098194527297766280583211323010281784152745079688489019803674802891143332764110539185610765840780297163891558654670270114705704800265204763356321861071339157040764609081872120114924315642943773405608772300369968842276283702648861182821862891259378336648724215442682473436826986671915196066673600008571490549528094412385038715078823362439885819480395606595658015505901843957941860196746872003250646597511304957553561101423603072943571475107205046444683966199723633293262470134317541990004584998999361966398384666273971448870377299859748903690752584436015161323837358236843793431357047700307735732439643564560674723007358821458035084929973354792627664045635235230361043261107274805477792544374758308661414898224005895680020766259764479412696150725809533183188878788306291780490764645495144030132006408491098223089676360048855473832240413977801482142243850805850848068807224251623214565832870107342718926135162193960395693195362389504695988626632529897182888857129772528230723424291185346374263461235327775844456057256243312713495148488990352320408889979284771677813294273463433044034537913518110226767169787803845181638877120393055810812310633656923601786736928721976657424198837953553129515170016804416726868998272854110222122945209567807948223095208350508451991040666369731484180232982684940623091213655218243449143343825096509082570893414285501873796740041120875312772309570702544351930649465813055791360449672635230704837181480415993538023985782591980500634276766524707658389335395233447654287827932906599180269437512133703765778626951913699384287252312227533036379636070304764069885631777751262707930513113592811908707458790655339646273204489653314403221111129700007285054138543870358310930556691274007120980833364021884789391248410359210043744600305989941630244938444896345774791886059640777425812431597760152032123972379469571019468056088675973353117525235931786299688358715011904165943793403192157775358091127805296126692637289714909617861168907795871241611349015042910998697827625935364993925152948911012246298556071213024372743089497902441265138005232210085017311985160659550934141818443223437761652165431713648102252001950267716143025562541738515304220425972451427804749129010085652273716261719927056852778236264963993125393646287196136421086424447132818193749796848021994724584357872543862204833907416960705337118979627018172107472406579661850151368792018325761335752712818373241799572011079780780448661123152428276004221148388272883620604848069563924937587320480740689161864152391655338671876969529927719812447233265276140141618783411273001940379688116664307520571568638275153441094547881084124948529209268962030124184237897440171526653781539604363742998415781493983593008276484275079650736900710671779240466088153075088467329295347811420230815687470086181223921567884636225586062776303539143667835578200665071783619291849200579862308720950849446520367168140437669284577397275619369323841747066823894032511766182060656447450224960904668613888799575852877125089808315252677474306552416628582761964881047454960734538117305135863774145623086579794041022275676197959252754372302038486987745135140047419440997549373707573266521735219235878879208917648124235278439747490612240687492836358211580906993983480032507524911813260316119379100440296742439308730147043704364686252455552087879422794690816092352456567972063121016709260174619106975399930826060095983168402567391229517960483392288991584602373251306490576300844240558228821131717030965738635398333725136931039194052822780833029045554621366154399831903613702363912981083931586730628728154826103355547664067641020653605902537135064827523500296849920088145182311401040544592326007725504450721112057033509295470750341710249610902764257947740037345886133858228718047887198278661094819768452879035890641736814617097604946293172298418378653837762980480514737723319419902237338092850213787514939763133684837758479676260857826137423659788223600397664954721010596132455576217129188593929351827026384626811587336660409654791906628942713663115096087841090135342219057371908007128448333253170761545698004325117068668088807895320841500708939623156684539667430383680509511059169149425823740055929444270479679720153138728329150539809082337738584744894734064011958415106111121653628615273660166145928134549934628149315356994145142197800446205508946797721935538682829996723708849550087664569680676851327687185853694055668564516918174789590587918360251623478122761367971787727946464679819449298594581758812335233213398143501206225644662892554293647938028065119094054660298829828397362411016059660526637582528598466271102499030934019212491776789869068743298107963614518957702232378352782761486414793628768711676064597046771311869573604765432249516905532974647764457289969956318663703869278648059193931861809202204764138651424585811078265572121339025960834632763031269903932057752764247552352933565900806253106872993551160370928861275216412312651980913723297732666519399313894225482805883925364843547471754208560404956699034453857119519915806221831560508885447364979642859430037641911573735509662476201771426371846819232265666999651607663753969196262270110940635958687899770244573822753894057332350683789038688934412131515815973824137125702381655949853701970588261347767467477982265178122322844555075288291233678862487111735366744950493595416883107413536192942717329771103655976362204872483026358932268929864454557630346294624232584404445127057443241408033233434327901502169534204028926518518166741161317125885104438457214870066955430047147573915289722638948143067802641898596311856647632301875661755180035259973937913665959224603746798730348132666910138315841703113623072198920312113852699327306811205043178358496240076771688057129821214214616114207797762802115872794850630047554542063580470686423763610033315925584773120000, 812854862555773544047187805746851132153264908694967832906084437675450180938492493241918372852117594282266295754867644982255185377340525351710082405600542427541273473629279324050612827225414652971788467183051565999773019684249856195955731300847136062393254531411232739309233429988384932080987139179189005602306907594331951601738701111714640102615736702090530319124081966157327911498906166747418787113654575020827885165231606412478915583693043999649026010583632019408561352414120498730698725243281223962045510617570613344550677765498057635538145924780208714137474796372544428144835314064010148244265483565529698807624340217812501142611280509214321078755348726781042084847583746937869683777380311917403365557738853351331063428824936571838132373418794443586457725789936175691100202380588740842715924668992836361883848592108013218206825033425769820771795735101481691161229241838370294448135676414035617485971324409442435186331194602800003926065099694619312114320503633837283906017508637752967179443828576136450519597855962438315638743232637515065591518325193011489242562818912085346117852520185747574505186753466282221049719024365539359721698218648716568696825819020119484328587331552053230600371257122634967532945837851687462100586416615464448859492563770827870061999619224661071982219023180896129291599850948665632672093144847233335295761865920718763421344838748861336698078962934508020767923284304121746738808037942135774964746115095462850580715957709884951093981026694040290339044760761288119349080345229397584781122033802811955394319290214878835632142727392206124257132786177737641620504613479077842167255871721133451153784125620960753223011922678948617045228618549647746158992081327290846183093855222613185002212987625973003867913533092963646066033144829693788256060872500676068365294740040678985494767512822032433698927732840860847847564250745025641971159711063674712390517220814076855332175153604704462005922394145722403048575167269988531934680304947498466891041043032857186982202678082038294173043469153034120921380424001776790859721457153890038522929019360052649290082626976072788238525390625000000000000000000000000000000000000000000000000000000000000000000000000000000000000000000000000000000000000000000000000000000000000000000000000000000000000000000000000000000000000000000000000000000000000000000000000000000000000000000000000000000000000000000000000000000000000000000000000000000000000000000000000000000000000000000000000000000000000000000000000000000000000000000000000000000000000000000000000000000000000000000000000000000000000000000000000000000000000000000000000000000000000000000000000000000000000000000000000000000000000000000000000000000000000000000000000000000000000000000000000000000000000000000000000000000000000000000000000000000000000000000000000000000000000000000000000000000000000000000000000000000000000000000000000000000000000000000000000000000000000000000000000000000000000000000000000000000000000000000000000000000000000000000000000000000000000000000000000000000000000000000000000000000000000000000000000000000000000000000000000000000000000000000000000000000000000000000000000000000000000000000000000000000000000000000000000000000000000000000000000000000000000000000000000000000000000000000000000000000000000000000000000000000000000000000000000000000000000000000000000000000000000000000000000000000000000000000000000000000000000000000000000000000000000000000000000000000000000000000000000000000000000000000000000000000000000000000000000000000000000000000000000000000000000000000000000000000000000000000000000000000000000000000000000000000000000000000000000000000000000000000000000000000000000000000000000000000000000000000000000000000000000000000000000000000000000000000000000000000000000000000000000000000000000000000000000000000000000000000000000000000000000000000000000000000000000000000000000000000000000000000000000000000000000000000000000000000000000000000000000000000000000000000000000000000000000000000000000000000000000000000000000000000000000000000000000000000000000000000000000000000000000000000000000000000000000000000000000000000000000000000000000000000000000000000000000000000000000000000000000000000000000000000000000000000000000000000000000000000000000000000000000000000000000000000000000000000000000000000000000000000000000000000000000000000000000000000000000000000000000000000000000000000000000000000000000000000000000000000000000000000000000000000000000000000000000000000000000000000000000000000000000000000000000000000000000000000000000000000000000000000000000000000000000000000000000000000000000000000000000000000000000000000000000000000000000000000000000000000000000000000000000000000000000000000000000000000000000000000000000000000000000000000000000000000000000000000000000000000000000000000000000000000000000000000000000000000000000000000000000000000000000000000000000000000000000000000000000000000000000000000000000000000000000000000000000000000000000000000000000000000000000000000000000000000000000000000000000000000000000000000000000000000000000000000000000000000000000000000000000000000000000000000000000000000000000000000000000000000000000000000000000000000000000000000000000000000000000000000000000000000000000000000000000000000000000000000000000000000000000000000000000000000000000000000000000000000000000000000000000000000000000000000000000000000000000000000000000000000000000000000000000000000000000000000000000000000000000000000000000000000000000000000000000000000000000000000000000000000000000000000000000000000000000000000000000000000000000000000000000000000000000000000000000000000000000000000000000000000000000000000000000000000000000000000000000000000000000000000000000000000000000000000000000000000000000000000000000000000000000000000000000000000000000000000000000000000000000000000000000000000000000000000000000000000000000000000000000000000000000000000000000000000000000000000000000000000000000000000000000000000000000000000000000000000000000000000000000000000000000000000000000000000000000000000000000000000000000000000000000000000000000000000000000000000000000000000000000000000000000000000000000000000000000000000000000000000000000000000000000000000000000000000000000000000000000000000000000000000000000000000000000000000000000000000000000000000000000000000000000000000000000000000000000000000000000000000000000000000000000000000000000000000000000000000000000000000000000000000000000000000000000000000000000000000000000000000000000000000000000000000000000000000000000000000000000000000000000000000000000000000000000000000000000000000000000000000000000000000000000000000000000000000000000000000000000000000000000000000000000000000000000000000000000000000000000000000000000000000000000000000000000000000000000000000000000000000000000000000000000000000000000000000000000000000000000000000000000000000000000000000000000000000000000000000000000000000000000000000000000000000000000000000000000000000000000000000000000000000000000000000000000000000000000000000000000000000000000000000000000000000000000000000000000000000000000000000000000000000000000000000000000000000000000000000000000000000000000000000000000000000000000000000000000000000000000000000000000000000000000000000000000000000000000000000000000000000000000000000000000000000000000000000000000000000000000000000000000000000000000000000000000000000000000000000000000000000000000000000000000000000000000000000000000000000000000000000000000000000000000000000000000000000000000000000000000000000000000000000000000000000000000000000000000000000000000000000000000000000000000000000000000000000000000000000000000000000000000000000000000000000000000000000000000000000000000000000000000000000000000000000000000000000000000000000000000000000000000000000000000000000000000000000000000000000000000000000000000000000000000000000000000000000000000000000000000000000000000000000000000000000000000000000000000000000000000000000000000000000000000000000000000000000000000000000000000000000000000000000000000000000000000000000000000000000000000000000000000000000000000000000000000000000000000000000000000000000000000000000000000000000000000000000000000000000000000000000000000000000000000)
    = (56267603628367311264231456557147401383661098525086017054058785586229761088684665149811787065352901089701231180251192582251251750167074708335914990473103942407866518260149133118352094700730321566492076959492619129828375427216249038350304247200467314119101644062302925108289799372910638866708210609652620446135979367592158910539776048314963141764256287896316546886503129605847610263886722148220501870109212159077942251153728859584290134047227295343267060002458693124935741206068560456646184309788070620373515121919447181375445026576925904116804592551438820085213701271215636321196232063860700551506485337389210459161044526345093840301017548906420675225966981116542043110961504778731310385993680572115626244286746389234066177944886807618882775518729266614168944070367482341874748969352087156272118345487914761611264423895883040816994605646937081919509282235052594624186469080158747152941708750509869617375401763376099828601000123907094518205039196073816235785313595886926445743042230641826718249993214212291560609484433396064137005586601196038174484979199287238796314901333023788246227234942380409452387834491620260975677196333924949219335034497564686141015448951201734132289292276784741861777161507370032169745766210917886466663475987267018662125445454890825514162312088168859045865153407295102819051169225955408335208516236238324350970665265795610916077693984984888377918066816571638022494754512564284918781970489572275414197419465830884123315220354707001557621916693037901937951960233159985761256195515895548957157580673783720387937904252765136056921799044223700222126854654249194870711051862133952088288810489624232455842547650495411616614243193741213294006216776259449840358507047134695099307691003143070893379137348072514363284129528230144084989136677365088451905427405987786787978349881033382629437649733743993995031678836193392444747189540461185681652131818832638823341393642188564510900453080059048296637256187735566572302983285905337189165744419416498688188350957547487825612571742035533653510004552817251212842078596966525718186105382050844196805184653888719973056599029427393666401631451648704178336432464317941076921024797084163609805141431306733036210206407284901650151957245442313716241872078890368839993170881456864375433312453731255124047581596776521084219917619886555139129559253533472749898341349330185842170626300602770222551229777522861683168517190446726858972623597849442725119665398390368764290956911022852600374669565348887953485635047200094100014079113705800641208510547784504879166677646364536651024460616476778544402988784422823729984699525946257956277125687835208450356188963947916423242936956870502075244792191966453638977686778938944610208532029957935280688761683625686056311332080579230406799955161523581460678932471998389073713139025316399429997955528794818987407143700863915749273501952865645807522551126742671958537620193061860129878622247536008402163634018261910769782362715306377780352947866993060727895655599874155831443959419875844382202943950805122980439339870634495588163744771128940641041803453456741105110992443301736847873495777442448936695650644407512457363894725949149826434554529213188672161304958826301321743150256286352413074709009826347426591839017944758178691161924026272030589042481830266904713317867056212376843809590722023593262126806312246611211467745093207508581717122333580735223212910268267720446698757050841683254196116773585854311420588289054268440430753170868493074065695875431837779385622361744216128591437453074902336182029126207258651894071479430889472638112661255929640319093361955541557054592963134662819236772851942776795305738615090209512445811977221419439042575992783072939643196617471737294891858563942851501128727231322513836354586435600899819886016152462126024101699046168648558792482002859520966673527571929521874637094109117467203791734573077576196382371226167811482243846943953983675418522213957630652920707919022246856518470221020211050805289801209281951885517793342891606158702898127467826495230356732341720778449767636842933452855537648920235160670227530712208701662925104129115656231569788908429461700866878777877352306872355457028013381344531484217636221420131078218032670884973268739652157247285200122353790470519113839054001609277932534061966056828904711414009238176201234113690011853272270150111685273868171698657923393981353798531568747293408681328319722735045237109848123852309976306950802085336243147100054512049181683749732067805076781445136451778265322361049850438015279631034077126540610348965944484033206840892165452369687281101412386415585272397443302080851161341705510136663962208644737718959731796182447674779895993904115911266379883137475625699091035487345608120764887703719537768595109522728537418752953176694314110933772956998710323147353332583828735724690671610435393236541284046522303214143350965425269298816889834162023984771847066499434429777976288050057120512068612470595532815848939405139856805315152954365761209513757094402403993428135971247756098697589470546731286160453840201079017589593698220648019515086307976348765433022776603292637753220990688436146098550917709515799186897590797064021844331609619410713298585851309918814973971689873929817050697545918967643645786163391444275857195064721878875681490329235135921022439471633397482208026480805484266506690921322152760176491705602901107688966185385968055795115344009028995126942698305154460638028257745771808412688605663741397778589396120416120978214778830352647588565250767195098001627869858314341971584836870878469611738934062861973524412652230004602939367985110766844183335405906989028050323683200381457700189985782192098741947866463252914172059452773317843806202612984960956424323485427502030730979855720599134149300034758731625367334204497303920037123604452223974555051013304070968437321469281883058328886364840922750231291615365149606805948000901757120080060085974475778912265761558434261238525700579069441550198334333268435634721471734757272867124151684457899051580069891982965468038109520221077564963862888442207890687898790689194483486151277034645240302722792720325532598863698099937364680341135863426195956913786989876178880546344998762482943912598563015781615934248458857114679141354479610644625789279551310437254923434593413586825580978391950089865238375534785480530867776088514421101221936333807610456229726225319347272143862299101565957168797577073045367886340363548222891884789025970848176976728338669479783264815208361334608768487068556748652917410323075355542484031993391184257519585233528399105983732221886887376206980024435623458674992018714470330138042281195478438472579351988577066685965199167184791318694888329418197421757363585440865472143122772234680282264028031268646176472776869300418777579437563004624044913360038325741573079771271941077552212361640135128394283049715531694132241435771738912227120894574171965654269511009610864681649108256668640041953230231868818512664775808963263133231209793537855006638891655325475546974957779423023401093337242040754331563269316091267483847039210132020277036209993895861945511331525951178762647019123334620553993743041207847008589968414966818466801346110703888694713783999671746567915373096938911569297513458194057286088623689288874440133075862164051197203041284341242089467702241563357577315628636965095994792223376841099120664073077279387272439527647960969242633456841506770633509990953348144612747780221405568521962455916529938164112988103444877666847264707068769886740249928110843814409333792756133396045084591869558820262165115616909692445790039425213824941240108765360606190713501638463754183191947588965137260276391903195691299735118247769747110935568288556973356820820814808379368895520547806730429218670850493942623502702777299739693539343853644341968653768766345880294277242656235084817459761482350065007920049594556150314798146985373645146882041237274556410934267427460899707014344769288009420138980463028341793796135001292451382726330422108476309880009139710625611295816344633400903965936924322628531091589314411847166253356455037353684201885825755269164567151835319364509872314547010267054527728427870090357755897873480652644134819366716304552437918136005782084725539486936557526231725429470937717133071099745995011752668449220750891492422668577686858218994544791364898204487030822306547896622724723720462280127871758574107890984298449741569615106999085377547327417751290050296167804820320811231372352921224733603266076128847444568549588835490518783545572406937517684004571513547038204564652132150877813825581389660720559569339966776744027020743508814799432910890369807458729448359702082574479115654930772061636726691496494346239170847823894871977357804908204981301677432017226697540192510556946731814626450664798775478711630344984990822570356308248069228629403153287801800839994428507476078575964748236588842968131763184948174679796769758008873023562695882737046316209992228082496057498643118186214789116390085186899381401023439724997067186765309587115833786804561228102706253475587877430394717827458968741707880975227644182943411265800545871512682914110226207472892831446927971985812569767083194698383569350719758375463325733353024377708093905922878252223426065341636507136089716115099508130685628070049433943384253603897473479363947279817449291045023639933379739766888868413951598043499851277211846485678976426375106593575432847082347318578477374828705365016395316615605750891450944668699207223125165734887259130914352430176794688932385663817204753969175926441014010333836665081400132654346111771706257440944684985217799765059679203062840631644826620735096519507389039084113019064763602800792658939266877098072295711414548442877441452058816275010165494421324838481893333784670965445515150062228139824942933761875072194942474738959713101193322177893972690789221437587437957247733395138337454358780175537806515813785400314084266535706754096146445396574177187160897277754842427965669846717356783886158367237580898223649837787658692793387200280076223511345788866305785386374562048847998237413159474016805806989077498017722368433408105622176253599469685863097029717988670624510787608226740942509882409878409311972771947073770312128011780057050382034460776960916753022922374002972231086058908802171732573535989773259187620886163882552253390875522727609443451093147957505835682737788143192797355774219061658550630999909046675481329336273160278662043071758893902660459206224114490157325265658343386595099901201222412172703994626881583885573655450420486821539607575587769067333517018629118720423161887012538288820537777944234400336773859504986395465888829701219580299566710193846703676581380976650272084420365965530053344832776435188479882252274752756484517445795159765742794158307762885531507524915025311676958513648015683407772833225268004089359049850544286821136078388881483231987444052755622356687869829324418837179966471059657560584182755895160548622047066812579840000, 6977629418200311416695369116709747195392273802294815623053033586080423679321930234817773893770494134514223201921577141015266486255759773236003781510076077954453517953202960815448504455881687024512073931099109270507549807306655490220315210909065895805272946163870776537257759499668913577418099293518271865257644833373174840581349458164506779673883668802344949104114961506214194244390913517413576251402909959512592832873482952314636614863222985552773606023513252299275704423897622132808501480306659338975173983917239166103702692615791650685802344704531364011619522174421931119292724123709764037780413690698902404171116433813129711730003657704348873324954708567774494931771557558712812977107504182082881860532077851523544324522357408102828967745855545611041532048295107352941762849065086401859760216161228408191673426117334707086518738079429192934872782320516362953245672450429308670224365472032394686672799462842642644818069521147881468218489282261401798636736733984612849559115406062378323270411185295111494389791551291742095809996661488836833248178156394683854131174127879846664706875339908100397388269045769501105839094239957602723836340627368317540485920160500604708959068683249982734013404462353423409650146133287418706107109196019918465993779979967459501922700664627102038581242606806673859299294049014300380827155104122211982995514207932476004779070249809254357873841360314568153054402249889741805909143171115493736958388588740649396435159399226707405568120379101166679308770886033323703410939081669082033468115280618095760491469428862778756788172834818420185773318561372955012433597144228904192182732615900131016707943663736384718508727298354572840424838927495371095558966696356252253097355556115431223865049863123290715824453604068111091357099187688452450139109755488646803910443903686790985358069792233977872637867777704575587511719982832062008994763144744075268354274451525373819005434622169489498006942348104113766593056957903859375826080516833844480031357746096840817306089351723978908159767845094900529802610441464461979467082587140676000104776705826765038037019780038041373109190875236737918838940802995034675450378621074085329648067031553874579435795270429213947012788473956244948893904919987604167916897296464380863090785612204829355806767158732083039392408836105132336499101311779199064438390243083574304101796326299245942694967044191046863489604593203701774128236330185012366324695101818490394964234441843607589775173248486088400471383971805237882423565958776884540990072066561302423560562488140086154016966830363944586045670152796594822212310089901198015411039929547261826008986494343193677935074495770762794361802382135921507212117146696507918135520379329123505861652562605210827731761327091083942277181483414563617077513538550610284900156473051906731032135230839872484776711971059770943025381701470191979088191185195293213135965314731247445144430331973301838318930744646985250140243838457485769481818742941781198698165814194236169366198835269936606196359339977903353624817234673621534089633618445884058447739995469816987098151912660781553990238730549212162855037313883247521627361326039327060618292736462763727198232597809485458897371514313614146020913550520631358819672257906889210724982318727953004408111036952438362062280122104217195718012076368997141329025321596045347175122754739163887829491887782853967566085335778982822600742123438362481476720308351068223694085966576531554782772556983242100334258303550589966197607250793507651295480348981602112273984772672561230281973886171330953601864438950043783997799136028793385942192974755206584869804592106898940066197547893994278146883521202652061624716494355114533521759886363002436566532731494558388810034179006415268698952719580909099737029375982797038835260452287380081276994299867309277630648026146949422643656149179171233686410701489301433153414882175250528212363452028143955461260528263274647642772072076266685040578514734884699609999657422597153642069216673950822343457207674615095166425447566322179815933281344411339414388004214528235046376011797045821091104473096623003485631314617771094939901653728782240185806232872385547724882556501857092245571337557821574816475765026054901339112030609237091544065532639088259524009727880285089536011776771895230119068240325483534691184313923337100543109774242419338570342066178367106095612534889506093610048857726093379705821223682995883567449730529153027900036355968443105761202990895686211256370199485453581220050255987393851929447940341732360790861491986582058757092369256819315221546815443810069355607475187066551386562391140779034207668605931303179965180585073323562807458132084269235950336345549438131666267564667481618752191898236396072685023020401741312477789964683659524571161469903925515217272696432411550805628887474114685120400633006431186332141531773994965251996286248345900223824318406663086168957732831884722400110978191436313319629135857073693697387905084599888359640321753055181301507899698031144243354292931628891064149213820282309652687490284210789833830832332374134617968684393857765410365819624477404091301536582071229317392091109734367388573037811300206988531546923454339533803642132793208074787524489518240656958394408685816768294678828693184952151520852697998095969601103135532723839969125845535372451466675672671523957360444944903900848473967537984397569198339051782704975443158151379008922582604058067181463816919286532017037305156424183701793918649881298739751347611404548370870617558590916621050436396953763289364700067486325808644633593171156993152758724750693400731017260676478090626222939964162387431631272266929426961727187657363887563640757181579243462288279142859936247665523489522529763269635724973169571302785980042945973209331355802020969392656729103963074014383812959458024747488955699330902633458628797155145407517548006027075508581796903957879678520499997570498442025849381253016065508359121310243737753065812058354870720419376075704307450482871480907226879260647098859345259054862184140963738535155044173474258890076869189174853049636901322727216956043512219513629341005260294490664160166336506824803975439985451687430121327683219632474912981652482182493561086703758392950529154994422764075401604530858026432975522691438618715438075266966604903592719274864827695346575215642651991452806132895109661740445138213501063245907176301549819581096733275003293022772224797338238096736903035726660448678154863859590021160230397936338969353878729344910675077964134607360399396201033385372340595680937755554501478508331537570849224659507522238866699821908179696781099430285684423993933404747847841478249674460906423173896889291197321190553363127623878108227711642006346869063874378861319107575055928883650324138388598096425089689652970646813911022597638679112367475284601002344956576612636876625671669873993205037522474470050229770295347181495560009299928621882971543694987407133021054763505394823087626704659960025200083629530165149990658871269226766694405940057244692634130810813725922518322869080206455415348893305752765468752088367302711386580402267769962626314552813748325148576932193332437598517947373349068467264143457511620923865112399911206555762043387109108766027553643158961250527275874383019092515015826013172737920823393666398963495695288372096429000622743632926362733806675542287233640591224852764469989135563162201546044715165767863636780972241770675549134171400634048452214249291100261035549186768203173006723876186695753850395766910300397479617195142680329421179171261980862199264804265207859795907572264256879351854188757244457333751332834436055386832054160314325817819593360784491209871387315242155683705760541431140619944211289068316224027057248968179962108964723485626044820327055749965820420080703326678629831626241678395536532162082117266312557425727088606542337982781262269245426603683051447827631299220926753702695299894025756806749382154361718443197178317017354965401757800084770737063121539756710135093146652388550787474658863035470882345811917751049212633743944656254872359510400205516599718212640394979781546050425691339397161812046944599981499578136324642440384544658905704187465658272756981837950340502083729941205076386476165056549663935081243733148900189943198658170618863163240405933952428973081216279391676714904114305252966384027135424430510435561656312898768638889501290976261901484272721655014745360860543609394634536974359532782445464685853256369588292747110665902450296334157554593076808192571441547944335863288194274644462661604594907303289031051173772889932021348315519321914535595085696149389004148529555424560537837604953075725187077868091402185531660790544280576070200731526406480058619374064687134351630538470712476792032342467657802840764969324186537118059755021321152797378383124924878053716249135257767857748667699706841842414039903727880865027210054188809351270135224568802130173540476869266886882125186852515220024763236579161822579127553687616812832736427564734839366464039905647549638761354118162035969424828004005812670610339796814786390715768123477864408310688718266667564566305904273145106536165378061074583773286750924276142058091511589100695364980613443273011478162585183519989758924660870227636473128210362286449891439710716807733460623133820181237036693252976380558715557257048269647088991923631227637677569958673044502776398408955277614295061543318083104465950338861869677644289862972196269170177173886261960835059345478425951738171903823904333698890661988383438340674577221077960763983224896847015558972993477028939796723765103893961446607425201273885466184235940140062760898415034722708252323573410743938552876018121674043099891813976242248682676337307602522242512136401780584853023226092462206826132432909341593458669826746752930842693354958781040191587995037682602885757784329061999559904941467359273624377747391862959944326822278144300048233257819420557951476327953716828162466127361436545524745240852238284820952268031911813718767943482944903802639257029800987445111777986594129185497793734323810771679240805774508534552985314145063007494818355644532215342753554313059121153398870753131365910664232531896266227621497507350785296346079894399524946894824667222799077689000978373284869949299591535590491768616226620653383181730970995447403583493047664209405251901854216642079806943804849606639488446124031571840722605269710533403216827857139060534121512038896651445989276388328086363896381597541819861549348236148337745310980109772491538045341122553172515726632151255622151652026180308976487092149795413403785407191384528429725285314461131119173022253132050066379198006196630114273889882983612443691635550635711992536215725183179003452940300113198947326459454995673415895383161306460858037508128975944612975811139139896806696325622983042486384034981155842968986278888215488193202761999197520178691459318814525141687339971783914207617656506876200887678544599298635811793686012887040000, 5582103534560249133356295293367797756140389801159233943349978153710963195184176008352958707129610523388416956977693056984388999937148891408002052802635783550264353149880378537760670888343131296256942347620882344684099078356640927339422615444289909289055974175451886393536579341059209171724744595341908483744622829305368636177244277340614206600996578315186075384413270904740815008720524222487599342823894624857678649138180061605548372695913928279602076085021062815791069609424140806965569044975914477419902141371832571973535140939027430904522712158554919466856416604194776527461449620900894913283959508789136059503365444719887938040819603747944698794870040325332387169124900825477735716270546500289028982355964763311330174573141591901650780611476172423876451240094251821074568686922369892395727959879588574353760526481700012459219801708889035706181710212984347479660669216313752900264331236666949567985783076422029548526464830089806481486564222199570285624535284795175203749208377752646526904704652365029797664486625463088965416427271424824862306379227778089957176442779783485917598231872907242386159328631594057978781388605651647548362192621218639050883682867230951938628301458320482721616049362471470052625535064739396074625360410298836801709967633083355163930281974534859427843715869594298390148471076180141669243879238819077860087324060674349007008102966919773858175692323753539897649090367521195210701438258359222933607166352490503410189381094206496990381815670178403232563384501368186006098955550939669826347170890059867043140311708042799367607857624604429105923567238524371625400049213302544661011697644035547163244800248877453722935910178601574290259616375298790655201843183435210250084023994969817901855179513436825635604315722576764750601487696677403749158640815063291816074975535571334991978491953707140740693541956835751230172356862644563317664540679203806581718911472150903313299849640520508260119218175717487782639875083235783465107247529170816948794588917214115782073584711852282650786258988367062341768715707768346147016498372056519447100783591038115063747672684826154265264789516697366623832461150265186285992246152346242218403135625528962381923065100742660435669100127693085222309580506332830137802034791708891972440869728798731978379844819475105716005363102676723657168024293083063101287344504235541552593611068977994606022211177110405277587640919060559312612917377111515706098570887017639595845642115961027899327942697846749996149986459348176617276539540668271662926189391352962635125524884816644493519034096239319424506686673548776674877294548155072682600584606858262149195269494380771289292186425334520858035579896112412345306755944442783427644028801547108096679082966650157779310409675717004952997004957579910302168248306585250881503418129079603713473657338254229782482926684539561201787900622329740715972816150829342891587613257156458116139014115223668602734280853836830910032542789185814393060772026529496120989212384220793439581213261641828605603451652464984187060698338853252383559631904935246620065638630006049796834762729379047616440519126570099093060856956305880557795741520963820645633766005886894522061117384480912351620377028292172051191323898373310855994865753563876828656626464573185061056267969458136961085396788774733660788866238180974884334940694550970391401543180204173741526574268728553065381130753061755855343025133517457202518107631536360691911923103207833579565813983071462577365483780749068992638437011386510397817529768955321098201041845375829783351355053995096377493533112306865523538862196446097096387036419793441674192121084828485515407210602868002865270686702452103398605398631441581441490506588053613943504511516389725390532987773107957901394413434485599716862048828471492721202210075225571366855581102432092934150308515783683575918597406588947126942258698826537492292565330440871885736082479901156163563227755435276938595789189717714588745390857281673056655682581109059255580036281223877494232635789977658640088179289756918097405893794018179844094810855934451415657879513614034422659754778630115522768761110350310812651802804217108795218315541025384401022787398385086545776592078043890905207722235096231045525798084595629529396562194251931498847110211616873324116270494055465390662173055950270820147411346942227341914836228063941950740070464182653447018824141212507982607440655605628174859574623684379259613585682294665601555165769397523046123912880474311283446960545355707082793751746326681278670019735634638120316823455216079285730254948696064609210950359406648477329088970177325523525514678186841355086866447715793255129081758405927601771411520105182752385991013872225618648939978446737213080818565548165340365448233688667711384416667485645707733027155588187691446822411261912316354815717379596361979950795250955773504188281920821681225928330022751152256168975026673393702419524261482169374603224460060217729287066005326350928975853995915284804644928072387153680550508926807682056052887343622080944472230699871884844227400319612275784220815122956646839243864453010359634683866100037859317503979193761339570890530780503269609037435337429736642980343973736792880494799550882115167883430474841747202122860034433212392814323121783976886892323372590560999970931355492921732093437898639296342946043341141002594663075070297489303003175116800235270352634018860417370770130122102898360495034516028492844272508077656887927882140687691367141707064993583789826130652010688849384151324673228310130584555293975641836853144689380649911265595644496504991243151574900974933428312499200878510639939569581972608049790562035604161672292072492888744234620366108526808645763062931782003426561282025263646280481673514432621113238295942052429016423155785357167500347875363476949229230066327458129831433314988600639884257569994299283388143917534757906206448468225061070239363680877414559237373605446925890778541338184636631679819795073265507473676119495512361275508386453168346281920698579650531612431122060123526935921515726332082796070744213370118509864281876793847529714285732285346735710439677655007421677344042423459058407085091838516906850954644493197249861686623946836554755487909976769383982671929211395774346960728392292007655511253161122538264868935633959968392354962790461466399408281252744005900531323857879833850035627511290810682463631764184149499337833188200264778752978270951167054464478421454700074932781826890704171363302102375406389277582626005921760098263728724969324340289603947561199498493241007364776990910290432358323025845476237952543110824168075041836477755335711457815698113568076848614695964935233720375322153466413090210665570830965955841338942989611766316919318427645390279082004683173935230085329393847841110339931782067140222942516266412786820098839599530362996362747163971499199167164740215177919987463258181705870066384782965060973178761653963545770883696253224505757224491119306497920535762206438237516135528769838572635039170933989219863696981499852994122347076064995149209120882950543279107173011552656442153923400229033959609229187660883346225904908956873629798329206323784762840012038172509426686775988406010072517362425461320317865145176685916834460914641590943226726133392617829665027307446856601139405414398084863503555620217821680953519637634029510052783564304252726806633072367346522699500932806233879260831915885227445824827886072669079736104773872701066949932748392008455640053926022955389783559658910441472379102489400736633796765594974556902594504372101175248491921707033708799544113951359115823655477924245785021592641919570438200327527052950964829633149356208705115010769340459803674993109114135949820901575141808189275951050285794294575376456205747049261456772837638418619623849676669729890994231191443545396957322105406722871451501008092417083729268891311421968824443754670050037340127313650891647280117228022259151539906966442503629893077742913151497340318635577752994780772918332792395045978080425812215213690260638514200001902205982580870306780866194722823091543915158644553037219791190880757652480042748377032901638572264885872182209510839505820274964769155479011432935680937733240364822560099557971185911064700708212683922988189245208032801268561467650369308767880036929554009825575145181463891621180055142365342590864115341372101723752257658626927296120086095200368940103781148374095349282860253356543185907102498085261743260854132275066773013956245477384183891709804005258122608918830993981351790970295730492563062981070967054923993968181590031112912046176723226993731622538926505060634119379717352978329572352848504459597160696120407561753121117930955535111669190240089450956637851379263538736081582826388291572312534217998138809809585658766965634744945582909080676098175956274696280983813569708613168082519698386333770016183759785176066583473510210882486826776326453823615016183985218953218169375363332749200834340075045177902461002790912820716793571016865220258761907420361859802900150389083192190563850280635900262158860851484339935172316694470791096397700974770664513461755157007128547328803556035296748740809113107623327656596855020034515878638268201474489330765773530814842756228760267071035588817296584800869769660535618204829413577401934066527568913092861425231295226144250444627452569900832287290311663947108504835115811036484274716281065722535090859482814988375959615130368047207228306655962792823278631155946823959184918510258222937600321251962068652015932961500328676799267557553710141105198120731917456358262170960592456506772809828767302782829191545032025968263793156094422393248014442137128981052717160362161147900050378642028954914560131254744844455518908311131729400039250875469449736289152178589815748971196710025891605633988738611625310446834730345821743222203964454599177607799420185060403366927741193532455072947531451743132601973514290837153187881649380298166135735802528698940126882482638742078720478316135808555027757695641171195990672072928672638753562355968598867656079058458664468691704368641383439342001720883834900682624858021450790140750872418936459170132246628567853378920196576432670284440513837883247887882924793242180726567977277378124924950119888162522029369007136385539319545307372151861997707527844539950796402835606739456722694922575071604150035217949294449777216143760120720715046619885324510567112528021093279965645572298611470512580046399892835694855260214357103211443084298043197974633961636292111474571014638078363681255352201553684812868296459311635105144142422067668381924481987163084190024786812343365038877014739722337152117149453309995214529638415952028898708820967404340431098985659951160609862372343746863551977366607372421847064081495549003428954555278568995861760280321204040050263725734514032119175821270791884402595661439347311586931074488932143363154807438182613926239028465722556760926650730091189767278271280894890720608350317023296627166800773120000, 75860787034673785722312053036868371508151850111271195356770899569515364354639725087526682166771134582162174851536640619964194352006328103434281102973112501930637679602689321412198735631190787404223389605058964262285540796757621267433559659398848952693022846636583859810139891092100194580930166821266745401290674798146434895857063669970981067033059767018401481932765708597246167827459098640136567183872454428384638572429794226807304834324966290296257710404388213609546690557134165682776788559469157376031066238992331382487181809772189200704175612859411114442835060303521631900157352707201868715523563810867000736834167988170787358810201528279129346328618321907834234883739977180173155991112894705068452831695723277008027384686655378291775627723743935914227034499154987833047232459241492583955760485965755087417054148050172734157078095221087242925189217436998405691306578223294937047024694579073440239601294864478237883953708925485497567810466587038023176521416002406954071228432317607420132793406966315326822980250749281675171755170505873273672725970228921985798234286470624719825557310637356879640300537577577932785119909449662355808352785015992686153114960615592651293831935218188098161630627452303290940867770709790579437675040530438399228153378941668144268479480105340034891912352313932615310088573780736187037217508480712420749652326846444306758687351890966605220071881403046836993483517563162985964527786878617059173582870992136331820512046106840299114324342656918806855390865338666505221747509548896646733545773988023452462840054936427806442268160527962543084563811040856019845223976103887533896910812578104870080674699859717526025532619838610205962429326783861317869149758895333968933796552078897058863372740092304051349883353407984866479031794128315705321586870282173174911242354653604893558727530613756161115081641369007318705194263092936461952066667161363429944337205952228755044863353953962209963416909136920414795016930870114272879779680837098175403997372724843022613766642340862374975472206312560791334080286133447209020176913153836750141566563177298902191357852195791908671405380723350485871757962786297689114860474389428287944024455318565981842883147798808387728260464129423369245824907773185226555091446310484677437943285196173267266301937715336573665978897275471741849024779000916395082522045195369447307500335214654281351038964445669591781327782453083976640714123922778751392367871118121869216621862765293152656170054294073866640718518796411346474345008931535343132891828428385876242901142220348133099440457697390500703915695429321758668405199917681416759167954995994114800987924052880503501464211865915118912402042161109610338694042304483911482783901961326397113451173580872777873395893403108219948573298573283363359079702323224205005956083391893685075046960264444351196289062500000000000000000000000000000000000000000000000000000000000000000000000000000000000000000000000000000000000000000000000000000000000000000000000000000000000000000000000000000000000000000000000000000000000000000000000000000000000000000000000000000000000000000000000000000000000000000000000000000000000000000000000000000000000000000000000000000000000000000000000000000000000000000000000000000000000000000000000000000000000000000000000000000000000000000000000000000000000000000000000000000000000000000000000000000000000000000000000000000000000000000000000000000000000000000000000000000000000000000000000000000000000000000000000000000000000000000000000000000000000000000000000000000000000000000000000000000000000000000000000000000000000000000000000000000000000000000000000000000000000000000000000000000000000000000000000000000000000000000000000000000000000000000000000000000000000000000000000000000000000000000000000000000000000000000000000000000000000000000000000000000000000000000000000000000000000000000000000000000000000000000000000000000000000000000000000000000000000000000000000000000000000000000000000000000000000000000000000000000000000000000000000000000000000000000000000000000000000000000000000000000000000000000000000000000000000000000000000000000000000000000000000000000000000000000000000000000000000000000000000000000000000000000000000000000000000000000000000000000000000000000000000000000000000000000000000000000000000000000000000000000000000000000000000000000000000000000000000000000000000000000000000000000000000000000000000000000000000000000000000000000000000000000000000000000000000000000000000000000000000000000000000000000000000000000000000000000000000000000000000000000000000000000000000000000000000000000000000000000000000000000000000000000000000000000000000000000000000000000000000000000000000000000000000000000000000000000000000000000000000000000000000000000000000000000000000000000000000000000000000000000000000000000000000000000000000000000000000000000000000000000000000000000000000000000000000000000000000000000000000000000000000000000000000000000000000000000000000000000000000000000000000000000000000000000000000000000000000000000000000000000000000000000000000000000000000000000000000000000000000000000000000000000000000000000000000000000000000000000000000000000000000000000000000000000000000000000000000000000000000000000000000000000000000000000000000000000000000000000000000000000000000000000000000000000000000000000000000000000000000000000000000000000000000000000000000000000000000000000000000000000000000000000000000000000000000000000000000000000000000000000000000000000000000000000000000000000000000000000000000000000000000000000000000000000000000000000000000000000000000000000000000000000000000000000000000000000000000000000000000000000000000000000000000000000000000000000000000000000000000000000000000000000000000000000000000000000000000000000000000000000000000000000000000000000000000000000000000000000000000000000000000000000000000000000000000000000000000000000000000000000000000000000000000000000000000000000000000000000000000000000000000000000000000000000000000000000000000000000000000000000000000000000000000000000000000000000000000000000000000000000000000000000000000000000000000000000000000000000000000000000000000000000000000000000000000000000000000000000000000000000000000000000000000000000000000000000000000000000000000000000000000000000000000000000000000000000000000000000000000000000000000000000000000000000000000000000000000000000000000000000000000000000000000000000000000000000000000000000000000000000000000000000000000000000000000000000000000000000000000000000000000000000000000000000000000000000000000000000000000000000000000000000000000000000000000000000000000000000000000000000000000000000000000000000000000000000000000000000000000000000000000000000000000000000000000000000000000000000000000000000000000000000000000000000000000000000000000000000000000000000000000000000000000000000000000000000000000000000000000000000000000000000000000000000000000000000000000000000000000000000000000000000000000000000000000000000000000000000000000000000000000000000000000000000000000000000000000000000000000000000000000000000000000000000000000000000000000000000000000000000000000000000000000000000000000000000000000000000000000000000000000000000000000000000000000000000000000000000000000000000000000000000000000000000000000000000000000000000000000000000000000000000000000000000000000000000000000000000000000000000000000000000000000000000000000000000000000000000000000000000000000000000000000000000000000000000000000000000000000000000000000000000000000000000000000000000000000000000000000000000000000000000000000000000000000000000000000000000000000000000000000000000000000000000000000000000000000000000000000000000000000000000000000000000000000000000000000000000000000000000000000000000000000000000000000000000000000000000000000000000000000000000000000000000000000000000000000000000000000000000000000000000000000000000000000000000000000000000000000000000000000000000000000000000000000000000000000000000000000000000000000000000000000000000000000000000000000000000000000000000000000000000000000000000000000000000000000000000000000000000000000000000000000000000000000000000000000000000000000000000000000000000000000000000000000000000000000000000000000000000000000000000000000000000000000000000000000000000000000000000000000000000000000000000000000000000000000000000000000000000000000000000000000000000000000000000000000000000000000000000000000000000000000000000000000000000000000000000000000000000000000000000000000000000000000000000000000000000000000000000000000000000000000000000000000000000000000000000000000000000000000000000000000000000000000000000000000000000000000000000000000000000000000000000000000000000000000000000000000000000000000000000000000000000000000000000000000000000000000000000000000000000000000000000000000000000000000000000000000000000000000000000000000000000000000000000000000000000000000000000000000000000000000000000000000000000000000000000000000000000000000000000000000000000000000000000000000000000000000000000000000000000000000000000000000000000000000000000000000000000000000000000000000000000000000000000000000000000000000000000000000000000000000000000000000000000000000000000000000000000000000000000000000000000000000000000000000000000000000000000000000000000000000000000000000000000000000000000000000000000000000000000000000000000000000000000000000000000000000000000000000000000000000000000000000000000000000000000000000000000000000000000000000000000000000000000000000000000000000000000000000000000000000000000000000000000000000000000000000000000000000000000000000000000000000000000000000000000000000000000000000000000000000000000000000000000000000000000000000000000000000000000000000000000000000000000000000000000000000000000000000000000000000000000000000000000000000000000000000000000000000000000000000000000000000000000000000000000000000000000000000000000000000000000000000000000000000000000000000000000000000000000000000000000000000000000000000000000000000000000000000000000000000000000000000000000000000000000000000000000000000000000000000000000000000000000000000000000000000000000000000000000000000000000000000000000000000000000000000000000000000000000000000000000000000000000000000000000000000000000000000000000000000000000000000000000000000000000000000000000000000000000000000000000000000000000000000000000000000000000000000000000000000000000000000000000000000000000000000000000000000000000000000000000000000000000000000000000000000000000000000000000000000000000000000000000000000000000000000000000000000000000000000000000000000000000000000000000000000000000000000000000000000000000000000000000000000000000000000000000000000000000000000000000000000000000000000000000000000000000000000000000000000000000000000000000000000000000000000000000000000000000000000000000000000000000000000000000000000000000000000000000000000000000000000000000000000000000000000000000000000000000000000000000000000000000000000000000000000000000000000000000000) := by decide

set_option maxRecDepth 20000 in
set_option maxHeartbeats 4000000 in
/-- Checkpoint 5 of the kernel evaluation of the scaled `t = 10` run
(steps 4000 to 5000 of 5000). -/
theorem iterChunk5 :
    iterNState 1000 (56267603628367311264231456557147401383661098525086017054058785586229761088684665149811787065352901089701231180251192582251251750167074708335914990473103942407866518260149133118352094700730321566492076959492619129828375427216249038350304247200467314119101644062302925108289799372910638866708210609652620446135979367592158910539776048314963141764256287896316546886503129605847610263886722148220501870109212159077942251153728859584290134047227295343267060002458693124935741206068560456646184309788070620373515121919447181375445026576925904116804592551438820085213701271215636321196232063860700551506485337389210459161044526345093840301017548906420675225966981116542043110961504778731310385993680572115626244286746389234066177944886807618882775518729266614168944070367482341874748969352087156272118345487914761611264423895883040816994605646937081919509282235052594624186469080158747152941708750509869617375401763376099828601000123907094518205039196073816235785313595886926445743042230641826718249993214212291560609484433396064137005586601196038174484979199287238796314901333023788246227234942380409452387834491620260975677196333924949219335034497564686141015448951201734132289292276784741861777161507370032169745766210917886466663475987267018662125445454890825514162312088168859045865153407295102819051169225955408335208516236238324350970665265795610916077693984984888377918066816571638022494754512564284918781970489572275414197419465830884123315220354707001557621916693037901937951960233159985761256195515895548957157580673783720387937904252765136056921799044223700222126854654249194870711051862133952088288810489624232455842547650495411616614243193741213294006216776259449840358507047134695099307691003143070893379137348072514363284129528230144084989136677365088451905427405987786787978349881033382629437649733743993995031678836193392444747189540461185681652131818832638823341393642188564510900453080059048296637256187735566572302983285905337189165744419416498688188350957547487825612571742035533653510004552817251212842078596966525718186105382050844196805184653888719973056599029427393666401631451648704178336432464317941076921024797084163609805141431306733036210206407284901650151957245442313716241872078890368839993170881456864375433312453731255124047581596776521084219917619886555139129559253533472749898341349330185842170626300602770222551229777522861683168517190446726858972623597849442725119665398390368764290956911022852600374669565348887953485635047200094100014079113705800641208510547784504879166677646364536651024460616476778544402988784422823729984699525946257956277125687835208450356188963947916423242936956870502075244792191966453638977686778938944610208532029957935280688761683625686056311332080579230406799955161523581460678932471998389073713139025316399429997955528794818987407143700863915749273501952865645807522551126742671958537620193061860129878622247536008402163634018261910769782362715306377780352947866993060727895655599874155831443959419875844382202943950805122980439339870634495588163744771128940641041803453456741105110992443301736847873495777442448936695650644407512457363894725949149826434554529213188672161304958826301321743150256286352413074709009826347426591839017944758178691161924026272030589042481830266904713317867056212376843809590722023593262126806312246611211467745093207508581717122333580735223212910268267720446698757050841683254196116773585854311420588289054268440430753170868493074065695875431837779385622361744216128591437453074902336182029126207258651894071479430889472638112661255929640319093361955541557054592963134662819236772851942776795305738615090209512445811977221419439042575992783072939643196617471737294891858563942851501128727231322513836354586435600899819886016152462126024101699046168648558792482002859520966673527571929521874637094109117467203791734573077576196382371226167811482243846943953983675418522213957630652920707919022246856518470221020211050805289801209281951885517793342891606158702898127467826495230356732341720778449767636842933452855537648920235160670227530712208701662925104129115656231569788908429461700866878777877352306872355457028013381344531484217636221420131078218032670884973268739652157247285200122353790470519113839054001609277932534061966056828904711414009238176201234113690011853272270150111685273868171698657923393981353798531568747293408681328319722735045237109848123852309976306950802085336243147100054512049181683749732067805076781445136451778265322361049850438015279631034077126540610348965944484033206840892165452369687281101412386415585272397443302080851161341705510136663962208644737718959731796182447674779895993904115911266379883137475625699091035487345608120764887703719537768595109522728537418752953176694314110933772956998710323147353332583828735724690671610435393236541284046522303214143350965425269298816889834162023984771847066499434429777976288050057120512068612470595532815848939405139856805315152954365761209513757094402403993428135971247756098697589470546731286160453840201079017589593698220648019515086307976348765433022776603292637753220990688436146098550917709515799186897590797064021844331609619410713298585851309918814973971689873929817050697545918967643645786163391444275857195064721878875681490329235135921022439471633397482208026480805484266506690921322152760176491705602901107688966185385968055795115344009028995126942698305154460638028257745771808412688605663741397778589396120416120978214778830352647588565250767195098001627869858314341971584836870878469611738934062861973524412652230004602939367985110766844183335405906989028050323683200381457700189985782192098741947866463252914172059452773317843806202612984960956424323485427502030730979855720599134149300034758731625367334204497303920037123604452223974555051013304070968437321469281883058328886364840922750231291615365149606805948000901757120080060085974475778912265761558434261238525700579069441550198334333268435634721471734757272867124151684457899051580069891982965468038109520221077564963862888442207890687898790689194483486151277034645240302722792720325532598863698099937364680341135863426195956913786989876178880546344998762482943912598563015781615934248458857114679141354479610644625789279551310437254923434593413586825580978391950089865238375534785480530867776088514421101221936333807610456229726225319347272143862299101565957168797577073045367886340363548222891884789025970848176976728338669479783264815208361334608768487068556748652917410323075355542484031993391184257519585233528399105983732221886887376206980024435623458674992018714470330138042281195478438472579351988577066685965199167184791318694888329418197421757363585440865472143122772234680282264028031268646176472776869300418777579437563004624044913360038325741573079771271941077552212361640135128394283049715531694132241435771738912227120894574171965654269511009610864681649108256668640041953230231868818512664775808963263133231209793537855006638891655325475546974957779423023401093337242040754331563269316091267483847039210132020277036209993895861945511331525951178762647019123334620553993743041207847008589968414966818466801346110703888694713783999671746567915373096938911569297513458194057286088623689288874440133075862164051197203041284341242089467702241563357577315628636965095994792223376841099120664073077279387272439527647960969242633456841506770633509990953348144612747780221405568521962455916529938164112988103444877666847264707068769886740249928110843814409333792756133396045084591869558820262165115616909692445790039425213824941240108765360606190713501638463754183191947588965137260276391903195691299735118247769747110935568288556973356820820814808379368895520547806730429218670850493942623502702777299739693539343853644341968653768766345880294277242656235084817459761482350065007920049594556150314798146985373645146882041237274556410934267427460899707014344769288009420138980463028341793796135001292451382726330422108476309880009139710625611295816344633400903965936924322628531091589314411847166253356455037353684201885825755269164567151835319364509872314547010267054527728427870090357755897873480652644134819366716304552437918136005782084725539486936557526231725429470937717133071099745995011752668449220750891492422668577686858218994544791364898204487030822306547896622724723720462280127871758574107890984298449741569615106999085377547327417751290050296167804820320811231372352921224733603266076128847444568549588835490518783545572406937517684004571513547038204564652132150877813825581389660720559569339966776744027020743508814799432910890369807458729448359702082574479115654930772061636726691496494346239170847823894871977357804908204981301677432017226697540192510556946731814626450664798775478711630344984990822570356308248069228629403153287801800839994428507476078575964748236588842968131763184948174679796769758008873023562695882737046316209992228082496057498643118186214789116390085186899381401023439724997067186765309587115833786804561228102706253475587877430394717827458968741707880975227644182943411265800545871512682914110226207472892831446927971985812569767083194698383569350719758375463325733353024377708093905922878252223426065341636507136089716115099508130685628070049433943384253603897473479363947279817449291045023639933379739766888868413951598043499851277211846485678976426375106593575432847082347318578477374828705365016395316615605750891450944668699207223125165734887259130914352430176794688932385663817204753969175926441014010333836665081400132654346111771706257440944684985217799765059679203062840631644826620735096519507389039084113019064763602800792658939266877098072295711414548442877441452058816275010165494421324838481893333784670965445515150062228139824942933761875072194942474738959713101193322177893972690789221437587437957247733395138337454358780175537806515813785400314084266535706754096146445396574177187160897277754842427965669846717356783886158367237580898223649837787658692793387200280076223511345788866305785386374562048847998237413159474016805806989077498017722368433408105622176253599469685863097029717988670624510787608226740942509882409878409311972771947073770312128011780057050382034460776960916753022922374002972231086058908802171732573535989773259187620886163882552253390875522727609443451093147957505835682737788143192797355774219061658550630999909046675481329336273160278662043071758893902660459206224114490157325265658343386595099901201222412172703994626881583885573655450420486821539607575587769067333517018629118720423161887012538288820537777944234400336773859504986395465888829701219580299566710193846703676581380976650272084420365965530053344832776435188479882252274752756484517445795159765742794158307762885531507524915025311676958513648015683407772833225268004089359049850544286821136078388881483231987444052755622356687869829324418837179966471059657560584182755895160548622047066812579840000, 6977629418200311416695369116709747195392273802294815623053033586080423679321930234817773893770494134514223201921577141015266486255759773236003781510076077954453517953202960815448504455881687024512073931099109270507549807306655490220315210909065895805272946163870776537257759499668913577418099293518271865257644833373174840581349458164506779673883668802344949104114961506214194244390913517413576251402909959512592832873482952314636614863222985552773606023513252299275704423897622132808501480306659338975173983917239166103702692615791650685802344704531364011619522174421931119292724123709764037780413690698902404171116433813129711730003657704348873324954708567774494931771557558712812977107504182082881860532077851523544324522357408102828967745855545611041532048295107352941762849065086401859760216161228408191673426117334707086518738079429192934872782320516362953245672450429308670224365472032394686672799462842642644818069521147881468218489282261401798636736733984612849559115406062378323270411185295111494389791551291742095809996661488836833248178156394683854131174127879846664706875339908100397388269045769501105839094239957602723836340627368317540485920160500604708959068683249982734013404462353423409650146133287418706107109196019918465993779979967459501922700664627102038581242606806673859299294049014300380827155104122211982995514207932476004779070249809254357873841360314568153054402249889741805909143171115493736958388588740649396435159399226707405568120379101166679308770886033323703410939081669082033468115280618095760491469428862778756788172834818420185773318561372955012433597144228904192182732615900131016707943663736384718508727298354572840424838927495371095558966696356252253097355556115431223865049863123290715824453604068111091357099187688452450139109755488646803910443903686790985358069792233977872637867777704575587511719982832062008994763144744075268354274451525373819005434622169489498006942348104113766593056957903859375826080516833844480031357746096840817306089351723978908159767845094900529802610441464461979467082587140676000104776705826765038037019780038041373109190875236737918838940802995034675450378621074085329648067031553874579435795270429213947012788473956244948893904919987604167916897296464380863090785612204829355806767158732083039392408836105132336499101311779199064438390243083574304101796326299245942694967044191046863489604593203701774128236330185012366324695101818490394964234441843607589775173248486088400471383971805237882423565958776884540990072066561302423560562488140086154016966830363944586045670152796594822212310089901198015411039929547261826008986494343193677935074495770762794361802382135921507212117146696507918135520379329123505861652562605210827731761327091083942277181483414563617077513538550610284900156473051906731032135230839872484776711971059770943025381701470191979088191185195293213135965314731247445144430331973301838318930744646985250140243838457485769481818742941781198698165814194236169366198835269936606196359339977903353624817234673621534089633618445884058447739995469816987098151912660781553990238730549212162855037313883247521627361326039327060618292736462763727198232597809485458897371514313614146020913550520631358819672257906889210724982318727953004408111036952438362062280122104217195718012076368997141329025321596045347175122754739163887829491887782853967566085335778982822600742123438362481476720308351068223694085966576531554782772556983242100334258303550589966197607250793507651295480348981602112273984772672561230281973886171330953601864438950043783997799136028793385942192974755206584869804592106898940066197547893994278146883521202652061624716494355114533521759886363002436566532731494558388810034179006415268698952719580909099737029375982797038835260452287380081276994299867309277630648026146949422643656149179171233686410701489301433153414882175250528212363452028143955461260528263274647642772072076266685040578514734884699609999657422597153642069216673950822343457207674615095166425447566322179815933281344411339414388004214528235046376011797045821091104473096623003485631314617771094939901653728782240185806232872385547724882556501857092245571337557821574816475765026054901339112030609237091544065532639088259524009727880285089536011776771895230119068240325483534691184313923337100543109774242419338570342066178367106095612534889506093610048857726093379705821223682995883567449730529153027900036355968443105761202990895686211256370199485453581220050255987393851929447940341732360790861491986582058757092369256819315221546815443810069355607475187066551386562391140779034207668605931303179965180585073323562807458132084269235950336345549438131666267564667481618752191898236396072685023020401741312477789964683659524571161469903925515217272696432411550805628887474114685120400633006431186332141531773994965251996286248345900223824318406663086168957732831884722400110978191436313319629135857073693697387905084599888359640321753055181301507899698031144243354292931628891064149213820282309652687490284210789833830832332374134617968684393857765410365819624477404091301536582071229317392091109734367388573037811300206988531546923454339533803642132793208074787524489518240656958394408685816768294678828693184952151520852697998095969601103135532723839969125845535372451466675672671523957360444944903900848473967537984397569198339051782704975443158151379008922582604058067181463816919286532017037305156424183701793918649881298739751347611404548370870617558590916621050436396953763289364700067486325808644633593171156993152758724750693400731017260676478090626222939964162387431631272266929426961727187657363887563640757181579243462288279142859936247665523489522529763269635724973169571302785980042945973209331355802020969392656729103963074014383812959458024747488955699330902633458628797155145407517548006027075508581796903957879678520499997570498442025849381253016065508359121310243737753065812058354870720419376075704307450482871480907226879260647098859345259054862184140963738535155044173474258890076869189174853049636901322727216956043512219513629341005260294490664160166336506824803975439985451687430121327683219632474912981652482182493561086703758392950529154994422764075401604530858026432975522691438618715438075266966604903592719274864827695346575215642651991452806132895109661740445138213501063245907176301549819581096733275003293022772224797338238096736903035726660448678154863859590021160230397936338969353878729344910675077964134607360399396201033385372340595680937755554501478508331537570849224659507522238866699821908179696781099430285684423993933404747847841478249674460906423173896889291197321190553363127623878108227711642006346869063874378861319107575055928883650324138388598096425089689652970646813911022597638679112367475284601002344956576612636876625671669873993205037522474470050229770295347181495560009299928621882971543694987407133021054763505394823087626704659960025200083629530165149990658871269226766694405940057244692634130810813725922518322869080206455415348893305752765468752088367302711386580402267769962626314552813748325148576932193332437598517947373349068467264143457511620923865112399911206555762043387109108766027553643158961250527275874383019092515015826013172737920823393666398963495695288372096429000622743632926362733806675542287233640591224852764469989135563162201546044715165767863636780972241770675549134171400634048452214249291100261035549186768203173006723876186695753850395766910300397479617195142680329421179171261980862199264804265207859795907572264256879351854188757244457333751332834436055386832054160314325817819593360784491209871387315242155683705760541431140619944211289068316224027057248968179962108964723485626044820327055749965820420080703326678629831626241678395536532162082117266312557425727088606542337982781262269245426603683051447827631299220926753702695299894025756806749382154361718443197178317017354965401757800084770737063121539756710135093146652388550787474658863035470882345811917751049212633743944656254872359510400205516599718212640394979781546050425691339397161812046944599981499578136324642440384544658905704187465658272756981837950340502083729941205076386476165056549663935081243733148900189943198658170618863163240405933952428973081216279391676714904114305252966384027135424430510435561656312898768638889501290976261901484272721655014745360860543609394634536974359532782445464685853256369588292747110665902450296334157554593076808192571441547944335863288194274644462661604594907303289031051173772889932021348315519321914535595085696149389004148529555424560537837604953075725187077868091402185531660790544280576070200731526406480058619374064687134351630538470712476792032342467657802840764969324186537118059755021321152797378383124924878053716249135257767857748667699706841842414039903727880865027210054188809351270135224568802130173540476869266886882125186852515220024763236579161822579127553687616812832736427564734839366464039905647549638761354118162035969424828004005812670610339796814786390715768123477864408310688718266667564566305904273145106536165378061074583773286750924276142058091511589100695364980613443273011478162585183519989758924660870227636473128210362286449891439710716807733460623133820181237036693252976380558715557257048269647088991923631227637677569958673044502776398408955277614295061543318083104465950338861869677644289862972196269170177173886261960835059345478425951738171903823904333698890661988383438340674577221077960763983224896847015558972993477028939796723765103893961446607425201273885466184235940140062760898415034722708252323573410743938552876018121674043099891813976242248682676337307602522242512136401780584853023226092462206826132432909341593458669826746752930842693354958781040191587995037682602885757784329061999559904941467359273624377747391862959944326822278144300048233257819420557951476327953716828162466127361436545524745240852238284820952268031911813718767943482944903802639257029800987445111777986594129185497793734323810771679240805774508534552985314145063007494818355644532215342753554313059121153398870753131365910664232531896266227621497507350785296346079894399524946894824667222799077689000978373284869949299591535590491768616226620653383181730970995447403583493047664209405251901854216642079806943804849606639488446124031571840722605269710533403216827857139060534121512038896651445989276388328086363896381597541819861549348236148337745310980109772491538045341122553172515726632151255622151652026180308976487092149795413403785407191384528429725285314461131119173022253132050066379198006196630114273889882983612443691635550635711992536215725183179003452940300113198947326459454995673415895383161306460858037508128975944612975811139139896806696325622983042486384034981155842968986278888215488193202761999197520178691459318814525141687339971783914207617656506876200887678544599298635811793686012887040000, 5582103534560249133356295293367797756140389801159233943349978153710963195184176008352958707129610523388416956977693056984388999937148891408002052802635783550264353149880378537760670888343131296256942347620882344684099078356640927339422615444289909289055974175451886393536579341059209171724744595341908483744622829305368636177244277340614206600996578315186075384413270904740815008720524222487599342823894624857678649138180061605548372695913928279602076085021062815791069609424140806965569044975914477419902141371832571973535140939027430904522712158554919466856416604194776527461449620900894913283959508789136059503365444719887938040819603747944698794870040325332387169124900825477735716270546500289028982355964763311330174573141591901650780611476172423876451240094251821074568686922369892395727959879588574353760526481700012459219801708889035706181710212984347479660669216313752900264331236666949567985783076422029548526464830089806481486564222199570285624535284795175203749208377752646526904704652365029797664486625463088965416427271424824862306379227778089957176442779783485917598231872907242386159328631594057978781388605651647548362192621218639050883682867230951938628301458320482721616049362471470052625535064739396074625360410298836801709967633083355163930281974534859427843715869594298390148471076180141669243879238819077860087324060674349007008102966919773858175692323753539897649090367521195210701438258359222933607166352490503410189381094206496990381815670178403232563384501368186006098955550939669826347170890059867043140311708042799367607857624604429105923567238524371625400049213302544661011697644035547163244800248877453722935910178601574290259616375298790655201843183435210250084023994969817901855179513436825635604315722576764750601487696677403749158640815063291816074975535571334991978491953707140740693541956835751230172356862644563317664540679203806581718911472150903313299849640520508260119218175717487782639875083235783465107247529170816948794588917214115782073584711852282650786258988367062341768715707768346147016498372056519447100783591038115063747672684826154265264789516697366623832461150265186285992246152346242218403135625528962381923065100742660435669100127693085222309580506332830137802034791708891972440869728798731978379844819475105716005363102676723657168024293083063101287344504235541552593611068977994606022211177110405277587640919060559312612917377111515706098570887017639595845642115961027899327942697846749996149986459348176617276539540668271662926189391352962635125524884816644493519034096239319424506686673548776674877294548155072682600584606858262149195269494380771289292186425334520858035579896112412345306755944442783427644028801547108096679082966650157779310409675717004952997004957579910302168248306585250881503418129079603713473657338254229782482926684539561201787900622329740715972816150829342891587613257156458116139014115223668602734280853836830910032542789185814393060772026529496120989212384220793439581213261641828605603451652464984187060698338853252383559631904935246620065638630006049796834762729379047616440519126570099093060856956305880557795741520963820645633766005886894522061117384480912351620377028292172051191323898373310855994865753563876828656626464573185061056267969458136961085396788774733660788866238180974884334940694550970391401543180204173741526574268728553065381130753061755855343025133517457202518107631536360691911923103207833579565813983071462577365483780749068992638437011386510397817529768955321098201041845375829783351355053995096377493533112306865523538862196446097096387036419793441674192121084828485515407210602868002865270686702452103398605398631441581441490506588053613943504511516389725390532987773107957901394413434485599716862048828471492721202210075225571366855581102432092934150308515783683575918597406588947126942258698826537492292565330440871885736082479901156163563227755435276938595789189717714588745390857281673056655682581109059255580036281223877494232635789977658640088179289756918097405893794018179844094810855934451415657879513614034422659754778630115522768761110350310812651802804217108795218315541025384401022787398385086545776592078043890905207722235096231045525798084595629529396562194251931498847110211616873324116270494055465390662173055950270820147411346942227341914836228063941950740070464182653447018824141212507982607440655605628174859574623684379259613585682294665601555165769397523046123912880474311283446960545355707082793751746326681278670019735634638120316823455216079285730254948696064609210950359406648477329088970177325523525514678186841355086866447715793255129081758405927601771411520105182752385991013872225618648939978446737213080818565548165340365448233688667711384416667485645707733027155588187691446822411261912316354815717379596361979950795250955773504188281920821681225928330022751152256168975026673393702419524261482169374603224460060217729287066005326350928975853995915284804644928072387153680550508926807682056052887343622080944472230699871884844227400319612275784220815122956646839243864453010359634683866100037859317503979193761339570890530780503269609037435337429736642980343973736792880494799550882115167883430474841747202122860034433212392814323121783976886892323372590560999970931355492921732093437898639296342946043341141002594663075070297489303003175116800235270352634018860417370770130122102898360495034516028492844272508077656887927882140687691367141707064993583789826130652010688849384151324673228310130584555293975641836853144689380649911265595644496504991243151574900974933428312499200878510639939569581972608049790562035604161672292072492888744234620366108526808645763062931782003426561282025263646280481673514432621113238295942052429016423155785357167500347875363476949229230066327458129831433314988600639884257569994299283388143917534757906206448468225061070239363680877414559237373605446925890778541338184636631679819795073265507473676119495512361275508386453168346281920698579650531612431122060123526935921515726332082796070744213370118509864281876793847529714285732285346735710439677655007421677344042423459058407085091838516906850954644493197249861686623946836554755487909976769383982671929211395774346960728392292007655511253161122538264868935633959968392354962790461466399408281252744005900531323857879833850035627511290810682463631764184149499337833188200264778752978270951167054464478421454700074932781826890704171363302102375406389277582626005921760098263728724969324340289603947561199498493241007364776990910290432358323025845476237952543110824168075041836477755335711457815698113568076848614695964935233720375322153466413090210665570830965955841338942989611766316919318427645390279082004683173935230085329393847841110339931782067140222942516266412786820098839599530362996362747163971499199167164740215177919987463258181705870066384782965060973178761653963545770883696253224505757224491119306497920535762206438237516135528769838572635039170933989219863696981499852994122347076064995149209120882950543279107173011552656442153923400229033959609229187660883346225904908956873629798329206323784762840012038172509426686775988406010072517362425461320317865145176685916834460914641590943226726133392617829665027307446856601139405414398084863503555620217821680953519637634029510052783564304252726806633072367346522699500932806233879260831915885227445824827886072669079736104773872701066949932748392008455640053926022955389783559658910441472379102489400736633796765594974556902594504372101175248491921707033708799544113951359115823655477924245785021592641919570438200327527052950964829633149356208705115010769340459803674993109114135949820901575141808189275951050285794294575376456205747049261456772837638418619623849676669729890994231191443545396957322105406722871451501008092417083729268891311421968824443754670050037340127313650891647280117228022259151539906966442503629893077742913151497340318635577752994780772918332792395045978080425812215213690260638514200001902205982580870306780866194722823091543915158644553037219791190880757652480042748377032901638572264885872182209510839505820274964769155479011432935680937733240364822560099557971185911064700708212683922988189245208032801268561467650369308767880036929554009825575145181463891621180055142365342590864115341372101723752257658626927296120086095200368940103781148374095349282860253356543185907102498085261743260854132275066773013956245477384183891709804005258122608918830993981351790970295730492563062981070967054923993968181590031112912046176723226993731622538926505060634119379717352978329572352848504459597160696120407561753121117930955535111669190240089450956637851379263538736081582826388291572312534217998138809809585658766965634744945582909080676098175956274696280983813569708613168082519698386333770016183759785176066583473510210882486826776326453823615016183985218953218169375363332749200834340075045177902461002790912820716793571016865220258761907420361859802900150389083192190563850280635900262158860851484339935172316694470791096397700974770664513461755157007128547328803556035296748740809113107623327656596855020034515878638268201474489330765773530814842756228760267071035588817296584800869769660535618204829413577401934066527568913092861425231295226144250444627452569900832287290311663947108504835115811036484274716281065722535090859482814988375959615130368047207228306655962792823278631155946823959184918510258222937600321251962068652015932961500328676799267557553710141105198120731917456358262170960592456506772809828767302782829191545032025968263793156094422393248014442137128981052717160362161147900050378642028954914560131254744844455518908311131729400039250875469449736289152178589815748971196710025891605633988738611625310446834730345821743222203964454599177607799420185060403366927741193532455072947531451743132601973514290837153187881649380298166135735802528698940126882482638742078720478316135808555027757695641171195990672072928672638753562355968598867656079058458664468691704368641383439342001720883834900682624858021450790140750872418936459170132246628567853378920196576432670284440513837883247887882924793242180726567977277378124924950119888162522029369007136385539319545307372151861997707527844539950796402835606739456722694922575071604150035217949294449777216143760120720715046619885324510567112528021093279965645572298611470512580046399892835694855260214357103211443084298043197974633961636292111474571014638078363681255352201553684812868296459311635105144142422067668381924481987163084190024786812343365038877014739722337152117149453309995214529638415952028898708820967404340431098985659951160609862372343746863551977366607372421847064081495549003428954555278568995861760280321204040050263725734514032119175821270791884402595661439347311586931074488932143363154807438182613926239028465722556760926650730091189767278271280894890720608350317023296627166800773120000, 75860787034673785722312053036868371508151850111271195356770899569515364354639725087526682166771134582162174851536640619964194352006328103434281102973112501930637679602689321412198735631190787404223389605058964262285540796757621267433559659398848952693022846636583859810139891092100194580930166821266745401290674798146434895857063669970981067033059767018401481932765708597246167827459098640136567183872454428384638572429794226807304834324966290296257710404388213609546690557134165682776788559469157376031066238992331382487181809772189200704175612859411114442835060303521631900157352707201868715523563810867000736834167988170787358810201528279129346328618321907834234883739977180173155991112894705068452831695723277008027384686655378291775627723743935914227034499154987833047232459241492583955760485965755087417054148050172734157078095221087242925189217436998405691306578223294937047024694579073440239601294864478237883953708925485497567810466587038023176521416002406954071228432317607420132793406966315326822980250749281675171755170505873273672725970228921985798234286470624719825557310637356879640300537577577932785119909449662355808352785015992686153114960615592651293831935218188098161630627452303290940867770709790579437675040530438399228153378941668144268479480105340034891912352313932615310088573780736187037217508480712420749652326846444306758687351890966605220071881403046836993483517563162985964527786878617059173582870992136331820512046106840299114324342656918806855390865338666505221747509548896646733545773988023452462840054936427806442268160527962543084563811040856019845223976103887533896910812578104870080674699859717526025532619838610205962429326783861317869149758895333968933796552078897058863372740092304051349883353407984866479031794128315705321586870282173174911242354653604893558727530613756161115081641369007318705194263092936461952066667161363429944337205952228755044863353953962209963416909136920414795016930870114272879779680837098175403997372724843022613766642340862374975472206312560791334080286133447209020176913153836750141566563177298902191357852195791908671405380723350485871757962786297689114860474389428287944024455318565981842883147798808387728260464129423369245824907773185226555091446310484677437943285196173267266301937715336573665978897275471741849024779000916395082522045195369447307500335214654281351038964445669591781327782453083976640714123922778751392367871118121869216621862765293152656170054294073866640718518796411346474345008931535343132891828428385876242901142220348133099440457697390500703915695429321758668405199917681416759167954995994114800987924052880503501464211865915118912402042161109610338694042304483911482783901961326397113451173580872777873395893403108219948573298573283363359079702323224205005956083391893685075046960264444351196289062500000000000000000000000000000000000000000000000000000000000000000000000000000000000000000000000000000000000000000000000000000000000000000000000000000000000000000000000000000000000000000000000000000000000000000000000000000000000000000000000000000000000000000000000000000000000000000000000000000000000000000000000000000000000000000000000000000000000000000000000000000000000000000000000000000000000000000000000000000000000000000000000000000000000000000000000000000000000000000000000000000000000000000000000000000000000000000000000000000000000000000000000000000000000000000000000000000000000000000000000000000000000000000000000000000000000000000000000000000000000000000000000000000000000000000000000000000000000000000000000000000000000000000000000000000000000000000000000000000000000000000000000000000000000000000000000000000000000000000000000000000000000000000000000000000000000000000000000000000000000000000000000000000000000000000000000000000000000000000000000000000000000000000000000000000000000000000000000000000000000000000000000000000000000000000000000000000000000000000000000000000000000000000000000000000000000000000000000000000000000000000000000000000000000000000000000000000000000000000000000000000000000000000000000000000000000000000000000000000000000000000000000000000000000000000000000000000000000000000000000000000000000000000000000000000000000000000000000000000000000000000000000000000000000000000000000000000000000000000000000000000000000000000000000000000000000000000000000000000000000000000000000000000000000000000000000000000000000000000000000000000000000000000000000000000000000000000000000000000000000000000000000000000000000000000000000000000000000000000000000000000000000000000000000000000000000000000000000000000000000000000000000000000000000000000000000000000000000000000000000000000000000000000000000000000000000000000000000000000000000000000000000000000000000000000000000000000000000000000000000000000000000000000000000000000000000000000000000000000000000000000000000000000000000000000000000000000000000000000000000000000000000000000000000000000000000000000000000000000000000000000000000000000000000000000000000000000000000000000000000000000000000000000000000000000000000000000000000000000000000000000000000000000000000000000000000000000000000000000000000000000000000000000000000000000000000000000000000000000000000000000000000000000000000000000000000000000000000000000000000000000000000000000000000000000000000000000000000000000000000000000000000000000000000000000000000000000000000000000000000000000000000000000000000000000000000000000000000000000000000000000000000000000000000000000000000000000000000000000000000000000000000000000000000000000000000000000000000000000000000000000000000000000000000000000000000000000000000000000000000000000000000000000000000000000000000000000000000000000000000000000000000000000000000000000000000000000000000000000000000000000000000000000000000000000000000000000000000000000000000000000000000000000000000000000000000000000000000000000000000000000000000000000000000000000000000000000000000000000000000000000000000000000000000000000000000000000000000000000000000000000000000000000000000000000000000000000000000000000000000000000000000000000000000000000000000000000000000000000000000000000000000000000000000000000000000000000000000000000000000000000000000000000000000000000000000000000000000000000000000000000000000000000000000000000000000000000000000000000000000000000000000000000000000000000000000000000000000000000000000000000000000000000000000000000000000000000000000000000000000000000000000000000000000000000000000000000000000000000000000000000000000000000000000000000000000000000000000000000000000000000000000000000000000000000000000000000000000000000000000000000000000000000000000000000000000000000000000000000000000000000000000000000000000000000000000000000000000000000000000000000000000000000000000000000000000000000000000000000000000000000000000000000000000000000000000000000000000000000000000000000000000000000000000000000000000000000000000000000000000000000000000000000000000000000000000000000000000000000000000000000000000000000000000000000000000000000000000000000000000000000000000000000000000000000000000000000000000000000000000000000000000000000000000000000000000000000000000000000000000000000000000000000000000000000000000000000000000000000000000000000000000000000000000000000000000000000000000000000000000000000000000000000000000000000000000000000000000000000000000000000000000000000000000000000000000000000000000000000000000000000000000000000000000000000000000000000000000000000000000000000000000000000000000000000000000000000000000000000000000000000000000000000000000000000000000000000000000000000000000000000000000000000000000000000000000000000000000000000000000000000000000000000000000000000000000000000000000000000000000000000000000000000000000000000000000000000000000000000000000000000000000000000000000000000000000000000000000000000000000000000000000000000000000000000000000000000000000000000000000000000000000000000000000000000000000000000000000000000000000000000000000000000000000000000000000000000000000000000000000000000000000000000000000000000000000000000000000000000000000000000000000000000000000000000000000000000000000000000000000000000000000000000000000000000000000000000000000000000000000000000000000000000000000000000000000000000000000000000000000000000000000000000000000000000000000000000000000000000000000000000000000000000000000000000000000000000000000000000000000000000000000000000000000000000000000000000000000000000000000000000000000000000000000000000000000000000000000000000000000000000000000000000000000000000000000000000000000000000000000000000000000000000000000000000000000000000000000000000000000000000000000000000000000000000000000000000000000000000000000000000000000000000000000000000000000000000000000000000000000000000000000000000000000000000000000000000000000000000000000000000000000000000000000000000000000000000000000000000000000000000000000000000000000000000000000000000000000000000000000000000000000000000000000000000000000000000000000000000000000000000000000000000000000000000000000000000000000000000000000000000000000000000000000000000000000000000000000000000000000000000000000000000000000000000000000000000000000000000000000000000000000000000000000000000000000000000000000000000000000000000000000000000000000000000000000000000000000000000000000000000000000000000000000000000000000000000000000000000000000000000000000000000000000000000000000000000000000000000000000000000000000000000000000000000000000000000000000000000000000000000000000000000000000000000000000000000000000000000000000000000000000000000000000000000000000000000000000000000000000000000000000000000000000000000000000000000000000000000000000000000000000000000000000000000000000000000000000000000000000000000000000000000000000000000000000000000000000000000000000000000000000000000000000000000000000000000000000000000000000000000000000000000000000000000000000000000000000000000000000000000000000000000000000000000000000000000000000000000000000000000000000000000000000000000000000000000000000000000000000000000000000000000000000000000000000000000000000000000000000000000000000000000000000000000000000000000000000000000000000000000000000000000000000000000000000000000000000000000000000000000000000000000000000000000000000000000000000000000000000000000000000000000000000000000000000000000000000000000000000000000000000000000000000000000000000000000000000000000000000000000000000000000000000000000000000000000000000000000000000000000000000000000000000000000000000000000000000000000000000000000000000000000000000000000000000000000000000000000000000000000000000000000000000000000000000000000000000000000000000000000000000000000000000000000000000000000000000000000000000000000000000000000000000000000000000000000000000000000000000000000000000000000000000000000000000000000000000000000000000000000000000000000000000000000000000000000000000000000000000000000000000000000000000000000000000000000000000000000000000000000000000000000000)
    = (5251250736671492476471449654130691694901492934826296436654953902142163203399203715778667718193615754725878999964902568342370805899281244692863370384356869228173794179277124156939997799593932573590975423133094295079994662957352108652225587041781966794269877421294051457615812722887449249974741339051469498030444882289565123401631994105030911011888387122699790442236256251747987712688473675491581132442118128628951137801206522861294871928150873149816393121228889626535045237806688338497212985607842037408805696212296173484570613705490826653290183839211919625609759491002776367355825139557470919972005652375171167932666480173159565713044402349563030717762814168899846919927274218262072153708303665793282939984959220882934865101939576058846139128600593093438288623363135104829740340558646222159082053358038864924459108733589953199837195056922134459086220651820211709445992138752669718926739218003370843760286852632916140189122586514440104613085850521180305715088357748466323179966907779712484830394172644312853919340030643953195161849942630649690841979161827784446561807489365880469888387725702390780210437885362767835016518682879166808813640292021682820623260115178374077585715101000522787834046636671843799092789844066057475882555008812258773264195588307929546253102826219745992839093027650350168470361725775330060639732816575245599744744272595479211570557083871072766337286686001183473412868041430477189068769691887321946210681610197815461988883401743878596756334247329052901258504060056649471375361307871495981740977130916202752068676380341160064492047294404132229675132002757269059186523641748321289462267245493246752216206905440434160053158711059883272104696092905340311221054203784804320443914700598935528190850911431319754023196585067030943185683230648969919086553797455595862527245007689014186425117830536049060265163374748053633760863712699817550213848988601871018935067395388493845300876636633750697121522353383270975129927022856365006691900205618750717440574120755713208859039330550939016641947859940730571260766638857657789679073443961180466622182940916788165766679069906371861031450315894471312042649630982698122912230563802866260539879407054102769546519135532415241402379386300761548283145293414672097555003018159736060212719383257182283798358273718826135700382012175977748556595406591925452174420636258812228742562183476782128649915114742936902343914188437266746786258809760644884930415256389344715605149408103848823778904265417840547023536087029804733050452674859489396925193549732345275531821872062533603508196084194948098207621413111226558854232450424230121806835567034301171554723279470176892237145131096650939073086661005755648546572428630058363663862152594157655699607539113884201184812682603772442169007210644243659158556212696018414015270825751092630461791460857652772528427177935869947434186117782589062839477651733846969875277696197217980526543262577070740163987645413953447022773255643873425834224363558508238613068585604226473666724258534497169925440863460169714404026253589129563077018969542152777080521784567365685535015480636099861016108840360551848444463475727264402227144237435625794177833610958669416406611410702955294239785963571912365958155963684202393530658798332852270238926937368145253040385148422444191910595860558574255777459105939837735239200944218583991695408535735456538015972429968894156512340672853177015720550901119936387295302376280155148706619886971546791400501431063191172024248085606291818097636658046823538991783931083726482187523829800861724067284293453317288500918448875586146691546335536551350506116480324980899371087809782145772837831232218573727311044879042237411597294408773786008167265915061195097294065901548031035490235595569489489188749938880881962531883225090101857649052779070910205759485257958646208039603734005776406726785868425943626072902307941938881557138202958025035631971187827437576748366615146674760637038749446395749518437991449448150073250290777459640130954091960575649658600761228355352108524179224979084323880986086522731505998433686704254564313640318817485231895547622338651729008556399993829605920495391011851443753823012432479464462707098288870041153751656031551540658165744681644457739403863726053096465894008224617830392266691742139948366510488143672379192931896440558143633227625054839558263155108494364373759657176257910194520915446963206329126418359324536512883926409177997377141303216748401796699863516831897617154747820206547132694053375328914641652687961052411988948082602365715153056988968084078100815776993825716303033343823422014742934202063469009014592994046065253228841685198354861974629690984289671524921901034693322701392232948933597870998406544033565887415225583625681704267416045667183645494794330189826539282162792553591210560974787914592556936160817903824598591660677382219382937388801238664127250640324966070289580415045964965111573280776889870247347979244834359449451880424274302537800772187673914982650931010821513747265122213274143875224682318425692819749580886809598218069081313845210257434804967295903945540011482878670233171174721028884281287744467984090632764963506911030532794482985289517125021250143304110556064456442886827772172854874833993739175857037711110710290301903976362288304675149756575419973368818920505298663672984063040326692241344461910957802672795046704079553312461540264323532590731676216731523076655258370919610235305648145710718433537701762729812558000323272667483003328405408864901898557678639272446607864660102230677478502592093327370287490988189857304701272457556341533790711239274230366221314245676041356594390164703672126386355697635514148980610574095281580144054458044661499845551664794698428396780255181964868330609723474522224095001693613933720189111857274387301141424400782325680947525901011595172777518696584416925100820840383451478897652740040562979231472739727477817362941257676363035050685169413385791488881162685121875639348226657887006163576301007691873724317119848253899385510566788296361103541654181668404548749873098125034674942184603572800365734078975883713207547934014714917847466519016033336254229030623206972222728717842712441768179793433450800682894372077525525665555625630981292283903083588149843927116089711988835743793016162600548054762289052839716352666220844426425168339678887669703215527109070338138259281066088088788233082592354072576982115871315980099009159413411082858129895860444281264100758794444381125868222580646508494647019555172260758122240793126251344963852193343675214410312513910442906392925767061530648621167616935217908821453939071123785480815186494978427122551632030747795505795954753579029913144286818911819980310958759727636512447230544542972091162068385105511271211750784456678716133104524502611265312035035957283126274197923792419127448928146291327582252947039284006821338773935771806342622382621710005500982268289911433325560105523317727433576371989667597813866479949350684857503186169135034925335322499673007247343094672141100604299251761189872711414547987963253294363463321582952769243121165891523251054090592234945749314281882778241653043198581312883344619333170764328395568945993114892552081616500898565588139682524482508852401665814889782366444452184313473377558934497217543274692683144107172633185046249663275923456951286852832095973936189628858427124257857533120963486274282864821607236256733540129032707596746595375844161636072112342767876776230957845890498710851299015664653787788567770277880767251455949452517664763238047697329314968688588778672688197036647423809254215507111048364372772808218998927416725579817194479191225798670233167254079781946781599807985600590950235266398555983741365655883541082757938703102885404044374755198439170422797813257180642256107440875667447354992371607201402901533164856336089532691969272179628251267892542506830676182643642687485499647570722718517570440106143595169952323181641736446546346072978369611007566043413688401622017598695250174898981459478609039399627236832253663523788806814562155794866432362680342267906718075355155049447227891633311207161246400992432006300313628267693262749724441078634557625750429492415276948979973495943320660513219923668681431165609059564326940667326462126297730400750276589824269899663176883635555880934469615879298773469105890339763021524392319968711631266068408146362325525799047777753334818251443056911306473382056204014474976119120058449937001172352991983144954843278446021470688578021090432881216873247314285705284021663968733796942275254472704994494230149883012161195139326089546215839712988539561143353045126411169942666308779891538676845041238895271479989541438045354653965422940362326345804499702856879106453987519092799945334519189957657371450957715458808924688227432966223255271844617053689151445314357209830628604367282349400423085473838892390778091103571206706914865184417030686390420896450875270961285996535159676629762980770987710703182102926995454735845086169974551705760282728574467930817668078281547736203807819437588550219689370551793061401809202274981358292473606237415165565079093317902340289827359838944170730244343336643873246589615204529161979262545819059894343078382016194618112205987761702382976469482699251270200860870302574131963966248465195121975544342055730870426768468169837145552120737511957145755752944297990273662890915478450613512284899817530656383213651907691995532332729283711211565398338010509444139256500948642547174977487145212286054612835066188378292007512253711006230269846308906889570596922211273083017047036843370866471068639433925767271280546703960456216779881447340175541584131731221341035059037001282816953792635193834419333286113104353678850837020464910181189884414274536893655361741824265674342448165465063313687150397718828641062124123311017361094853476217746103521441912141040766607848733871245029610452682625299543431238835977005543971079046460444527143000743335655915065148032572254037308431061622404939358243530824563173695360221351305311525948563974067376627413208979969897521432168245061638980684646678948739179670147853987939761075307094403934440693807350940245231717790674270003573331816813911135957192636758349858945743977358589851702009566859512207033508868980567406237746413828319460362124383577187062490190945869003290956743075317584785377631250152316533985958122236177057119024325987830134145672971014793276135738348040556887009471600330038679173155838239814297503884753336180067216757869364905250720261258400309261352978947583705081664429177958690895512767116527775290612503278279295089291238780878714732079545590267616116296646220448375431966444808704763476037183077039945662176763089371973168505973644410516278557835819315606456553143059034136997728470703653141409729549944137422172599675686319154097537234589463242716819903000701123647534903435218822163130326253712321729261073536078730424078828663752811960595265466791364211022207579440116456423493138371561368083631163940736988640700095890925486556516828228217417452742969566094655512363158263000053693711134667625773108205768198342220851935522737266750710197997338964694064901099846987814154947481804974391313183262947946826247445396595676189875320273710012254175281678570665158768101924345897171417538586765459110638569881843084913342003285519853517177646626483524390108434794914868740125261586321488958889578371082749880280405018646045956194745190024605965221417623136734521988084764151982730051176940808917532334866502644420231147197918736398333073400173481214079637597860713607072586196082619900109372030548822289100641772927272910461450333134961238076341618739758050379668426303662622894368781251632376191134430305058359655147166497735172776894102553496320367180888326924689322778255199672065101127895475434618914509229688429223879964565897147002837269680716630342385818696782786580230808140234092015785385669907854001075206389180143409975674204414072489978579299428914160283789073472878547052762811634263769243586696237237967998681176928175096972953681090054518981195595928180439016741238228336854904601510480920345458310674296385711176911083186592758720764948691478828097441226196983026822343856599287222766620856467053615259984286019904936820371360067191495638195774436702867617583104781381607704436522350105545793691149394815105934772865959132505702846859701989511745071387756144324875593767987615504752360711339564626057895568642439187590707192887561973426079866188993817556100509089397249260859679813684385956139462996480170545011845082862927480643294479463624762873262310768230996803923971197203223815591358143984630236419518556660367813154445051371001495517943704307431020896232745503432462223620189396993331436728293065428671955933406909565883583381177254371729071067451552504073376777248281998999494799192799348293781617077063090396432450588260344234053488212235429643437158457711347442399545419042402352852693652041539019071963956054214715008242655785698032600951919189421296183387872986185568971182330859997048888111837830067207588274235414763103152670140666202430369662666371396796843407560617127463422233967674749681191470209945223702077513439360162020924069523951667797736261769826321271859966870978918066051807616562612046446259177154665554446871180021627139193266558576086718504405644268838550643426870139090220161432327682944592052676724669664738122886522726724497657906948974890621366637764802543203922009726029832525511397453574196780856709616234776610458556123713001606633017162804109378547155569684783997400159608391301236494568130321487661683389838253403739259759338581959336881593791751235015268019668043791692381061734120238017601260111257443403384597974962805785000465864904416234728943779840000, 651196767940413253530685720998349664546316088148018196224741400580537390699057405365802105919787354839967430877791860083739467169782813383516769758734058726572979838147792454203884512536964297899830165846794776181989780530722280000213824635058624813391660389917338911863737904665124877057178684479145393760320773460478395370352597678140159507188676230117221014551192794596956380808882988361801083690608943369937100707646480401698733649299198638366155286151966857880850537993879879285485708824373483604881085518352394995059862456381508127984195512757761805841249675147406904958730561961652356644935796614850879060756118044478026911424560670061589967032896608796558342641041130896533544253118205904015529720664212801488775716865310001104011494337363698138047852847889747972489819217830020113740978445522068178722443191397320688205081915636352235851442539484431305253232795920205163899423272266777697713283790704178970661859807158319295327687287834428784798431926109659454533206240303536943701784965036720791993591419944811657794044867620891705109317419480445098557928786865727858636438728184204478160135926269209655133024351927266356993546316461224250440863182778364984783153560997483429462422522216535661210371262844484359025740528565569017288381471593123732268638107154444375308939171594745204525448873255758607239028488085631755319910265499375381828871589983975929677260569754736023366847127008859995435907032031354629512773522208090392818519570670472592519708207335487983950495798005404992667784709123297476391927621356574284044178572903360865022693527259444162077847134610232684772651912849871485263593049942331773531530053537075470838077849732843208587199174496681162671139580851346614089993663499517705562514814062296779681248816232082988583774604891712911728396901738626357769518274818023991926764753874730026321528732537123062452542725604872696472050760297334981300269885241959175010083585631388304811326732808285444114190304636808260006366982174791123224449685966750758502719084611282466119548290950492768049838975554266261477691395630537400578501701149093370873002662141228295034843041350134150707141206945380469221512517561704950970490050033520400330287675539736269108906814413128361366891809499680647687195171738335159681094716901024857708087890924423863964491667651501454284210852616591960150730565288630865076585201912209722263670777293201136961541296436164747454129975520720936704754717812363300083244066205492163586492809552063132259290800046235951383187040885016634339788524304654910440455940587268088937108924549127079605602815519608210259806115808354106558725056226619237153150410210773217397779082682286494911436409226316625511431459309750305116232731329061804663608100467511542930853421283750309693069142243161209815529876940746202415010411669970459833047165833327034036706841925945819558516224032750368197113602209213751136420227171699167636240051853708677512495584887614569898375819699148712280484823244342573159023234545770364581770714663553220453624281777599827270492990846114835530196590663345248688233717018187739864529293695224024495809184319881486249835371547397801489145813425370752689297951645561692939755263205143507019215587089541306669856716198457559570781357412283502391706999671940625213218133670588244852435513658370857822688992523372839601302882467578657936320973032674321944591654811472143426994261881326501974687345503611085770833943759329855486798032436484285363886506787606517202206885052156034032861217769751235340515099501075405686523546843728251338846165676633086550549247190174858246840561409218895597937247150667761157552126040623662981871425034520222306891383168595323650655162090460514963836113786317625018541268634707970459938575193024185282978783496123713782198091988594330696762008996881430992213824085723647617448733448722429515307572742413667366403176596282356040619754910822905296257987802770193286270680330750523595327802538870660884325442225210795319839181267744443115014701055449031141813022647758780743765272304528739456718174810241169262526220704370070806532176864531212231897725747342374221653335483306993912257912908863390986004380190982336995016259183601838585935413421641765881433739970542942007771019020514139805755004207424196416696335519944568435121194333630499323663456807867364115230077863768391137486729993771317032669651785842766936023878897983537605591676032664819887298546604473185709802980909911304061762302224973400717363202514448728846119872820584234888194619173962471324216528891542321581525479860689623535698743969323678103859063837296076089299887775758709060410540457768297325338914070704290804092780222951777629705125542777375773846852832322688704551128460724309164519088154610925753992941823500353491279123856171430988888670038637099262005203219489468959804402533387384210214164581007031633384184717805036647768583061850424568745465326401777434906227765386877962527834841116367864854326347427340258010476088570528647352416302676671003630874260879693919080872041080916429542687065207288324902902747276241052857847207998961140386186451663319595044023381669652882512013130564442133759667362308674908773830834955182436424561985930488594875130714017138951842475687124934265973449190882330693652606729258737730929514396738985271681941744222380571344629000249581607851154261700528348507587454662341648330270494657116168470043406143273668995917694844725293666745083765615629758698716366374829633993145604203197456286081457519271535971215196591064494152082501911753868829800583836961392056422648917060802899666677918508009662593381982915689152439183557111349849363730209919940132476274019302454755026465104783600370857302404843896541057865346902994503147858838937767407957520034154538187357294100706524336444323268505725620822065095532878034596159597098369241108296262447440922751398833411232555163694575189021529835220584892426031639143178310881805011394854803035472005291393757998448851122240206559789326260905075954293680627089781007397404172867826435557080915845328382572839396054449966156599119324567593037292493849489944561715424296470447302788892936356660725511996665674238415550306677796118702771737049789967690719339505969006686060950558508969807713288891726584474238410157683596401339240440597458935393579789334859700419832361598439070201133030707984009426000039932760092635159893616071135705689790778262850274674048984500070403733917418877007509880782724354251404083579275279341813372308487908049459606925164850700111377366140812611129330152151505430310486726773082902474110352133619807385158016947803961218220430001844708153009507227814205819754462978639673780963429339953838100620471817284951113518190197038200646701931506934848407575668368276837488507933300296809266003199743733258884386134490791766622307682132573249178059341058657834609879586555683822982929194666053921962411554542266537159596066696404008762467742231401436620156088636503187688513529670803565756587686354449456763392292983052299677520991230293948215951712960862534520003364769864240537429374953522254448249878952501923822129122583054890301384120972356378207429091955613144398178631079189409540860655925894279605205275081553922156155835682510765457788777913589707626477322925125544914073941600697660022136448383307729927110820605633338488427736022270179311122808026390126393328165939845746458428200833974398416744603547542511189106351905656886076586718895884462609400702064761839321242103465777834110495142041251802893385166459995558649766836672931330429130274930837171871997803519312971646697729277995056217841767044989071721800302776328243081042013764665659975891393719951215459153219367519182967368406437988943030400347964025025725682030601761126689529374542308223694162137341604097780143213308374347985169000141317280620472352307695666845281788250409829033013859973250964342424225657038845502316165187261049404230416452144419267439137895461178418367090870039644194959896731591744393918519871058855543636354184168753371612950951111615726932930782049433015494119858658149544111388767931864123929686530749202137669275564204413302753966326539039461630227851338902749623572463831042182353006856699781132272882355441245423055670293171959917107059067445081018390736624578517375167453659911299987095185777112193633476512510262957949267774175049963093908796056083881272385669091775135627496572494045661170730914465478885769676760870953699168074996082531274125429256965517227120350474268266656529078941391785859218159620511210042694374007581997360055189671697565782692838184973627037832476284876410827616831159868426659207312753366587632961352045751172087364377841341889654516429459969196700723456523572387072377418356669884707139632261346599376379368565798258409799344288128188038388343741782732175393901584333848585913510161370299580800882009754518577341934586221360625259331224030171633719882607116619772369962954665771328248612539956028276056274483935009560731503226142113247227984572705919814415381804537595135676450117745558885701565526407415340358460330583542104159999325770043506789494644157701863440413989468740729629055537324222736735098395496851322030529185462897026987847592279121386855140667338643479870004450515147989112452135255752967161108173483284175795536823703152424483349329505828075457867131661647499695793920385004195311710746358739959327771919305592969101713015451243192780257532911518850808673175906137931034478104603705661241295459663113764180090360556653103896492606062979430141047212331699936992831799577949240402899240862831035368655408708960486936269915339143080492056838397467061095348271463917899394001266217103588966985290567124324992693073742724312910122218418087502945113331489947889458459070277664518843919125057086623291640910040261174938252855686837091295056333906878784376332654473999123836972893087941153950870981819893346833196785967766654159650863170109561237933973075779326471567282609486489367504085039320468096648537521390134259165394562378755818479538215541281923475277572634932642216331437780631795235828384761845166126792202244168553387927684550390413405160063331909025995041894713267398522383819949542500510868837587871069270290049751790801772721826251569701793240490556002206494918888269050178213281898040952597112968929168859871419600764021059864260633664210613365784409304098307882975408794329734388223443025056859781941086519079212256442594867418676698950703496528726753199392596677278409788642952044388876931038076116992726015075115016742028861141998658886246835534366978509569890089537148257783042825202193839510727312589358685399556015435452848576361001898797980669988838044951113462046847928171666390336397737050629454030404058365760107714809142834281433074505206114454917902312653158753645063233674456146338267005649764547795182767241052355709652736683980701928141182633174374958147575804077493214361781705934324034934640626980122765115364095166360834544610096165461461018551693344705548165603662892205487540854814589292481386761661778062137086134457105352389366189498240127903895430728249544242347711337238998146655225146690811532058647421024361370042859713605002870424498347333799340223421424467219799031839912950079628900303603887117176855639504773527576936571102819711804372841518818246130406333043150542949383358989669379720111808568502102529485967606251554002411791105623556667118340806851215789595702831553534885151316511178850818061581185732371779256159709067229769780217733332371590361249007301447810549105682219001439961200319578910507300234997369412503655066061081707437023556385950240007544366903543425172968018194873978997509955148911389284450953479236251366298258069379009326875453914875065885534157692628931751739032368212079651089991619642579082592181206040507390215104609174389273131896504279423256488028738258052999658077804941722594220954442545459691775942934122870906631716889764455595957335194415923689597629873939727387506279409380054026407120778422949543169519860607242825890809199893735255898870296816458468728604308472704365364209396579831411288578574440287124088909966553837074398404723201492019841601996012893591631296181494971793801965147572791148335929638106266429156102172456032258064446093094947119927952938480008045393504179234718699415428084773446306160302022975045903820574840796857166708719014465448120749781797384291400126995725195042742432032835137460113863287600279023246596057251206000791517606783553498502037641311012605936062036252549520807662256580077245500465932737334700437496376821188661384548837257278695605237584629058171740292901153660871189104979446651026123072846490114721191725572623281933196686894586480322966110862577942610638506372211660933337703185869286913180700173184378354035945738914187694207198095703413175469809433957039483179514709318271910087801329739881942050388800477756818745289365352789929196477133261497247793801249313312459216849536760011561572671932197367312526878298183801575749921792950968192175156599605268364541052975692969790087296177762835793147891748807296876022689250438713649071727031173190905193124042494031886515895211376420109010930640397508806087656845753589363193147056516074457958067645891725735405972144297477119217615070532467274321459020848748492677402265992507533535762774270614908040167305589999806256640231614527999598875903849938604574161833993589311249805689190648668383932137839729874756588783503709565080385996685366132268075453279454517985789017740243314101061267629830963590535905721213777219879864473595526458840504937842284539857801140234878477836450110504721075275460778644988449667406993404009681403730501228063059382729554814614039772076361712465830105809609691452302074779605705687040000, 520957414352330602824548576798679731637052870511812515436444655794845628112236489470243201895034214722777135057458431113192767634945339901403698360117360040657094527152576506568921365967038070840937325719518599605369783470070990325481236855984961819646265828681396544624131275523426010475794425372649370801720137859235058870814946781710157663217674092220706540586209738080590889805540468999732819041525934490304906977681446629905101920691017718739888276999623390753595468025983585431114065004507973609917284719776853931344318484710049657484587379822481898575613300665501359049475593067088430101328368076038164713812447730499625294829768404594146078044687660460026957081909001828581808661037536286646019465163174006414220700084015820561497569839190002770201247378062884066933862913615772856231815228002802534350041642783220293890596971561018199425628391177836488752199292558233060576846821574461307337551281562036020559694220364329692567643811507104789256984532729248422576519914693603757665655504524239273336567960807154963271276631961694297838797428160338312018564376387197028072032374183287471047143381020373713962414429864469503552811184074711333214765536847266058976649666411262876975850492675605148919900586501562455510600489335076784067198794605057331430719096463273449118495101822705556912158144849919183511056554867022358657208950733835118028347928928984440742719201094176113882592106918077100155357489614229376008163806742959596994579467314375849842722155029071241196054798496016794557138445724741475968823930369514789792782222573549011547823154414268062950205211806037002716803589227510308990632013638554058985432966210712992610207939747360687289893307085051059021178403047529106292398658411001799413670462940696486359909046171409010953305685488874869487479675410554379459520156894771306695398088490307164669377257932018815577450571669812013738300229785708774723896803738614172893606189373496080926188806245123553651086465776428767539321681293064139207511599696372136855314556779985858758740836570052742293501733457560599502437870165699653229244413958687530621270180860279482123025613299890190522986290852265599175827002708236288389022011807907559012469992100864380712249512563496937949200953259221669364996457694016359694792234870540349271047002378151228829483910975340719594969057672298497644181379906394238711523051728736257496312554103174620131412236651089184165811169759453114660501004033591187949946455636435352532817227370156709263186869438512267276716628223602996991615873416253536867053720866813624174660351909132343554542384178656343473748696745259027017341800998138306023469628139594330039429912038389118720224806848022555308744349998093221589232411225083216243431324560548055035546614417077143635805137183024072528977384572779313927956790343408898442883100488762247721054165297158755300277385441429992123655094930289888244750820512509991990630722485224525855379951870938581032726086713895990329109337017438158184240442106010397067298400631603189247328730465417774124540249360343739898098272143660021165204167499672491829927114973942757346189797825959665774588818159395447565347521426095329245830280463749194008183453432373290697953566800193941382375314157008236862567705004432593783441050492144059169500750341326722033647612810640601365389221591486304373089240147966672447611046744280956793484167254125071599056097217175293641521839043597008232628308690664821502064132539789623120529661823602271248786923670783691361742214549730098910046337635612354043186138876028074901903406316717828567811003119285397586417531575383607012212359648827552323504151095412024024930872272249746772615727300541562034858713473080397627531789507029044003947477327206509385627434119285370991328971358377707352862000863439015996735172468591532422124595283817037127782395822230175664703628063823656094006248552367344819077010620670647121074944326585666336931295618895247011229030575848857625886950531157174037062299860495369620440304319876307998439898236094180099643567573558105961864503064498819081311999550898919844350952269894919837001782917563126157300010390068701382745925418902267512365095378356350327266831907350156146692084163670266036983772097612544255504591661096297372711663162365243160698532544661120122654527544083954776597631245978807803860670110615266741841267025594323658039663928417531647345472974052904127492702985466752440643476032831071318205440867064808866206094533883785383297913381486367581236460697913047922231630809980098385070289969149435493556805102045242896131382144524775944651566730240978744889860792274052218729589508755926188605517547522961156024046115244705111946279968845038390463482908328135683305352975260121501635620081915791861294085026826946717225796089839920107376715960237834120188613853736993954076657582507557912328849363580474372484783343038115767556061422398179714313523638788303708131778647772702330666559257167870596555642025732592692972521342851087474727698673368968049357571608128394177606486629155977441249140331174865907064864570105697990057577984665772163415518760192557866832867500263962589744226716817470331659190572485745311745602037285316697119978054635052534385833761831269772142934731784391590305443924874483012744110743885034511546118349414291308058877077863518636704941532038804126348695138659093481799208989530027334879113556955396941687117041481048998506728225847429632927539469462115770549927304031682294085344453299210175600016618562578936506232050088581150206274123119279837336067313961349470708871344833391271142330822440382545989072344770919613920742870489888988566638799694648668185404186552615442912992550750987671387213745223602252686685172933067194071017059980320412258456089859740902770299665622942156578145462732810121810043950071323859299512968931541475906562089033456492575798033671320782589992693143576518193626911241611157350208208840320401879807887286944039342744459498059533857778527856894033338592671893285306245508949796675145613485493950863171710668589510386021711934201476053664857318505492208090207027298302468892787160505025061851457590943351042315637085615229848005414535454225528538053326712828522766491520740799716837271215081014324555543439957170469164681996333257532443364006311780578309755985002678591911425156755321443659382449256791155676009368440788093126911002287802656872202367295001684806623504099415818319068291678493339275679097530907470168508478645222326055496673214355138238378827194386789287015458273437421516110789851768182026537719474381785587327018502744699718530254433246307626571787358690863233737268716484986066182859260029593994398347724262765654428569875142715534026920299664891931116567672860089197922099035381037650609172339047458949196047700594355236167871540108362378842802163871538295420709127513718640094299945502379202753250752671197545987335663486032792144924701007537052408182198930902036554243323983322367945360084858822659246884614850274153502638144257384295962097898460097853249053489739481059125152129833388648998274230495555983702570802389545991956833105780569108110096922380509975483537991847881004596757444133912675264473747018733908346413627988960045315578750468393314962062105638977982010501141434689452537808128138250157526896899005646917728911256707517513076870591960471630916628438990415825200562036616264317261793519923829661436864425294407376980086582958149145944541376584807117931076863398917587477420447725197849676362389653160732727457090981890348198912857953217451234782581142399132901241988024261085005827060074667792917619497689263201914285624868015217440805399548326800813832234442215394039023250571706873729633684537661328814356871386674726474915714684333943243607889705186191019642173676607708500638540368850616291179707245957489996723617829341485787584209584424834104151846723390734312510446757645496314402320737052278223654458337383618345956007835538447768160645382507256592743347363621932782158577206620490676138175589813040061243985120723496966178556363546575710485471008398471906438317027565903392947206241604620355408993769193279064958907857875407150989588255983454862953698920122625005227618531856143754016743822422884756817008123360593276367512828846222552313799496405110822958999382688369781459354737338264793535902064126143571770803320988365168977866461268157727234686343354858929998912380482323347635470096922009170567520558682098176051781151433832996681561579765287966201770757300736795284909761773761516977544009523464905950494568151899920164278801206407128557339422055274628880516858264368761761831687714677861715465816514081169736756024128370625021597756712520879886511667512503479636990905621027563344888758154199755980661656736247031990491532775495158863620505393096484435914963127243699161493388773498088305888392219332314045644206614246025508098755394644140737264891716215351963828182584253286295311637590471294046335489513730200722255687306394226095057858928174852236711101038570984734970438503108341162768137347179109499583869329552169850843549157344310765193475045296177809095114499242497239003146236944766527146571765079430665634101559932032852459607282823742415841408047530537044461984760701761230594383537295255526214346909864232414050863510916777944507333976353784534547406552213003957007594474971579855971440189718017657304019427629679405375287786356271940070352949333615245947516601483380471674449412622124990529925232568881098303075767710055255711133085834086405000910895158997739022979963664532128826815396324111089849171525945059105349886466687048403424267359253307792914814117390752479521389088601297989196912824937735382143435334137351966249975532891589863356516677432205184634917524248213573930696253933003645631702306471271320042903590986797136810582116704666194236774900213656728971858667871877574294074869105388056991116645348588197814843699753590139454427062527003521609685681075410556832691426909915715227357140317807617952546498770915427234862226589299231348343128528388373371755045171242552901217010382398243297312282499864922443695681955595847796813538397153298945585732150677806469524674851735849391074455975648665001204221555982994627992252968441130551030874103253041889876730283164364633572299394053523119870482105736139993206216825789547925805322509341141353791410558029166921835348684021810619339237910209541939264351472951758506771848613320040249665961762376285337175745962730344816968407433587024378165488093210467399114171981696174470294945621961606494076505959907403092464663134497413438547787921496126486573788749844120462043035857314594671386707607696716991042915107891919459279570127538348340371712644269657183688616261611073655819397427847464545149870613199607899627945378102313275658989944647182972335686038292327003364745355545533597000089533488284649607551138705971330961658980775091527992111626872594796628297036892372536906121472485692835584873627685782541789559630663017894383171869272544958422892715881351830423523045251683960420317390321148360113813245541776886195812895677538022542333532876235476859558256329456653042437489193237775767551316732497780580263237720342314930656345399238623876029794002714046791251525318073580236313309181852200670759994834597720087523322185841036360008816243415592700285565138009624808573455297855749769177525912396832380692676853038354455098925049487671988422540017090196928374692193958359626610152691020425667182508934102735300861316676188345768915379226987593255246143755132985985477484267418734029957453742321848434616318614697405702478709789320491797214845319327967509924243492362968775295391451905190279402135127111784334585251391059020076851435826012513491656253822284880424112827442858520811343058466869716190611658593533834291117531808391510259992261279484156847717315929241356184310736347999947694042210438710584375089908955406701586547192627705871935883660675956571189456784391416793317627498463350387754195395328084875277754888610301716651514285660540980239339211182899667471764473208211975699632508932290292359564859001280822274490020780578220608549030725023780281282741257920759552482761359517888330055420645485027818603320918391008395946525690561547991802807858159798773297213474997763522437837569138096093887483513728334023991071557567600469461414369991751653119211426469880444241168840607983754804658640660364753589540003812810863130715545275974986233719218159469622830448661825874583838928089386563904382401672933840099339607381454898692287353782223176054799428339608868455153915783090220873408614826833771440645614537588556476225315088542722581035826892190777486877647047478325913135279963811309955615867751988511726157980644760475699084511526822670378764585092250305390784969278839924190427872240687989424698836539827611963859523624930806993014599174938339768811052373445772433803519709238911687857599069963149054147902416231040474841636347551268093371213865149378598543510002275087284203917517361370543160199205798082050743348394488251073009858511520976781423184473527416677531432780011324277616430108857734717677252951434162463077403603789719005359781410775675383053757408034335533095516240748450730733531634031483043923660581781338849320346560967145380237798508484771301512236550654180381344949283104171900374245745941095572840334321837780123312889408320643301375208968113257994495966910039882799413921930780437821151713829983016851515424540544780463449009078278092224221652229798535777176225144690625434035007040965792600439999085881224606239598215491287563259080283107530969889816520600475234592082654422156348398941332744815674110366726218459670472483015882563809690043228349828090884993538769493131863751232890059907556200016773120000, 7079811261048172892385615158694057552947548510339431358729830223546367259189788523569366171782094194908789734525639653391838207739880314591126095835740247724146400971957397335974932582925939115335047391295622682040715435576219571541670229361794019535830274988881132052911319687824708913008385978377671411204358645849927824989776971881573618724308278232922964014717643602812475338224553134137666820605539324205745177763014140546267707976418358497974514287516444661811837037264124271570952304168887253850407036602265921533670599784086381485585135041116956216406924519324743925918620864148191854116267737918949944061684285077592460369240257770553576348963921690285490366741039179103901231220262373181126960178634629203019888236004065751464066402200494220918963695905981714074669647281359046848557531178324898469936047599147830640788861400899647898976560501012270661926248463863319840571646650450899244942015396252706970011878813679623906789143477938628265061055205226443124460255311445514581011863538633696803446556389366592434612370471731139973234192404123092344847330993527108749236120212674650437119700471648028142556069118947380408414577374627699263517659214972183507187848497521542284511650420721345973275253359979482311770869400972134460821400599151070299422683463218865968960769375089271990125608942272298611708350631932755620216551015362363303923925602842698330808500692253641457440417747191786881073296844297436225010128568142121796219564835210952952560722464338046736410981694424217560726644125727560680782475102870918840492675785362191779443118925582556959979421180630059620815869014112452745255758065161397208914532936600772916815448697181363179603882167591444987005939530340241391357351031240065079201304115630512907398759840487390204883260685292053507819776468150460554434869812913994605290945663057945256291468766936770880447389086868043471964977904612671954618026338920935767283721281570455272620525975881928045969346939653137035142100250541636352299414662281821048695703465150781683658693818821099679455907411975924422634512363637502580927278740239795409601142728413238210525169414361342477015171699998147698395327648397766260520190081639184626189207292435970867906371408198740569073809546533575073802801012014065548515788116036128873461848198924103097908076769583937494136038435276091577659709182641200014318299682887111293141710163236048721041917157520720560769698750143353711433114361214279426411767838198064957887934495861074624324578289358208745230180023265733717922750158039150534815666543569186303041406823808436741615219480226933972907849751903907812758670523746599464115265167097167414575099302319873962184920787176841293727855162434211949625330725877300836795578090729208678992626954221157458493787020418738362084845881383534042002828145833218292733577827993511401519281330469568666814168682220103773287576657861129140488110341844683567029640213299743432410213309270393417516193218742021156743467574411573744015253579181663444533004196801676018651152737359061236470237407003583893248135087484990740505872980896430544530788892403011363111919570192203901996465078313817343099408643117503326990278885267764019314143647798279483923996532736295343021536436230852592128764011325058101898563243612295414205818923905949806653890512014153049666598927334218580238711806732392439667466827390822606758903646463506527463561731104345119704946880178733563014434188375179278675060140657093731927759286933742805639023200310562032372591644570179606268944816349630855256691575050354003906250000000000000000000000000000000000000000000000000000000000000000000000000000000000000000000000000000000000000000000000000000000000000000000000000000000000000000000000000000000000000000000000000000000000000000000000000000000000000000000000000000000000000000000000000000000000000000000000000000000000000000000000000000000000000000000000000000000000000000000000000000000000000000000000000000000000000000000000000000000000000000000000000000000000000000000000000000000000000000000000000000000000000000000000000000000000000000000000000000000000000000000000000000000000000000000000000000000000000000000000000000000000000000000000000000000000000000000000000000000000000000000000000000000000000000000000000000000000000000000000000000000000000000000000000000000000000000000000000000000000000000000000000000000000000000000000000000000000000000000000000000000000000000000000000000000000000000000000000000000000000000000000000000000000000000000000000000000000000000000000000000000000000000000000000000000000000000000000000000000000000000000000000000000000000000000000000000000000000000000000000000000000000000000000000000000000000000000000000000000000000000000000000000000000000000000000000000000000000000000000000000000000000000000000000000000000000000000000000000000000000000000000000000000000000000000000000000000000000000000000000000000000000000000000000000000000000000000000000000000000000000000000000000000000000000000000000000000000000000000000000000000000000000000000000000000000000000000000000000000000000000000000000000000000000000000000000000000000000000000000000000000000000000000000000000000000000000000000000000000000000000000000000000000000000000000000000000000000000000000000000000000000000000000000000000000000000000000000000000000000000000000000000000000000000000000000000000000000000000000000000000000000000000000000000000000000000000000000000000000000000000000000000000000000000000000000000000000000000000000000000000000000000000000000000000000000000000000000000000000000000000000000000000000000000000000000000000000000000000000000000000000000000000000000000000000000000000000000000000000000000000000000000000000000000000000000000000000000000000000000000000000000000000000000000000000000000000000000000000000000000000000000000000000000000000000000000000000000000000000000000000000000000000000000000000000000000000000000000000000000000000000000000000000000000000000000000000000000000000000000000000000000000000000000000000000000000000000000000000000000000000000000000000000000000000000000000000000000000000000000000000000000000000000000000000000000000000000000000000000000000000000000000000000000000000000000000000000000000000000000000000000000000000000000000000000000000000000000000000000000000000000000000000000000000000000000000000000000000000000000000000000000000000000000000000000000000000000000000000000000000000000000000000000000000000000000000000000000000000000000000000000000000000000000000000000000000000000000000000000000000000000000000000000000000000000000000000000000000000000000000000000000000000000000000000000000000000000000000000000000000000000000000000000000000000000000000000000000000000000000000000000000000000000000000000000000000000000000000000000000000000000000000000000000000000000000000000000000000000000000000000000000000000000000000000000000000000000000000000000000000000000000000000000000000000000000000000000000000000000000000000000000000000000000000000000000000000000000000000000000000000000000000000000000000000000000000000000000000000000000000000000000000000000000000000000000000000000000000000000000000000000000000000000000000000000000000000000000000000000000000000000000000000000000000000000000000000000000000000000000000000000000000000000000000000000000000000000000000000000000000000000000000000000000000000000000000000000000000000000000000000000000000000000000000000000000000000000000000000000000000000000000000000000000000000000000000000000000000000000000000000000000000000000000000000000000000000000000000000000000000000000000000000000000000000000000000000000000000000000000000000000000000000000000000000000000000000000000000000000000000000000000000000000000000000000000000000000000000000000000000000000000000000000000000000000000000000000000000000000000000000000000000000000000000000000000000000000000000000000000000000000000000000000000000000000000000000000000000000000000000000000000000000000000000000000000000000000000000000000000000000000000000000000000000000000000000000000000000000000000000000000000000000000000000000000000000000000000000000000000000000000000000000000000000000000000000000000000000000000000000000000000000000000000000000000000000000000000000000000000000000000000000000000000000000000000000000000000000000000000000000000000000000000000000000000000000000000000000000000000000000000000000000000000000000000000000000000000000000000000000000000000000000000000000000000000000000000000000000000000000000000000000000000000000000000000000000000000000000000000000000000000000000000000000000000000000000000000000000000000000000000000000000000000000000000000000000000000000000000000000000000000000000000000000000000000000000000000000000000000000000000000000000000000000000000000000000000000000000000000000000000000000000000000000000000000000000000000000000000000000000000000000000000000000000000000000000000000000000000000000000000000000000000000000000000000000000000000000000000000000000000000000000000000000000000000000000000000000000000000000000000000000000000000000000000000000000000000000000000000000000000000000000000000000000000000000000000000000000000000000000000000000000000000000000000000000000000000000000000000000000000000000000000000000000000000000000000000000000000000000000000000000000000000000000000000000000000000000000000000000000000000000000000000000000000000000000000000000000000000000000000000000000000000000000000000000000000000000000000000000000000000000000000000000000000000000000000000000000000000000000000000000000000000000000000000000000000000000000000000000000000000000000000000000000000000000000000000000000000000000000000000000000000000000000000000000000000000000000000000000000000000000000000000000000000000000000000000000000000000000000000000000000000000000000000000000000000000000000000000000000000000000000000000000000000000000000000000000000000000000000000000000000000000000000000000000000000000000000000000000000000000000000000000000000000000000000000000000000000000000000000000000000000000000000000000000000000000000000000000000000000000000000000000000000000000000000000000000000000000000000000000000000000000000000000000000000000000000000000000000000000000000000000000000000000000000000000000000000000000000000000000000000000000000000000000000000000000000000000000000000000000000000000000000000000000000000000000000000000000000000000000000000000000000000000000000000000000000000000000000000000000000000000000000000000000000000000000000000000000000000000000000000000000000000000000000000000000000000000000000000000000000000000000000000000000000000000000000000000000000000000000000000000000000000000000000000000000000000000000000000000000000000000000000000000000000000000000000000000000000000000000000000000000000000000000000000000000000000000000000000000000000000000000000000000000000000000000000000000000000000000000000000000000000000000000000000000000000000000000000000000000000000000000000000000000000000000000000000000000000000000000000000000000000000000000000000000000000000000000000000000000000000000000000000000000000000000000000000000000000000000000000000000000000000000000000000000000000000000000000000000000000000000000000000000000000000000000000000000000000000000000000000000000000000000000000000000000000000000000000000000000000000000000000000000000000000000000000000000000000000000000000000000000000000000000000000000000000000000000000000000000000000000000000000000000000000000000000000000000000000000000000000000000000000000000000000000000000000000000000000000000000000000000000000000000000000000000000000000000000000000000000000000000000000000000000000000000000000000000000000000000000000000000000000000000000000000000000000000000000000000000000000000000000000000000000000000000000000000000000000000000000000000000000000000000000000000000000000000000000000000000000000000000000000000000000000000000000000000000000000000000000000000000000000000000000000000000000000000000000000000000000000000000000000000000000000000000000000000000000000000000000000000000000000000000000000000000000000000000000000000000000000000000000000000000000000000000000000000000000000000000000000000000000000000000000000000000000000000000000000000000000000000000000000000000000000000000000000000000000000000000000000000000000000000000000000000000000000000000000000000000000000000000000000000000000000000000000000000000000000000000000000000000000000000000000000000000000000000000000000000000000000000000000000000000000000000000000000000000000000000000000000000000000000000000000000000000000000000000000000000000000000000000000000000000000000000000000000000000000000000000000000000000000000000000000000000000000000000000000000000000000000000000000000000000000000000000000000000000000000000000000000000000000000000000000000000000000000000000000000000000000000000000000000000000000000000000000000000000000000000000000000000000000000000000000000000000000000000000000000000000000000000000000000000000000000000000000000000000000000000000000000000000000000000000000000000000000000000000000000000000000000000000000000000000000000000000000000000000000000000000000000000000000000000000000000000000000000000000000000000000000000000000000000000000000000000000000000000000000000000000000000000000000000000000000000000000000000000000000000000000000000000000000000000000000000000000000000000000000000000000000000000000000000000000000000000000000000000000000000000000000000000000000000000000000000000000000000000000000000000000000000000000000000000000000000000000000000000000000000000000000000000000000000000000000000000000000000000000000000000000000000000000000000000000000000000000000000000000000000000000000000000000000000000000000000) := by decide

/-- The scaled state after all 5000 steps, assembled from the checkpoints. -/
theorem iterN_total :
    iterNState 5000 (0, 0, 0, 1)
    = (5251250736671492476471449654130691694901492934826296436654953902142163203399203715778667718193615754725878999964902568342370805899281244692863370384356869228173794179277124156939997799593932573590975423133094295079994662957352108652225587041781966794269877421294051457615812722887449249974741339051469498030444882289565123401631994105030911011888387122699790442236256251747987712688473675491581132442118128628951137801206522861294871928150873149816393121228889626535045237806688338497212985607842037408805696212296173484570613705490826653290183839211919625609759491002776367355825139557470919972005652375171167932666480173159565713044402349563030717762814168899846919927274218262072153708303665793282939984959220882934865101939576058846139128600593093438288623363135104829740340558646222159082053358038864924459108733589953199837195056922134459086220651820211709445992138752669718926739218003370843760286852632916140189122586514440104613085850521180305715088357748466323179966907779712484830394172644312853919340030643953195161849942630649690841979161827784446561807489365880469888387725702390780210437885362767835016518682879166808813640292021682820623260115178374077585715101000522787834046636671843799092789844066057475882555008812258773264195588307929546253102826219745992839093027650350168470361725775330060639732816575245599744744272595479211570557083871072766337286686001183473412868041430477189068769691887321946210681610197815461988883401743878596756334247329052901258504060056649471375361307871495981740977130916202752068676380341160064492047294404132229675132002757269059186523641748321289462267245493246752216206905440434160053158711059883272104696092905340311221054203784804320443914700598935528190850911431319754023196585067030943185683230648969919086553797455595862527245007689014186425117830536049060265163374748053633760863712699817550213848988601871018935067395388493845300876636633750697121522353383270975129927022856365006691900205618750717440574120755713208859039330550939016641947859940730571260766638857657789679073443961180466622182940916788165766679069906371861031450315894471312042649630982698122912230563802866260539879407054102769546519135532415241402379386300761548283145293414672097555003018159736060212719383257182283798358273718826135700382012175977748556595406591925452174420636258812228742562183476782128649915114742936902343914188437266746786258809760644884930415256389344715605149408103848823778904265417840547023536087029804733050452674859489396925193549732345275531821872062533603508196084194948098207621413111226558854232450424230121806835567034301171554723279470176892237145131096650939073086661005755648546572428630058363663862152594157655699607539113884201184812682603772442169007210644243659158556212696018414015270825751092630461791460857652772528427177935869947434186117782589062839477651733846969875277696197217980526543262577070740163987645413953447022773255643873425834224363558508238613068585604226473666724258534497169925440863460169714404026253589129563077018969542152777080521784567365685535015480636099861016108840360551848444463475727264402227144237435625794177833610958669416406611410702955294239785963571912365958155963684202393530658798332852270238926937368145253040385148422444191910595860558574255777459105939837735239200944218583991695408535735456538015972429968894156512340672853177015720550901119936387295302376280155148706619886971546791400501431063191172024248085606291818097636658046823538991783931083726482187523829800861724067284293453317288500918448875586146691546335536551350506116480324980899371087809782145772837831232218573727311044879042237411597294408773786008167265915061195097294065901548031035490235595569489489188749938880881962531883225090101857649052779070910205759485257958646208039603734005776406726785868425943626072902307941938881557138202958025035631971187827437576748366615146674760637038749446395749518437991449448150073250290777459640130954091960575649658600761228355352108524179224979084323880986086522731505998433686704254564313640318817485231895547622338651729008556399993829605920495391011851443753823012432479464462707098288870041153751656031551540658165744681644457739403863726053096465894008224617830392266691742139948366510488143672379192931896440558143633227625054839558263155108494364373759657176257910194520915446963206329126418359324536512883926409177997377141303216748401796699863516831897617154747820206547132694053375328914641652687961052411988948082602365715153056988968084078100815776993825716303033343823422014742934202063469009014592994046065253228841685198354861974629690984289671524921901034693322701392232948933597870998406544033565887415225583625681704267416045667183645494794330189826539282162792553591210560974787914592556936160817903824598591660677382219382937388801238664127250640324966070289580415045964965111573280776889870247347979244834359449451880424274302537800772187673914982650931010821513747265122213274143875224682318425692819749580886809598218069081313845210257434804967295903945540011482878670233171174721028884281287744467984090632764963506911030532794482985289517125021250143304110556064456442886827772172854874833993739175857037711110710290301903976362288304675149756575419973368818920505298663672984063040326692241344461910957802672795046704079553312461540264323532590731676216731523076655258370919610235305648145710718433537701762729812558000323272667483003328405408864901898557678639272446607864660102230677478502592093327370287490988189857304701272457556341533790711239274230366221314245676041356594390164703672126386355697635514148980610574095281580144054458044661499845551664794698428396780255181964868330609723474522224095001693613933720189111857274387301141424400782325680947525901011595172777518696584416925100820840383451478897652740040562979231472739727477817362941257676363035050685169413385791488881162685121875639348226657887006163576301007691873724317119848253899385510566788296361103541654181668404548749873098125034674942184603572800365734078975883713207547934014714917847466519016033336254229030623206972222728717842712441768179793433450800682894372077525525665555625630981292283903083588149843927116089711988835743793016162600548054762289052839716352666220844426425168339678887669703215527109070338138259281066088088788233082592354072576982115871315980099009159413411082858129895860444281264100758794444381125868222580646508494647019555172260758122240793126251344963852193343675214410312513910442906392925767061530648621167616935217908821453939071123785480815186494978427122551632030747795505795954753579029913144286818911819980310958759727636512447230544542972091162068385105511271211750784456678716133104524502611265312035035957283126274197923792419127448928146291327582252947039284006821338773935771806342622382621710005500982268289911433325560105523317727433576371989667597813866479949350684857503186169135034925335322499673007247343094672141100604299251761189872711414547987963253294363463321582952769243121165891523251054090592234945749314281882778241653043198581312883344619333170764328395568945993114892552081616500898565588139682524482508852401665814889782366444452184313473377558934497217543274692683144107172633185046249663275923456951286852832095973936189628858427124257857533120963486274282864821607236256733540129032707596746595375844161636072112342767876776230957845890498710851299015664653787788567770277880767251455949452517664763238047697329314968688588778672688197036647423809254215507111048364372772808218998927416725579817194479191225798670233167254079781946781599807985600590950235266398555983741365655883541082757938703102885404044374755198439170422797813257180642256107440875667447354992371607201402901533164856336089532691969272179628251267892542506830676182643642687485499647570722718517570440106143595169952323181641736446546346072978369611007566043413688401622017598695250174898981459478609039399627236832253663523788806814562155794866432362680342267906718075355155049447227891633311207161246400992432006300313628267693262749724441078634557625750429492415276948979973495943320660513219923668681431165609059564326940667326462126297730400750276589824269899663176883635555880934469615879298773469105890339763021524392319968711631266068408146362325525799047777753334818251443056911306473382056204014474976119120058449937001172352991983144954843278446021470688578021090432881216873247314285705284021663968733796942275254472704994494230149883012161195139326089546215839712988539561143353045126411169942666308779891538676845041238895271479989541438045354653965422940362326345804499702856879106453987519092799945334519189957657371450957715458808924688227432966223255271844617053689151445314357209830628604367282349400423085473838892390778091103571206706914865184417030686390420896450875270961285996535159676629762980770987710703182102926995454735845086169974551705760282728574467930817668078281547736203807819437588550219689370551793061401809202274981358292473606237415165565079093317902340289827359838944170730244343336643873246589615204529161979262545819059894343078382016194618112205987761702382976469482699251270200860870302574131963966248465195121975544342055730870426768468169837145552120737511957145755752944297990273662890915478450613512284899817530656383213651907691995532332729283711211565398338010509444139256500948642547174977487145212286054612835066188378292007512253711006230269846308906889570596922211273083017047036843370866471068639433925767271280546703960456216779881447340175541584131731221341035059037001282816953792635193834419333286113104353678850837020464910181189884414274536893655361741824265674342448165465063313687150397718828641062124123311017361094853476217746103521441912141040766607848733871245029610452682625299543431238835977005543971079046460444527143000743335655915065148032572254037308431061622404939358243530824563173695360221351305311525948563974067376627413208979969897521432168245061638980684646678948739179670147853987939761075307094403934440693807350940245231717790674270003573331816813911135957192636758349858945743977358589851702009566859512207033508868980567406237746413828319460362124383577187062490190945869003290956743075317584785377631250152316533985958122236177057119024325987830134145672971014793276135738348040556887009471600330038679173155838239814297503884753336180067216757869364905250720261258400309261352978947583705081664429177958690895512767116527775290612503278279295089291238780878714732079545590267616116296646220448375431966444808704763476037183077039945662176763089371973168505973644410516278557835819315606456553143059034136997728470703653141409729549944137422172599675686319154097537234589463242716819903000701123647534903435218822163130326253712321729261073536078730424078828663752811960595265466791364211022207579440116456423493138371561368083631163940736988640700095890925486556516828228217417452742969566094655512363158263000053693711134667625773108205768198342220851935522737266750710197997338964694064901099846987814154947481804974391313183262947946826247445396595676189875320273710012254175281678570665158768101924345897171417538586765459110638569881843084913342003285519853517177646626483524390108434794914868740125261586321488958889578371082749880280405018646045956194745190024605965221417623136734521988084764151982730051176940808917532334866502644420231147197918736398333073400173481214079637597860713607072586196082619900109372030548822289100641772927272910461450333134961238076341618739758050379668426303662622894368781251632376191134430305058359655147166497735172776894102553496320367180888326924689322778255199672065101127895475434618914509229688429223879964565897147002837269680716630342385818696782786580230808140234092015785385669907854001075206389180143409975674204414072489978579299428914160283789073472878547052762811634263769243586696237237967998681176928175096972953681090054518981195595928180439016741238228336854904601510480920345458310674296385711176911083186592758720764948691478828097441226196983026822343856599287222766620856467053615259984286019904936820371360067191495638195774436702867617583104781381607704436522350105545793691149394815105934772865959132505702846859701989511745071387756144324875593767987615504752360711339564626057895568642439187590707192887561973426079866188993817556100509089397249260859679813684385956139462996480170545011845082862927480643294479463624762873262310768230996803923971197203223815591358143984630236419518556660367813154445051371001495517943704307431020896232745503432462223620189396993331436728293065428671955933406909565883583381177254371729071067451552504073376777248281998999494799192799348293781617077063090396432450588260344234053488212235429643437158457711347442399545419042402352852693652041539019071963956054214715008242655785698032600951919189421296183387872986185568971182330859997048888111837830067207588274235414763103152670140666202430369662666371396796843407560617127463422233967674749681191470209945223702077513439360162020924069523951667797736261769826321271859966870978918066051807616562612046446259177154665554446871180021627139193266558576086718504405644268838550643426870139090220161432327682944592052676724669664738122886522726724497657906948974890621366637764802543203922009726029832525511397453574196780856709616234776610458556123713001606633017162804109378547155569684783997400159608391301236494568130321487661683389838253403739259759338581959336881593791751235015268019668043791692381061734120238017601260111257443403384597974962805785000465864904416234728943779840000, 651196767940413253530685720998349664546316088148018196224741400580537390699057405365802105919787354839967430877791860083739467169782813383516769758734058726572979838147792454203884512536964297899830165846794776181989780530722280000213824635058624813391660389917338911863737904665124877057178684479145393760320773460478395370352597678140159507188676230117221014551192794596956380808882988361801083690608943369937100707646480401698733649299198638366155286151966857880850537993879879285485708824373483604881085518352394995059862456381508127984195512757761805841249675147406904958730561961652356644935796614850879060756118044478026911424560670061589967032896608796558342641041130896533544253118205904015529720664212801488775716865310001104011494337363698138047852847889747972489819217830020113740978445522068178722443191397320688205081915636352235851442539484431305253232795920205163899423272266777697713283790704178970661859807158319295327687287834428784798431926109659454533206240303536943701784965036720791993591419944811657794044867620891705109317419480445098557928786865727858636438728184204478160135926269209655133024351927266356993546316461224250440863182778364984783153560997483429462422522216535661210371262844484359025740528565569017288381471593123732268638107154444375308939171594745204525448873255758607239028488085631755319910265499375381828871589983975929677260569754736023366847127008859995435907032031354629512773522208090392818519570670472592519708207335487983950495798005404992667784709123297476391927621356574284044178572903360865022693527259444162077847134610232684772651912849871485263593049942331773531530053537075470838077849732843208587199174496681162671139580851346614089993663499517705562514814062296779681248816232082988583774604891712911728396901738626357769518274818023991926764753874730026321528732537123062452542725604872696472050760297334981300269885241959175010083585631388304811326732808285444114190304636808260006366982174791123224449685966750758502719084611282466119548290950492768049838975554266261477691395630537400578501701149093370873002662141228295034843041350134150707141206945380469221512517561704950970490050033520400330287675539736269108906814413128361366891809499680647687195171738335159681094716901024857708087890924423863964491667651501454284210852616591960150730565288630865076585201912209722263670777293201136961541296436164747454129975520720936704754717812363300083244066205492163586492809552063132259290800046235951383187040885016634339788524304654910440455940587268088937108924549127079605602815519608210259806115808354106558725056226619237153150410210773217397779082682286494911436409226316625511431459309750305116232731329061804663608100467511542930853421283750309693069142243161209815529876940746202415010411669970459833047165833327034036706841925945819558516224032750368197113602209213751136420227171699167636240051853708677512495584887614569898375819699148712280484823244342573159023234545770364581770714663553220453624281777599827270492990846114835530196590663345248688233717018187739864529293695224024495809184319881486249835371547397801489145813425370752689297951645561692939755263205143507019215587089541306669856716198457559570781357412283502391706999671940625213218133670588244852435513658370857822688992523372839601302882467578657936320973032674321944591654811472143426994261881326501974687345503611085770833943759329855486798032436484285363886506787606517202206885052156034032861217769751235340515099501075405686523546843728251338846165676633086550549247190174858246840561409218895597937247150667761157552126040623662981871425034520222306891383168595323650655162090460514963836113786317625018541268634707970459938575193024185282978783496123713782198091988594330696762008996881430992213824085723647617448733448722429515307572742413667366403176596282356040619754910822905296257987802770193286270680330750523595327802538870660884325442225210795319839181267744443115014701055449031141813022647758780743765272304528739456718174810241169262526220704370070806532176864531212231897725747342374221653335483306993912257912908863390986004380190982336995016259183601838585935413421641765881433739970542942007771019020514139805755004207424196416696335519944568435121194333630499323663456807867364115230077863768391137486729993771317032669651785842766936023878897983537605591676032664819887298546604473185709802980909911304061762302224973400717363202514448728846119872820584234888194619173962471324216528891542321581525479860689623535698743969323678103859063837296076089299887775758709060410540457768297325338914070704290804092780222951777629705125542777375773846852832322688704551128460724309164519088154610925753992941823500353491279123856171430988888670038637099262005203219489468959804402533387384210214164581007031633384184717805036647768583061850424568745465326401777434906227765386877962527834841116367864854326347427340258010476088570528647352416302676671003630874260879693919080872041080916429542687065207288324902902747276241052857847207998961140386186451663319595044023381669652882512013130564442133759667362308674908773830834955182436424561985930488594875130714017138951842475687124934265973449190882330693652606729258737730929514396738985271681941744222380571344629000249581607851154261700528348507587454662341648330270494657116168470043406143273668995917694844725293666745083765615629758698716366374829633993145604203197456286081457519271535971215196591064494152082501911753868829800583836961392056422648917060802899666677918508009662593381982915689152439183557111349849363730209919940132476274019302454755026465104783600370857302404843896541057865346902994503147858838937767407957520034154538187357294100706524336444323268505725620822065095532878034596159597098369241108296262447440922751398833411232555163694575189021529835220584892426031639143178310881805011394854803035472005291393757998448851122240206559789326260905075954293680627089781007397404172867826435557080915845328382572839396054449966156599119324567593037292493849489944561715424296470447302788892936356660725511996665674238415550306677796118702771737049789967690719339505969006686060950558508969807713288891726584474238410157683596401339240440597458935393579789334859700419832361598439070201133030707984009426000039932760092635159893616071135705689790778262850274674048984500070403733917418877007509880782724354251404083579275279341813372308487908049459606925164850700111377366140812611129330152151505430310486726773082902474110352133619807385158016947803961218220430001844708153009507227814205819754462978639673780963429339953838100620471817284951113518190197038200646701931506934848407575668368276837488507933300296809266003199743733258884386134490791766622307682132573249178059341058657834609879586555683822982929194666053921962411554542266537159596066696404008762467742231401436620156088636503187688513529670803565756587686354449456763392292983052299677520991230293948215951712960862534520003364769864240537429374953522254448249878952501923822129122583054890301384120972356378207429091955613144398178631079189409540860655925894279605205275081553922156155835682510765457788777913589707626477322925125544914073941600697660022136448383307729927110820605633338488427736022270179311122808026390126393328165939845746458428200833974398416744603547542511189106351905656886076586718895884462609400702064761839321242103465777834110495142041251802893385166459995558649766836672931330429130274930837171871997803519312971646697729277995056217841767044989071721800302776328243081042013764665659975891393719951215459153219367519182967368406437988943030400347964025025725682030601761126689529374542308223694162137341604097780143213308374347985169000141317280620472352307695666845281788250409829033013859973250964342424225657038845502316165187261049404230416452144419267439137895461178418367090870039644194959896731591744393918519871058855543636354184168753371612950951111615726932930782049433015494119858658149544111388767931864123929686530749202137669275564204413302753966326539039461630227851338902749623572463831042182353006856699781132272882355441245423055670293171959917107059067445081018390736624578517375167453659911299987095185777112193633476512510262957949267774175049963093908796056083881272385669091775135627496572494045661170730914465478885769676760870953699168074996082531274125429256965517227120350474268266656529078941391785859218159620511210042694374007581997360055189671697565782692838184973627037832476284876410827616831159868426659207312753366587632961352045751172087364377841341889654516429459969196700723456523572387072377418356669884707139632261346599376379368565798258409799344288128188038388343741782732175393901584333848585913510161370299580800882009754518577341934586221360625259331224030171633719882607116619772369962954665771328248612539956028276056274483935009560731503226142113247227984572705919814415381804537595135676450117745558885701565526407415340358460330583542104159999325770043506789494644157701863440413989468740729629055537324222736735098395496851322030529185462897026987847592279121386855140667338643479870004450515147989112452135255752967161108173483284175795536823703152424483349329505828075457867131661647499695793920385004195311710746358739959327771919305592969101713015451243192780257532911518850808673175906137931034478104603705661241295459663113764180090360556653103896492606062979430141047212331699936992831799577949240402899240862831035368655408708960486936269915339143080492056838397467061095348271463917899394001266217103588966985290567124324992693073742724312910122218418087502945113331489947889458459070277664518843919125057086623291640910040261174938252855686837091295056333906878784376332654473999123836972893087941153950870981819893346833196785967766654159650863170109561237933973075779326471567282609486489367504085039320468096648537521390134259165394562378755818479538215541281923475277572634932642216331437780631795235828384761845166126792202244168553387927684550390413405160063331909025995041894713267398522383819949542500510868837587871069270290049751790801772721826251569701793240490556002206494918888269050178213281898040952597112968929168859871419600764021059864260633664210613365784409304098307882975408794329734388223443025056859781941086519079212256442594867418676698950703496528726753199392596677278409788642952044388876931038076116992726015075115016742028861141998658886246835534366978509569890089537148257783042825202193839510727312589358685399556015435452848576361001898797980669988838044951113462046847928171666390336397737050629454030404058365760107714809142834281433074505206114454917902312653158753645063233674456146338267005649764547795182767241052355709652736683980701928141182633174374958147575804077493214361781705934324034934640626980122765115364095166360834544610096165461461018551693344705548165603662892205487540854814589292481386761661778062137086134457105352389366189498240127903895430728249544242347711337238998146655225146690811532058647421024361370042859713605002870424498347333799340223421424467219799031839912950079628900303603887117176855639504773527576936571102819711804372841518818246130406333043150542949383358989669379720111808568502102529485967606251554002411791105623556667118340806851215789595702831553534885151316511178850818061581185732371779256159709067229769780217733332371590361249007301447810549105682219001439961200319578910507300234997369412503655066061081707437023556385950240007544366903543425172968018194873978997509955148911389284450953479236251366298258069379009326875453914875065885534157692628931751739032368212079651089991619642579082592181206040507390215104609174389273131896504279423256488028738258052999658077804941722594220954442545459691775942934122870906631716889764455595957335194415923689597629873939727387506279409380054026407120778422949543169519860607242825890809199893735255898870296816458468728604308472704365364209396579831411288578574440287124088909966553837074398404723201492019841601996012893591631296181494971793801965147572791148335929638106266429156102172456032258064446093094947119927952938480008045393504179234718699415428084773446306160302022975045903820574840796857166708719014465448120749781797384291400126995725195042742432032835137460113863287600279023246596057251206000791517606783553498502037641311012605936062036252549520807662256580077245500465932737334700437496376821188661384548837257278695605237584629058171740292901153660871189104979446651026123072846490114721191725572623281933196686894586480322966110862577942610638506372211660933337703185869286913180700173184378354035945738914187694207198095703413175469809433957039483179514709318271910087801329739881942050388800477756818745289365352789929196477133261497247793801249313312459216849536760011561572671932197367312526878298183801575749921792950968192175156599605268364541052975692969790087296177762835793147891748807296876022689250438713649071727031173190905193124042494031886515895211376420109010930640397508806087656845753589363193147056516074457958067645891725735405972144297477119217615070532467274321459020848748492677402265992507533535762774270614908040167305589999806256640231614527999598875903849938604574161833993589311249805689190648668383932137839729874756588783503709565080385996685366132268075453279454517985789017740243314101061267629830963590535905721213777219879864473595526458840504937842284539857801140234878477836450110504721075275460778644988449667406993404009681403730501228063059382729554814614039772076361712465830105809609691452302074779605705687040000, 520957414352330602824548576798679731637052870511812515436444655794845628112236489470243201895034214722777135057458431113192767634945339901403698360117360040657094527152576506568921365967038070840937325719518599605369783470070990325481236855984961819646265828681396544624131275523426010475794425372649370801720137859235058870814946781710157663217674092220706540586209738080590889805540468999732819041525934490304906977681446629905101920691017718739888276999623390753595468025983585431114065004507973609917284719776853931344318484710049657484587379822481898575613300665501359049475593067088430101328368076038164713812447730499625294829768404594146078044687660460026957081909001828581808661037536286646019465163174006414220700084015820561497569839190002770201247378062884066933862913615772856231815228002802534350041642783220293890596971561018199425628391177836488752199292558233060576846821574461307337551281562036020559694220364329692567643811507104789256984532729248422576519914693603757665655504524239273336567960807154963271276631961694297838797428160338312018564376387197028072032374183287471047143381020373713962414429864469503552811184074711333214765536847266058976649666411262876975850492675605148919900586501562455510600489335076784067198794605057331430719096463273449118495101822705556912158144849919183511056554867022358657208950733835118028347928928984440742719201094176113882592106918077100155357489614229376008163806742959596994579467314375849842722155029071241196054798496016794557138445724741475968823930369514789792782222573549011547823154414268062950205211806037002716803589227510308990632013638554058985432966210712992610207939747360687289893307085051059021178403047529106292398658411001799413670462940696486359909046171409010953305685488874869487479675410554379459520156894771306695398088490307164669377257932018815577450571669812013738300229785708774723896803738614172893606189373496080926188806245123553651086465776428767539321681293064139207511599696372136855314556779985858758740836570052742293501733457560599502437870165699653229244413958687530621270180860279482123025613299890190522986290852265599175827002708236288389022011807907559012469992100864380712249512563496937949200953259221669364996457694016359694792234870540349271047002378151228829483910975340719594969057672298497644181379906394238711523051728736257496312554103174620131412236651089184165811169759453114660501004033591187949946455636435352532817227370156709263186869438512267276716628223602996991615873416253536867053720866813624174660351909132343554542384178656343473748696745259027017341800998138306023469628139594330039429912038389118720224806848022555308744349998093221589232411225083216243431324560548055035546614417077143635805137183024072528977384572779313927956790343408898442883100488762247721054165297158755300277385441429992123655094930289888244750820512509991990630722485224525855379951870938581032726086713895990329109337017438158184240442106010397067298400631603189247328730465417774124540249360343739898098272143660021165204167499672491829927114973942757346189797825959665774588818159395447565347521426095329245830280463749194008183453432373290697953566800193941382375314157008236862567705004432593783441050492144059169500750341326722033647612810640601365389221591486304373089240147966672447611046744280956793484167254125071599056097217175293641521839043597008232628308690664821502064132539789623120529661823602271248786923670783691361742214549730098910046337635612354043186138876028074901903406316717828567811003119285397586417531575383607012212359648827552323504151095412024024930872272249746772615727300541562034858713473080397627531789507029044003947477327206509385627434119285370991328971358377707352862000863439015996735172468591532422124595283817037127782395822230175664703628063823656094006248552367344819077010620670647121074944326585666336931295618895247011229030575848857625886950531157174037062299860495369620440304319876307998439898236094180099643567573558105961864503064498819081311999550898919844350952269894919837001782917563126157300010390068701382745925418902267512365095378356350327266831907350156146692084163670266036983772097612544255504591661096297372711663162365243160698532544661120122654527544083954776597631245978807803860670110615266741841267025594323658039663928417531647345472974052904127492702985466752440643476032831071318205440867064808866206094533883785383297913381486367581236460697913047922231630809980098385070289969149435493556805102045242896131382144524775944651566730240978744889860792274052218729589508755926188605517547522961156024046115244705111946279968845038390463482908328135683305352975260121501635620081915791861294085026826946717225796089839920107376715960237834120188613853736993954076657582507557912328849363580474372484783343038115767556061422398179714313523638788303708131778647772702330666559257167870596555642025732592692972521342851087474727698673368968049357571608128394177606486629155977441249140331174865907064864570105697990057577984665772163415518760192557866832867500263962589744226716817470331659190572485745311745602037285316697119978054635052534385833761831269772142934731784391590305443924874483012744110743885034511546118349414291308058877077863518636704941532038804126348695138659093481799208989530027334879113556955396941687117041481048998506728225847429632927539469462115770549927304031682294085344453299210175600016618562578936506232050088581150206274123119279837336067313961349470708871344833391271142330822440382545989072344770919613920742870489888988566638799694648668185404186552615442912992550750987671387213745223602252686685172933067194071017059980320412258456089859740902770299665622942156578145462732810121810043950071323859299512968931541475906562089033456492575798033671320782589992693143576518193626911241611157350208208840320401879807887286944039342744459498059533857778527856894033338592671893285306245508949796675145613485493950863171710668589510386021711934201476053664857318505492208090207027298302468892787160505025061851457590943351042315637085615229848005414535454225528538053326712828522766491520740799716837271215081014324555543439957170469164681996333257532443364006311780578309755985002678591911425156755321443659382449256791155676009368440788093126911002287802656872202367295001684806623504099415818319068291678493339275679097530907470168508478645222326055496673214355138238378827194386789287015458273437421516110789851768182026537719474381785587327018502744699718530254433246307626571787358690863233737268716484986066182859260029593994398347724262765654428569875142715534026920299664891931116567672860089197922099035381037650609172339047458949196047700594355236167871540108362378842802163871538295420709127513718640094299945502379202753250752671197545987335663486032792144924701007537052408182198930902036554243323983322367945360084858822659246884614850274153502638144257384295962097898460097853249053489739481059125152129833388648998274230495555983702570802389545991956833105780569108110096922380509975483537991847881004596757444133912675264473747018733908346413627988960045315578750468393314962062105638977982010501141434689452537808128138250157526896899005646917728911256707517513076870591960471630916628438990415825200562036616264317261793519923829661436864425294407376980086582958149145944541376584807117931076863398917587477420447725197849676362389653160732727457090981890348198912857953217451234782581142399132901241988024261085005827060074667792917619497689263201914285624868015217440805399548326800813832234442215394039023250571706873729633684537661328814356871386674726474915714684333943243607889705186191019642173676607708500638540368850616291179707245957489996723617829341485787584209584424834104151846723390734312510446757645496314402320737052278223654458337383618345956007835538447768160645382507256592743347363621932782158577206620490676138175589813040061243985120723496966178556363546575710485471008398471906438317027565903392947206241604620355408993769193279064958907857875407150989588255983454862953698920122625005227618531856143754016743822422884756817008123360593276367512828846222552313799496405110822958999382688369781459354737338264793535902064126143571770803320988365168977866461268157727234686343354858929998912380482323347635470096922009170567520558682098176051781151433832996681561579765287966201770757300736795284909761773761516977544009523464905950494568151899920164278801206407128557339422055274628880516858264368761761831687714677861715465816514081169736756024128370625021597756712520879886511667512503479636990905621027563344888758154199755980661656736247031990491532775495158863620505393096484435914963127243699161493388773498088305888392219332314045644206614246025508098755394644140737264891716215351963828182584253286295311637590471294046335489513730200722255687306394226095057858928174852236711101038570984734970438503108341162768137347179109499583869329552169850843549157344310765193475045296177809095114499242497239003146236944766527146571765079430665634101559932032852459607282823742415841408047530537044461984760701761230594383537295255526214346909864232414050863510916777944507333976353784534547406552213003957007594474971579855971440189718017657304019427629679405375287786356271940070352949333615245947516601483380471674449412622124990529925232568881098303075767710055255711133085834086405000910895158997739022979963664532128826815396324111089849171525945059105349886466687048403424267359253307792914814117390752479521389088601297989196912824937735382143435334137351966249975532891589863356516677432205184634917524248213573930696253933003645631702306471271320042903590986797136810582116704666194236774900213656728971858667871877574294074869105388056991116645348588197814843699753590139454427062527003521609685681075410556832691426909915715227357140317807617952546498770915427234862226589299231348343128528388373371755045171242552901217010382398243297312282499864922443695681955595847796813538397153298945585732150677806469524674851735849391074455975648665001204221555982994627992252968441130551030874103253041889876730283164364633572299394053523119870482105736139993206216825789547925805322509341141353791410558029166921835348684021810619339237910209541939264351472951758506771848613320040249665961762376285337175745962730344816968407433587024378165488093210467399114171981696174470294945621961606494076505959907403092464663134497413438547787921496126486573788749844120462043035857314594671386707607696716991042915107891919459279570127538348340371712644269657183688616261611073655819397427847464545149870613199607899627945378102313275658989944647182972335686038292327003364745355545533597000089533488284649607551138705971330961658980775091527992111626872594796628297036892372536906121472485692835584873627685782541789559630663017894383171869272544958422892715881351830423523045251683960420317390321148360113813245541776886195812895677538022542333532876235476859558256329456653042437489193237775767551316732497780580263237720342314930656345399238623876029794002714046791251525318073580236313309181852200670759994834597720087523322185841036360008816243415592700285565138009624808573455297855749769177525912396832380692676853038354455098925049487671988422540017090196928374692193958359626610152691020425667182508934102735300861316676188345768915379226987593255246143755132985985477484267418734029957453742321848434616318614697405702478709789320491797214845319327967509924243492362968775295391451905190279402135127111784334585251391059020076851435826012513491656253822284880424112827442858520811343058466869716190611658593533834291117531808391510259992261279484156847717315929241356184310736347999947694042210438710584375089908955406701586547192627705871935883660675956571189456784391416793317627498463350387754195395328084875277754888610301716651514285660540980239339211182899667471764473208211975699632508932290292359564859001280822274490020780578220608549030725023780281282741257920759552482761359517888330055420645485027818603320918391008395946525690561547991802807858159798773297213474997763522437837569138096093887483513728334023991071557567600469461414369991751653119211426469880444241168840607983754804658640660364753589540003812810863130715545275974986233719218159469622830448661825874583838928089386563904382401672933840099339607381454898692287353782223176054799428339608868455153915783090220873408614826833771440645614537588556476225315088542722581035826892190777486877647047478325913135279963811309955615867751988511726157980644760475699084511526822670378764585092250305390784969278839924190427872240687989424698836539827611963859523624930806993014599174938339768811052373445772433803519709238911687857599069963149054147902416231040474841636347551268093371213865149378598543510002275087284203917517361370543160199205798082050743348394488251073009858511520976781423184473527416677531432780011324277616430108857734717677252951434162463077403603789719005359781410775675383053757408034335533095516240748450730733531634031483043923660581781338849320346560967145380237798508484771301512236550654180381344949283104171900374245745941095572840334321837780123312889408320643301375208968113257994495966910039882799413921930780437821151713829983016851515424540544780463449009078278092224221652229798535777176225144690625434035007040965792600439999085881224606239598215491287563259080283107530969889816520600475234592082654422156348398941332744815674110366726218459670472483015882563809690043228349828090884993538769493131863751232890059907556200016773120000, 7079811261048172892385615158694057552947548510339431358729830223546367259189788523569366171782094194908789734525639653391838207739880314591126095835740247724146400971957397335974932582925939115335047391295622682040715435576219571541670229361794019535830274988881132052911319687824708913008385978377671411204358645849927824989776971881573618724308278232922964014717643602812475338224553134137666820605539324205745177763014140546267707976418358497974514287516444661811837037264124271570952304168887253850407036602265921533670599784086381485585135041116956216406924519324743925918620864148191854116267737918949944061684285077592460369240257770553576348963921690285490366741039179103901231220262373181126960178634629203019888236004065751464066402200494220918963695905981714074669647281359046848557531178324898469936047599147830640788861400899647898976560501012270661926248463863319840571646650450899244942015396252706970011878813679623906789143477938628265061055205226443124460255311445514581011863538633696803446556389366592434612370471731139973234192404123092344847330993527108749236120212674650437119700471648028142556069118947380408414577374627699263517659214972183507187848497521542284511650420721345973275253359979482311770869400972134460821400599151070299422683463218865968960769375089271990125608942272298611708350631932755620216551015362363303923925602842698330808500692253641457440417747191786881073296844297436225010128568142121796219564835210952952560722464338046736410981694424217560726644125727560680782475102870918840492675785362191779443118925582556959979421180630059620815869014112452745255758065161397208914532936600772916815448697181363179603882167591444987005939530340241391357351031240065079201304115630512907398759840487390204883260685292053507819776468150460554434869812913994605290945663057945256291468766936770880447389086868043471964977904612671954618026338920935767283721281570455272620525975881928045969346939653137035142100250541636352299414662281821048695703465150781683658693818821099679455907411975924422634512363637502580927278740239795409601142728413238210525169414361342477015171699998147698395327648397766260520190081639184626189207292435970867906371408198740569073809546533575073802801012014065548515788116036128873461848198924103097908076769583937494136038435276091577659709182641200014318299682887111293141710163236048721041917157520720560769698750143353711433114361214279426411767838198064957887934495861074624324578289358208745230180023265733717922750158039150534815666543569186303041406823808436741615219480226933972907849751903907812758670523746599464115265167097167414575099302319873962184920787176841293727855162434211949625330725877300836795578090729208678992626954221157458493787020418738362084845881383534042002828145833218292733577827993511401519281330469568666814168682220103773287576657861129140488110341844683567029640213299743432410213309270393417516193218742021156743467574411573744015253579181663444533004196801676018651152737359061236470237407003583893248135087484990740505872980896430544530788892403011363111919570192203901996465078313817343099408643117503326990278885267764019314143647798279483923996532736295343021536436230852592128764011325058101898563243612295414205818923905949806653890512014153049666598927334218580238711806732392439667466827390822606758903646463506527463561731104345119704946880178733563014434188375179278675060140657093731927759286933742805639023200310562032372591644570179606268944816349630855256691575050354003906250000000000000000000000000000000000000000000000000000000000000000000000000000000000000000000000000000000000000000000000000000000000000000000000000000000000000000000000000000000000000000000000000000000000000000000000000000000000000000000000000000000000000000000000000000000000000000000000000000000000000000000000000000000000000000000000000000000000000000000000000000000000000000000000000000000000000000000000000000000000000000000000000000000000000000000000000000000000000000000000000000000000000000000000000000000000000000000000000000000000000000000000000000000000000000000000000000000000000000000000000000000000000000000000000000000000000000000000000000000000000000000000000000000000000000000000000000000000000000000000000000000000000000000000000000000000000000000000000000000000000000000000000000000000000000000000000000000000000000000000000000000000000000000000000000000000000000000000000000000000000000000000000000000000000000000000000000000000000000000000000000000000000000000000000000000000000000000000000000000000000000000000000000000000000000000000000000000000000000000000000000000000000000000000000000000000000000000000000000000000000000000000000000000000000000000000000000000000000000000000000000000000000000000000000000000000000000000000000000000000000000000000000000000000000000000000000000000000000000000000000000000000000000000000000000000000000000000000000000000000000000000000000000000000000000000000000000000000000000000000000000000000000000000000000000000000000000000000000000000000000000000000000000000000000000000000000000000000000000000000000000000000000000000000000000000000000000000000000000000000000000000000000000000000000000000000000000000000000000000000000000000000000000000000000000000000000000000000000000000000000000000000000000000000000000000000000000000000000000000000000000000000000000000000000000000000000000000000000000000000000000000000000000000000000000000000000000000000000000000000000000000000000000000000000000000000000000000000000000000000000000000000000000000000000000000000000000000000000000000000000000000000000000000000000000000000000000000000000000000000000000000000000000000000000000000000000000000000000000000000000000000000000000000000000000000000000000000000000000000000000000000000000000000000000000000000000000000000000000000000000000000000000000000000000000000000000000000000000000000000000000000000000000000000000000000000000000000000000000000000000000000000000000000000000000000000000000000000000000000000000000000000000000000000000000000000000000000000000000000000000000000000000000000000000000000000000000000000000000000000000000000000000000000000000000000000000000000000000000000000000000000000000000000000000000000000000000000000000000000000000000000000000000000000000000000000000000000000000000000000000000000000000000000000000000000000000000000000000000000000000000000000000000000000000000000000000000000000000000000000000000000000000000000000000000000000000000000000000000000000000000000000000000000000000000000000000000000000000000000000000000000000000000000000000000000000000000000000000000000000000000000000000000000000000000000000000000000000000000000000000000000000000000000000000000000000000000000000000000000000000000000000000000000000000000000000000000000000000000000000000000000000000000000000000000000000000000000000000000000000000000000000000000000000000000000000000000000000000000000000000000000000000000000000000000000000000000000000000000000000000000000000000000000000000000000000000000000000000000000000000000000000000000000000000000000000000000000000000000000000000000000000000000000000000000000000000000000000000000000000000000000000000000000000000000000000000000000000000000000000000000000000000000000000000000000000000000000000000000000000000000000000000000000000000000000000000000000000000000000000000000000000000000000000000000000000000000000000000000000000000000000000000000000000000000000000000000000000000000000000000000000000000000000000000000000000000000000000000000000000000000000000000000000000000000000000000000000000000000000000000000000000000000000000000000000000000000000000000000000000000000000000000000000000000000000000000000000000000000000000000000000000000000000000000000000000000000000000000000000000000000000000000000000000000000000000000000000000000000000000000000000000000000000000000000000000000000000000000000000000000000000000000000000000000000000000000000000000000000000000000000000000000000000000000000000000000000000000000000000000000000000000000000000000000000000000000000000000000000000000000000000000000000000000000000000000000000000000000000000000000000000000000000000000000000000000000000000000000000000000000000000000000000000000000000000000000000000000000000000000000000000000000000000000000000000000000000000000000000000000000000000000000000000000000000000000000000000000000000000000000000000000000000000000000000000000000000000000000000000000000000000000000000000000000000000000000000000000000000000000000000000000000000000000000000000000000000000000000000000000000000000000000000000000000000000000000000000000000000000000000000000000000000000000000000000000000000000000000000000000000000000000000000000000000000000000000000000000000000000000000000000000000000000000000000000000000000000000000000000000000000000000000000000000000000000000000000000000000000000000000000000000000000000000000000000000000000000000000000000000000000000000000000000000000000000000000000000000000000000000000000000000000000000000000000000000000000000000000000000000000000000000000000000000000000000000000000000000000000000000000000000000000000000000000000000000000000000000000000000000000000000000000000000000000000000000000000000000000000000000000000000000000000000000000000000000000000000000000000000000000000000000000000000000000000000000000000000000000000000000000000000000000000000000000000000000000000000000000000000000000000000000000000000000000000000000000000000000000000000000000000000000000000000000000000000000000000000000000000000000000000000000000000000000000000000000000000000000000000000000000000000000000000000000000000000000000000000000000000000000000000000000000000000000000000000000000000000000000000000000000000000000000000000000000000000000000000000000000000000000000000000000000000000000000000000000000000000000000000000000000000000000000000000000000000000000000000000000000000000000000000000000000000000000000000000000000000000000000000000000000000000000000000000000000000000000000000000000000000000000000000000000000000000000000000000000000000000000000000000000000000000000000000000000000000000000000000000000000000000000000000000000000000000000000000000000000000000000000000000000000000000000000000000000000000000000000000000000000000000000000000000000000000000000000000000000000000000000000000000000000000000000000000000000000000000000000000000000000000000000000000000000000000000000000000000000000000000000000000000000000000000000000000000000000000000000000000000000000000000000000000000000000000000000000000000000000000000000000000000000000000000000000000000000000000000000000000000000000000000000000000000000000000000000000000000000000000000000000000000000000000000000000000000000000000000000000000000000000000000000000000000000000000000000000000000000000000000000000000000000000000000000000000000000000000000000000000000000000000000000000000000000000000000000000000000000000000000000000000000000000000000000000000000000000000000000000000000000000000000000000000000000000000000000000000000000000000000000000000000000000000000000000000000000000000000000000000000000000000000000000000000000000000000000000000000000000000000000000000000000000000000000000000000000000000000000000000000000000000000000000000000000000000000000000000000000000000000000000000000000000000000000000000000000000000000000000000000000000000000000000000000000000000000000000000000000000000000000000000000000000000000000000000000000000000000000000000000000000000000000000000000000000000000000000000000000000000000000000000000000000000000000000000000000000000000000000000000000000000000000000000000000000000000000000000000000000000000000000000000000000000000000000000000000000000000000000000000000000000000000000000000000000000000000000000000000000000000000000000000000000000000000000000000000000000000000000000000000000000000000000000000000000000000000000000000000000000000000000000000000000000000000000000000000000000000000000000000000000000000000000000000000000000000000000000000000000000000000000000000000000000000000000000000000000000000000000000000000000000000000000000000000000000000000000000000000000000000000000000000000000000000000000000000000000000000000000000000000000000000000000000000000000000000000000000000000000000000000000000000000000000000000000000000000000000000000000000000000000000000000000000000000000000000000000000000000000000000000000000000000000000000000000000000000000000000000000000000000000000000000000000000000000000000000000000000000000000000000000000000000000000000000000000000000000000000000000000000000000000000000000000000000000000000000000000000000000000000000000000000000000000000000000000000000000000000000000000000000000000000000000000000000000000000000000000000000000000000000000000000000000000000000000000000000000000000000000000000000000000000000000000000000000000000000000000000000000000000000000000000000000000000000000000000000000000000000000000000000000000000000000000000000000000000000000000000000000000000000000000000000000000000000000000000000000000000000000000000000000000000000000000000000000000000000000000000000000000000000000000000000000000000000000000000000000000000000000000000000000000000000000000000000000000000000000000000000000000000000000000000000000000000000000000000000000000000000000000000000000000000000000000000000000000000000000000000000000000000000000000000000000000000000000000000000000000000000000000000000000000000000000000000000000000000000000000000000000000000000000000000000000000000000000000000000000000000000000000000000000000000000000000000000000000000000000000000000000000000000000000000000000000000000000000000000000000000000000000) := by
  rw [show (5000 : Nat) = 1000 + (1000 + (1000 + (1000 + 1000))) from by norm_num,
    iterNState_add, iterNState_add, iterNState_add, iterNState_add,
    iterChunk1, iterChunk2, iterChunk3, iterChunk4, iterChunk5]

/-- C8: integrating the model (via the spec-modelled fixed-step explicit
integration service, step `1/500`, so 5000 steps reach `t = 10`) from the
zero initial state with parameters `R_T=1, k_on=400, k_off=50, f=50,
f_prime=400, h=8, h_prime=6, g=4` yields a final state at which all three
components of the derivative function are within `1e-3` of zero. -/
theorem steady_state_t10 :
    |(rhs (odeSolve (1/500) 1 400 50 50 400 8 6 4 (0, 0, 0) 5000) 10 1 400 50 50 400 8 6 4).1|
      ≤ 1 / 1000
    ∧ |(rhs (odeSolve (1/500) 1 400 50 50 400 8 6 4 (0, 0, 0) 5000) 10 1 400 50 50 400 8 6 4).2.1|
      ≤ 1 / 1000
    ∧ |(rhs (odeSolve (1/500) 1 400 50 50 400 8 6 4 (0, 0, 0) 5000) 10 1 400 50 50 400 8 6 4).2.2|
      ≤ 1 / 1000 := by
  have hfin : odeSolve (1/500) 1 400 50 50 400 8 6 4 (0, 0, 0) 5000
      = (((5251250736671492476471449654130691694901492934826296436654953902142163203399203715778667718193615754725878999964902568342370805899281244692863370384356869228173794179277124156939997799593932573590975423133094295079994662957352108652225587041781966794269877421294051457615812722887449249974741339051469498030444882289565123401631994105030911011888387122699790442236256251747987712688473675491581132442118128628951137801206522861294871928150873149816393121228889626535045237806688338497212985607842037408805696212296173484570613705490826653290183839211919625609759491002776367355825139557470919972005652375171167932666480173159565713044402349563030717762814168899846919927274218262072153708303665793282939984959220882934865101939576058846139128600593093438288623363135104829740340558646222159082053358038864924459108733589953199837195056922134459086220651820211709445992138752669718926739218003370843760286852632916140189122586514440104613085850521180305715088357748466323179966907779712484830394172644312853919340030643953195161849942630649690841979161827784446561807489365880469888387725702390780210437885362767835016518682879166808813640292021682820623260115178374077585715101000522787834046636671843799092789844066057475882555008812258773264195588307929546253102826219745992839093027650350168470361725775330060639732816575245599744744272595479211570557083871072766337286686001183473412868041430477189068769691887321946210681610197815461988883401743878596756334247329052901258504060056649471375361307871495981740977130916202752068676380341160064492047294404132229675132002757269059186523641748321289462267245493246752216206905440434160053158711059883272104696092905340311221054203784804320443914700598935528190850911431319754023196585067030943185683230648969919086553797455595862527245007689014186425117830536049060265163374748053633760863712699817550213848988601871018935067395388493845300876636633750697121522353383270975129927022856365006691900205618750717440574120755713208859039330550939016641947859940730571260766638857657789679073443961180466622182940916788165766679069906371861031450315894471312042649630982698122912230563802866260539879407054102769546519135532415241402379386300761548283145293414672097555003018159736060212719383257182283798358273718826135700382012175977748556595406591925452174420636258812228742562183476782128649915114742936902343914188437266746786258809760644884930415256389344715605149408103848823778904265417840547023536087029804733050452674859489396925193549732345275531821872062533603508196084194948098207621413111226558854232450424230121806835567034301171554723279470176892237145131096650939073086661005755648546572428630058363663862152594157655699607539113884201184812682603772442169007210644243659158556212696018414015270825751092630461791460857652772528427177935869947434186117782589062839477651733846969875277696197217980526543262577070740163987645413953447022773255643873425834224363558508238613068585604226473666724258534497169925440863460169714404026253589129563077018969542152777080521784567365685535015480636099861016108840360551848444463475727264402227144237435625794177833610958669416406611410702955294239785963571912365958155963684202393530658798332852270238926937368145253040385148422444191910595860558574255777459105939837735239200944218583991695408535735456538015972429968894156512340672853177015720550901119936387295302376280155148706619886971546791400501431063191172024248085606291818097636658046823538991783931083726482187523829800861724067284293453317288500918448875586146691546335536551350506116480324980899371087809782145772837831232218573727311044879042237411597294408773786008167265915061195097294065901548031035490235595569489489188749938880881962531883225090101857649052779070910205759485257958646208039603734005776406726785868425943626072902307941938881557138202958025035631971187827437576748366615146674760637038749446395749518437991449448150073250290777459640130954091960575649658600761228355352108524179224979084323880986086522731505998433686704254564313640318817485231895547622338651729008556399993829605920495391011851443753823012432479464462707098288870041153751656031551540658165744681644457739403863726053096465894008224617830392266691742139948366510488143672379192931896440558143633227625054839558263155108494364373759657176257910194520915446963206329126418359324536512883926409177997377141303216748401796699863516831897617154747820206547132694053375328914641652687961052411988948082602365715153056988968084078100815776993825716303033343823422014742934202063469009014592994046065253228841685198354861974629690984289671524921901034693322701392232948933597870998406544033565887415225583625681704267416045667183645494794330189826539282162792553591210560974787914592556936160817903824598591660677382219382937388801238664127250640324966070289580415045964965111573280776889870247347979244834359449451880424274302537800772187673914982650931010821513747265122213274143875224682318425692819749580886809598218069081313845210257434804967295903945540011482878670233171174721028884281287744467984090632764963506911030532794482985289517125021250143304110556064456442886827772172854874833993739175857037711110710290301903976362288304675149756575419973368818920505298663672984063040326692241344461910957802672795046704079553312461540264323532590731676216731523076655258370919610235305648145710718433537701762729812558000323272667483003328405408864901898557678639272446607864660102230677478502592093327370287490988189857304701272457556341533790711239274230366221314245676041356594390164703672126386355697635514148980610574095281580144054458044661499845551664794698428396780255181964868330609723474522224095001693613933720189111857274387301141424400782325680947525901011595172777518696584416925100820840383451478897652740040562979231472739727477817362941257676363035050685169413385791488881162685121875639348226657887006163576301007691873724317119848253899385510566788296361103541654181668404548749873098125034674942184603572800365734078975883713207547934014714917847466519016033336254229030623206972222728717842712441768179793433450800682894372077525525665555625630981292283903083588149843927116089711988835743793016162600548054762289052839716352666220844426425168339678887669703215527109070338138259281066088088788233082592354072576982115871315980099009159413411082858129895860444281264100758794444381125868222580646508494647019555172260758122240793126251344963852193343675214410312513910442906392925767061530648621167616935217908821453939071123785480815186494978427122551632030747795505795954753579029913144286818911819980310958759727636512447230544542972091162068385105511271211750784456678716133104524502611265312035035957283126274197923792419127448928146291327582252947039284006821338773935771806342622382621710005500982268289911433325560105523317727433576371989667597813866479949350684857503186169135034925335322499673007247343094672141100604299251761189872711414547987963253294363463321582952769243121165891523251054090592234945749314281882778241653043198581312883344619333170764328395568945993114892552081616500898565588139682524482508852401665814889782366444452184313473377558934497217543274692683144107172633185046249663275923456951286852832095973936189628858427124257857533120963486274282864821607236256733540129032707596746595375844161636072112342767876776230957845890498710851299015664653787788567770277880767251455949452517664763238047697329314968688588778672688197036647423809254215507111048364372772808218998927416725579817194479191225798670233167254079781946781599807985600590950235266398555983741365655883541082757938703102885404044374755198439170422797813257180642256107440875667447354992371607201402901533164856336089532691969272179628251267892542506830676182643642687485499647570722718517570440106143595169952323181641736446546346072978369611007566043413688401622017598695250174898981459478609039399627236832253663523788806814562155794866432362680342267906718075355155049447227891633311207161246400992432006300313628267693262749724441078634557625750429492415276948979973495943320660513219923668681431165609059564326940667326462126297730400750276589824269899663176883635555880934469615879298773469105890339763021524392319968711631266068408146362325525799047777753334818251443056911306473382056204014474976119120058449937001172352991983144954843278446021470688578021090432881216873247314285705284021663968733796942275254472704994494230149883012161195139326089546215839712988539561143353045126411169942666308779891538676845041238895271479989541438045354653965422940362326345804499702856879106453987519092799945334519189957657371450957715458808924688227432966223255271844617053689151445314357209830628604367282349400423085473838892390778091103571206706914865184417030686390420896450875270961285996535159676629762980770987710703182102926995454735845086169974551705760282728574467930817668078281547736203807819437588550219689370551793061401809202274981358292473606237415165565079093317902340289827359838944170730244343336643873246589615204529161979262545819059894343078382016194618112205987761702382976469482699251270200860870302574131963966248465195121975544342055730870426768468169837145552120737511957145755752944297990273662890915478450613512284899817530656383213651907691995532332729283711211565398338010509444139256500948642547174977487145212286054612835066188378292007512253711006230269846308906889570596922211273083017047036843370866471068639433925767271280546703960456216779881447340175541584131731221341035059037001282816953792635193834419333286113104353678850837020464910181189884414274536893655361741824265674342448165465063313687150397718828641062124123311017361094853476217746103521441912141040766607848733871245029610452682625299543431238835977005543971079046460444527143000743335655915065148032572254037308431061622404939358243530824563173695360221351305311525948563974067376627413208979969897521432168245061638980684646678948739179670147853987939761075307094403934440693807350940245231717790674270003573331816813911135957192636758349858945743977358589851702009566859512207033508868980567406237746413828319460362124383577187062490190945869003290956743075317584785377631250152316533985958122236177057119024325987830134145672971014793276135738348040556887009471600330038679173155838239814297503884753336180067216757869364905250720261258400309261352978947583705081664429177958690895512767116527775290612503278279295089291238780878714732079545590267616116296646220448375431966444808704763476037183077039945662176763089371973168505973644410516278557835819315606456553143059034136997728470703653141409729549944137422172599675686319154097537234589463242716819903000701123647534903435218822163130326253712321729261073536078730424078828663752811960595265466791364211022207579440116456423493138371561368083631163940736988640700095890925486556516828228217417452742969566094655512363158263000053693711134667625773108205768198342220851935522737266750710197997338964694064901099846987814154947481804974391313183262947946826247445396595676189875320273710012254175281678570665158768101924345897171417538586765459110638569881843084913342003285519853517177646626483524390108434794914868740125261586321488958889578371082749880280405018646045956194745190024605965221417623136734521988084764151982730051176940808917532334866502644420231147197918736398333073400173481214079637597860713607072586196082619900109372030548822289100641772927272910461450333134961238076341618739758050379668426303662622894368781251632376191134430305058359655147166497735172776894102553496320367180888326924689322778255199672065101127895475434618914509229688429223879964565897147002837269680716630342385818696782786580230808140234092015785385669907854001075206389180143409975674204414072489978579299428914160283789073472878547052762811634263769243586696237237967998681176928175096972953681090054518981195595928180439016741238228336854904601510480920345458310674296385711176911083186592758720764948691478828097441226196983026822343856599287222766620856467053615259984286019904936820371360067191495638195774436702867617583104781381607704436522350105545793691149394815105934772865959132505702846859701989511745071387756144324875593767987615504752360711339564626057895568642439187590707192887561973426079866188993817556100509089397249260859679813684385956139462996480170545011845082862927480643294479463624762873262310768230996803923971197203223815591358143984630236419518556660367813154445051371001495517943704307431020896232745503432462223620189396993331436728293065428671955933406909565883583381177254371729071067451552504073376777248281998999494799192799348293781617077063090396432450588260344234053488212235429643437158457711347442399545419042402352852693652041539019071963956054214715008242655785698032600951919189421296183387872986185568971182330859997048888111837830067207588274235414763103152670140666202430369662666371396796843407560617127463422233967674749681191470209945223702077513439360162020924069523951667797736261769826321271859966870978918066051807616562612046446259177154665554446871180021627139193266558576086718504405644268838550643426870139090220161432327682944592052676724669664738122886522726724497657906948974890621366637764802543203922009726029832525511397453574196780856709616234776610458556123713001606633017162804109378547155569684783997400159608391301236494568130321487661683389838253403739259759338581959336881593791751235015268019668043791692381061734120238017601260111257443403384597974962805785000465864904416234728943779840000 : Nat) : ℚ) / ((7079811261048172892385615158694057552947548510339431358729830223546367259189788523569366171782094194908789734525639653391838207739880314591126095835740247724146400971957397335974932582925939115335047391295622682040715435576219571541670229361794019535830274988881132052911319687824708913008385978377671411204358645849927824989776971881573618724308278232922964014717643602812475338224553134137666820605539324205745177763014140546267707976418358497974514287516444661811837037264124271570952304168887253850407036602265921533670599784086381485585135041116956216406924519324743925918620864148191854116267737918949944061684285077592460369240257770553576348963921690285490366741039179103901231220262373181126960178634629203019888236004065751464066402200494220918963695905981714074669647281359046848557531178324898469936047599147830640788861400899647898976560501012270661926248463863319840571646650450899244942015396252706970011878813679623906789143477938628265061055205226443124460255311445514581011863538633696803446556389366592434612370471731139973234192404123092344847330993527108749236120212674650437119700471648028142556069118947380408414577374627699263517659214972183507187848497521542284511650420721345973275253359979482311770869400972134460821400599151070299422683463218865968960769375089271990125608942272298611708350631932755620216551015362363303923925602842698330808500692253641457440417747191786881073296844297436225010128568142121796219564835210952952560722464338046736410981694424217560726644125727560680782475102870918840492675785362191779443118925582556959979421180630059620815869014112452745255758065161397208914532936600772916815448697181363179603882167591444987005939530340241391357351031240065079201304115630512907398759840487390204883260685292053507819776468150460554434869812913994605290945663057945256291468766936770880447389086868043471964977904612671954618026338920935767283721281570455272620525975881928045969346939653137035142100250541636352299414662281821048695703465150781683658693818821099679455907411975924422634512363637502580927278740239795409601142728413238210525169414361342477015171699998147698395327648397766260520190081639184626189207292435970867906371408198740569073809546533575073802801012014065548515788116036128873461848198924103097908076769583937494136038435276091577659709182641200014318299682887111293141710163236048721041917157520720560769698750143353711433114361214279426411767838198064957887934495861074624324578289358208745230180023265733717922750158039150534815666543569186303041406823808436741615219480226933972907849751903907812758670523746599464115265167097167414575099302319873962184920787176841293727855162434211949625330725877300836795578090729208678992626954221157458493787020418738362084845881383534042002828145833218292733577827993511401519281330469568666814168682220103773287576657861129140488110341844683567029640213299743432410213309270393417516193218742021156743467574411573744015253579181663444533004196801676018651152737359061236470237407003583893248135087484990740505872980896430544530788892403011363111919570192203901996465078313817343099408643117503326990278885267764019314143647798279483923996532736295343021536436230852592128764011325058101898563243612295414205818923905949806653890512014153049666598927334218580238711806732392439667466827390822606758903646463506527463561731104345119704946880178733563014434188375179278675060140657093731927759286933742805639023200310562032372591644570179606268944816349630855256691575050354003906250000000000000000000000000000000000000000000000000000000000000000000000000000000000000000000000000000000000000000000000000000000000000000000000000000000000000000000000000000000000000000000000000000000000000000000000000000000000000000000000000000000000000000000000000000000000000000000000000000000000000000000000000000000000000000000000000000000000000000000000000000000000000000000000000000000000000000000000000000000000000000000000000000000000000000000000000000000000000000000000000000000000000000000000000000000000000000000000000000000000000000000000000000000000000000000000000000000000000000000000000000000000000000000000000000000000000000000000000000000000000000000000000000000000000000000000000000000000000000000000000000000000000000000000000000000000000000000000000000000000000000000000000000000000000000000000000000000000000000000000000000000000000000000000000000000000000000000000000000000000000000000000000000000000000000000000000000000000000000000000000000000000000000000000000000000000000000000000000000000000000000000000000000000000000000000000000000000000000000000000000000000000000000000000000000000000000000000000000000000000000000000000000000000000000000000000000000000000000000000000000000000000000000000000000000000000000000000000000000000000000000000000000000000000000000000000000000000000000000000000000000000000000000000000000000000000000000000000000000000000000000000000000000000000000000000000000000000000000000000000000000000000000000000000000000000000000000000000000000000000000000000000000000000000000000000000000000000000000000000000000000000000000000000000000000000000000000000000000000000000000000000000000000000000000000000000000000000000000000000000000000000000000000000000000000000000000000000000000000000000000000000000000000000000000000000000000000000000000000000000000000000000000000000000000000000000000000000000000000000000000000000000000000000000000000000000000000000000000000000000000000000000000000000000000000000000000000000000000000000000000000000000000000000000000000000000000000000000000000000000000000000000000000000000000000000000000000000000000000000000000000000000000000000000000000000000000000000000000000000000000000000000000000000000000000000000000000000000000000000000000000000000000000000000000000000000000000000000000000000000000000000000000000000000000000000000000000000000000000000000000000000000000000000000000000000000000000000000000000000000000000000000000000000000000000000000000000000000000000000000000000000000000000000000000000000000000000000000000000000000000000000000000000000000000000000000000000000000000000000000000000000000000000000000000000000000000000000000000000000000000000000000000000000000000000000000000000000000000000000000000000000000000000000000000000000000000000000000000000000000000000000000000000000000000000000000000000000000000000000000000000000000000000000000000000000000000000000000000000000000000000000000000000000000000000000000000000000000000000000000000000000000000000000000000000000000000000000000000000000000000000000000000000000000000000000000000000000000000000000000000000000000000000000000000000000000000000000000000000000000000000000000000000000000000000000000000000000000000000000000000000000000000000000000000000000000000000000000000000000000000000000000000000000000000000000000000000000000000000000000000000000000000000000000000000000000000000000000000000000000000000000000000000000000000000000000000000000000000000000000000000000000000000000000000000000000000000000000000000000000000000000000000000000000000000000000000000000000000000000000000000000000000000000000000000000000000000000000000000000000000000000000000000000000000000000000000000000000000000000000000000000000000000000000000000000000000000000000000000000000000000000000000000000000000000000000000000000000000000000000000000000000000000000000000000000000000000000000000000000000000000000000000000000000000000000000000000000000000000000000000000000000000000000000000000000000000000000000000000000000000000000000000000000000000000000000000000000000000000000000000000000000000000000000000000000000000000000000000000000000000000000000000000000000000000000000000000000000000000000000000000000000000000000000000000000000000000000000000000000000000000000000000000000000000000000000000000000000000000000000000000000000000000000000000000000000000000000000000000000000000000000000000000000000000000000000000000000000000000000000000000000000000000000000000000000000000000000000000000000000000000000000000000000000000000000000000000000000000000000000000000000000000000000000000000000000000000000000000000000000000000000000000000000000000000000000000000000000000000000000000000000000000000000000000000000000000000000000000000000000000000000000000000000000000000000000000000000000000000000000000000000000000000000000000000000000000000000000000000000000000000000000000000000000000000000000000000000000000000000000000000000000000000000000000000000000000000000000000000000000000000000000000000000000000000000000000000000000000000000000000000000000000000000000000000000000000000000000000000000000000000000000000000000000000000000000000000000000000000000000000000000000000000000000000000000000000000000000000000000000000000000000000000000000000000000000000000000000000000000000000000000000000000000000000000000000000000000000000000000000000000000000000000000000000000000000000000000000000000000000000000000000000000000000000000000000000000000000000000000000000000000000000000000000000000000000000000000000000000000000000000000000000000000000000000000000000000000000000000000000000000000000000000000000000000000000000000000000000000000000000000000000000000000000000000000000000000000000000000000000000000000000000000000000000000000000000000000000000000000000000000000000000000000000000000000000000000000000000000000000000000000000000000000000000000000000000000000000000000000000000000000000000000000000000000000000000000000000000000000000000000000000000000000000000000000000000000000000000000000000000000000000000000000000000000000000000000000000000000000000000000000000000000000000000000000000000000000000000000000000000000000000000000000000000000000000000000000000000000000000000000000000000000000000000000000000000000000000000000000000000000000000000000000000000000000000000000000000000000000000000000000000000000000000000000000000000000000000000000000000000000000000000000000000000000000000000000000000000000000000000000000000000000000000000000000000000000000000000000000000000000000000000000000000000000000000000000000000000000000000000000000000000000000000000000000000000000000000000000000000000000000000000000000000000000000000000000000000000000000000000000000000000000000000000000000000000000000000000000000000000000000000000000000000000000000000000000000000000000000000000000000000000000000000000000000000000000000000000000000000000000000000000000000000000000000000000000000000000000000000000000000000000000000000000000000000000000000000000000000000000000000000000000000000000000000000000000000000000000000000000000000000000000000000000000000000000000000000000000000000000000000000000000000000000000000000000000000000000000000000000000000000000000000000000000000000000000000000000000000000000000000000000000000000000000000000000000000000000000000000000000000000000000000000000000000000000000000000000000000000000000000000000000000000000000000000000000000000000000000000000000000000000000000000000000000000000000000000000000000000000000000000000000000000000000000000000000000000000000000000000000000000000000000000000000000000000000000000000000000000000000000000000000000000000000000000000000000000000000000000000000000000000000000000000000000000000000000000000000000000000000000000000000000000000000000000000000000000000000000000000000000000000000000000000000000000000000000000000000000000000000000000000000000000000000000000000000000000000000000000000000000000000000000000000000000000000000000000000000000000000000000000000000000000000000000000000000000000000000000000000000000000000000000000000000000000000000000000000000000000000000000000000000000000000000000000000000000000000000000000000000000000000000000000000000000000000000000000000000000000000000000000000000000000000000000000000000000000000000000000000000000000000000000000000000000000000000000000000000000000000000000000000000000000000000000000000000000000000000000000000000000000000000000000000000000000000000000000000000000000000000000000000000000000000000000000000000000000000000000000000000000000000000000000000000000000000000000000000000000000000000000000000000000000000000000000000000000000000000000000000000000000000000000000000000000000000000000000000000000000000000000000000000000000000000000000000000000000000000000000000000000000000000000000000000000000000000000000000000000000000000000000000000000000000000000000000000000000000000000000000000000000000000000000000000000000000000000000000000000000000000000000000000000000000000000000000000000000000000000000000000000000000000000000000000000000000000000000000000000000000000000000000000000000000000000000000000000000000000000000000000000000000000000000000000000000000000000000000000000000000000000000000000000000000000000000000000000000000000000000000000000000000000000000000000000000000000000000000000000000000000000000000000000000000000000000000000000000000000000000000000000000000000000000000000000000000000000000000000000000000000000000000000000000000000000000000000000000000000000000000000000000000000000000000000000000000000000000000000000000000000000000000000000000000000000000000000000000000000000000000000000000000000000000000000000000000000000000000000000000000000000000000000000000000000000000000000000000000000000000000000000000000000000000000000000000000000000000000000000000000000000000000000000000000000000000000000000000000000000000000000000000000000000000000000000000000000000000000000000000000000000000000000000000000000000000000000000000000000000000000000000000000000000000000000000000000000000000000000000000000000000000000000000000000000000000000000000000000000000000000000000000000000000000000000000000000000 : Nat) : ℚ),
         ((651196767940413253530685720998349664546316088148018196224741400580537390699057405365802105919787354839967430877791860083739467169782813383516769758734058726572979838147792454203884512536964297899830165846794776181989780530722280000213824635058624813391660389917338911863737904665124877057178684479145393760320773460478395370352597678140159507188676230117221014551192794596956380808882988361801083690608943369937100707646480401698733649299198638366155286151966857880850537993879879285485708824373483604881085518352394995059862456381508127984195512757761805841249675147406904958730561961652356644935796614850879060756118044478026911424560670061589967032896608796558342641041130896533544253118205904015529720664212801488775716865310001104011494337363698138047852847889747972489819217830020113740978445522068178722443191397320688205081915636352235851442539484431305253232795920205163899423272266777697713283790704178970661859807158319295327687287834428784798431926109659454533206240303536943701784965036720791993591419944811657794044867620891705109317419480445098557928786865727858636438728184204478160135926269209655133024351927266356993546316461224250440863182778364984783153560997483429462422522216535661210371262844484359025740528565569017288381471593123732268638107154444375308939171594745204525448873255758607239028488085631755319910265499375381828871589983975929677260569754736023366847127008859995435907032031354629512773522208090392818519570670472592519708207335487983950495798005404992667784709123297476391927621356574284044178572903360865022693527259444162077847134610232684772651912849871485263593049942331773531530053537075470838077849732843208587199174496681162671139580851346614089993663499517705562514814062296779681248816232082988583774604891712911728396901738626357769518274818023991926764753874730026321528732537123062452542725604872696472050760297334981300269885241959175010083585631388304811326732808285444114190304636808260006366982174791123224449685966750758502719084611282466119548290950492768049838975554266261477691395630537400578501701149093370873002662141228295034843041350134150707141206945380469221512517561704950970490050033520400330287675539736269108906814413128361366891809499680647687195171738335159681094716901024857708087890924423863964491667651501454284210852616591960150730565288630865076585201912209722263670777293201136961541296436164747454129975520720936704754717812363300083244066205492163586492809552063132259290800046235951383187040885016634339788524304654910440455940587268088937108924549127079605602815519608210259806115808354106558725056226619237153150410210773217397779082682286494911436409226316625511431459309750305116232731329061804663608100467511542930853421283750309693069142243161209815529876940746202415010411669970459833047165833327034036706841925945819558516224032750368197113602209213751136420227171699167636240051853708677512495584887614569898375819699148712280484823244342573159023234545770364581770714663553220453624281777599827270492990846114835530196590663345248688233717018187739864529293695224024495809184319881486249835371547397801489145813425370752689297951645561692939755263205143507019215587089541306669856716198457559570781357412283502391706999671940625213218133670588244852435513658370857822688992523372839601302882467578657936320973032674321944591654811472143426994261881326501974687345503611085770833943759329855486798032436484285363886506787606517202206885052156034032861217769751235340515099501075405686523546843728251338846165676633086550549247190174858246840561409218895597937247150667761157552126040623662981871425034520222306891383168595323650655162090460514963836113786317625018541268634707970459938575193024185282978783496123713782198091988594330696762008996881430992213824085723647617448733448722429515307572742413667366403176596282356040619754910822905296257987802770193286270680330750523595327802538870660884325442225210795319839181267744443115014701055449031141813022647758780743765272304528739456718174810241169262526220704370070806532176864531212231897725747342374221653335483306993912257912908863390986004380190982336995016259183601838585935413421641765881433739970542942007771019020514139805755004207424196416696335519944568435121194333630499323663456807867364115230077863768391137486729993771317032669651785842766936023878897983537605591676032664819887298546604473185709802980909911304061762302224973400717363202514448728846119872820584234888194619173962471324216528891542321581525479860689623535698743969323678103859063837296076089299887775758709060410540457768297325338914070704290804092780222951777629705125542777375773846852832322688704551128460724309164519088154610925753992941823500353491279123856171430988888670038637099262005203219489468959804402533387384210214164581007031633384184717805036647768583061850424568745465326401777434906227765386877962527834841116367864854326347427340258010476088570528647352416302676671003630874260879693919080872041080916429542687065207288324902902747276241052857847207998961140386186451663319595044023381669652882512013130564442133759667362308674908773830834955182436424561985930488594875130714017138951842475687124934265973449190882330693652606729258737730929514396738985271681941744222380571344629000249581607851154261700528348507587454662341648330270494657116168470043406143273668995917694844725293666745083765615629758698716366374829633993145604203197456286081457519271535971215196591064494152082501911753868829800583836961392056422648917060802899666677918508009662593381982915689152439183557111349849363730209919940132476274019302454755026465104783600370857302404843896541057865346902994503147858838937767407957520034154538187357294100706524336444323268505725620822065095532878034596159597098369241108296262447440922751398833411232555163694575189021529835220584892426031639143178310881805011394854803035472005291393757998448851122240206559789326260905075954293680627089781007397404172867826435557080915845328382572839396054449966156599119324567593037292493849489944561715424296470447302788892936356660725511996665674238415550306677796118702771737049789967690719339505969006686060950558508969807713288891726584474238410157683596401339240440597458935393579789334859700419832361598439070201133030707984009426000039932760092635159893616071135705689790778262850274674048984500070403733917418877007509880782724354251404083579275279341813372308487908049459606925164850700111377366140812611129330152151505430310486726773082902474110352133619807385158016947803961218220430001844708153009507227814205819754462978639673780963429339953838100620471817284951113518190197038200646701931506934848407575668368276837488507933300296809266003199743733258884386134490791766622307682132573249178059341058657834609879586555683822982929194666053921962411554542266537159596066696404008762467742231401436620156088636503187688513529670803565756587686354449456763392292983052299677520991230293948215951712960862534520003364769864240537429374953522254448249878952501923822129122583054890301384120972356378207429091955613144398178631079189409540860655925894279605205275081553922156155835682510765457788777913589707626477322925125544914073941600697660022136448383307729927110820605633338488427736022270179311122808026390126393328165939845746458428200833974398416744603547542511189106351905656886076586718895884462609400702064761839321242103465777834110495142041251802893385166459995558649766836672931330429130274930837171871997803519312971646697729277995056217841767044989071721800302776328243081042013764665659975891393719951215459153219367519182967368406437988943030400347964025025725682030601761126689529374542308223694162137341604097780143213308374347985169000141317280620472352307695666845281788250409829033013859973250964342424225657038845502316165187261049404230416452144419267439137895461178418367090870039644194959896731591744393918519871058855543636354184168753371612950951111615726932930782049433015494119858658149544111388767931864123929686530749202137669275564204413302753966326539039461630227851338902749623572463831042182353006856699781132272882355441245423055670293171959917107059067445081018390736624578517375167453659911299987095185777112193633476512510262957949267774175049963093908796056083881272385669091775135627496572494045661170730914465478885769676760870953699168074996082531274125429256965517227120350474268266656529078941391785859218159620511210042694374007581997360055189671697565782692838184973627037832476284876410827616831159868426659207312753366587632961352045751172087364377841341889654516429459969196700723456523572387072377418356669884707139632261346599376379368565798258409799344288128188038388343741782732175393901584333848585913510161370299580800882009754518577341934586221360625259331224030171633719882607116619772369962954665771328248612539956028276056274483935009560731503226142113247227984572705919814415381804537595135676450117745558885701565526407415340358460330583542104159999325770043506789494644157701863440413989468740729629055537324222736735098395496851322030529185462897026987847592279121386855140667338643479870004450515147989112452135255752967161108173483284175795536823703152424483349329505828075457867131661647499695793920385004195311710746358739959327771919305592969101713015451243192780257532911518850808673175906137931034478104603705661241295459663113764180090360556653103896492606062979430141047212331699936992831799577949240402899240862831035368655408708960486936269915339143080492056838397467061095348271463917899394001266217103588966985290567124324992693073742724312910122218418087502945113331489947889458459070277664518843919125057086623291640910040261174938252855686837091295056333906878784376332654473999123836972893087941153950870981819893346833196785967766654159650863170109561237933973075779326471567282609486489367504085039320468096648537521390134259165394562378755818479538215541281923475277572634932642216331437780631795235828384761845166126792202244168553387927684550390413405160063331909025995041894713267398522383819949542500510868837587871069270290049751790801772721826251569701793240490556002206494918888269050178213281898040952597112968929168859871419600764021059864260633664210613365784409304098307882975408794329734388223443025056859781941086519079212256442594867418676698950703496528726753199392596677278409788642952044388876931038076116992726015075115016742028861141998658886246835534366978509569890089537148257783042825202193839510727312589358685399556015435452848576361001898797980669988838044951113462046847928171666390336397737050629454030404058365760107714809142834281433074505206114454917902312653158753645063233674456146338267005649764547795182767241052355709652736683980701928141182633174374958147575804077493214361781705934324034934640626980122765115364095166360834544610096165461461018551693344705548165603662892205487540854814589292481386761661778062137086134457105352389366189498240127903895430728249544242347711337238998146655225146690811532058647421024361370042859713605002870424498347333799340223421424467219799031839912950079628900303603887117176855639504773527576936571102819711804372841518818246130406333043150542949383358989669379720111808568502102529485967606251554002411791105623556667118340806851215789595702831553534885151316511178850818061581185732371779256159709067229769780217733332371590361249007301447810549105682219001439961200319578910507300234997369412503655066061081707437023556385950240007544366903543425172968018194873978997509955148911389284450953479236251366298258069379009326875453914875065885534157692628931751739032368212079651089991619642579082592181206040507390215104609174389273131896504279423256488028738258052999658077804941722594220954442545459691775942934122870906631716889764455595957335194415923689597629873939727387506279409380054026407120778422949543169519860607242825890809199893735255898870296816458468728604308472704365364209396579831411288578574440287124088909966553837074398404723201492019841601996012893591631296181494971793801965147572791148335929638106266429156102172456032258064446093094947119927952938480008045393504179234718699415428084773446306160302022975045903820574840796857166708719014465448120749781797384291400126995725195042742432032835137460113863287600279023246596057251206000791517606783553498502037641311012605936062036252549520807662256580077245500465932737334700437496376821188661384548837257278695605237584629058171740292901153660871189104979446651026123072846490114721191725572623281933196686894586480322966110862577942610638506372211660933337703185869286913180700173184378354035945738914187694207198095703413175469809433957039483179514709318271910087801329739881942050388800477756818745289365352789929196477133261497247793801249313312459216849536760011561572671932197367312526878298183801575749921792950968192175156599605268364541052975692969790087296177762835793147891748807296876022689250438713649071727031173190905193124042494031886515895211376420109010930640397508806087656845753589363193147056516074457958067645891725735405972144297477119217615070532467274321459020848748492677402265992507533535762774270614908040167305589999806256640231614527999598875903849938604574161833993589311249805689190648668383932137839729874756588783503709565080385996685366132268075453279454517985789017740243314101061267629830963590535905721213777219879864473595526458840504937842284539857801140234878477836450110504721075275460778644988449667406993404009681403730501228063059382729554814614039772076361712465830105809609691452302074779605705687040000 : Nat) : ℚ) / ((7079811261048172892385615158694057552947548510339431358729830223546367259189788523569366171782094194908789734525639653391838207739880314591126095835740247724146400971957397335974932582925939115335047391295622682040715435576219571541670229361794019535830274988881132052911319687824708913008385978377671411204358645849927824989776971881573618724308278232922964014717643602812475338224553134137666820605539324205745177763014140546267707976418358497974514287516444661811837037264124271570952304168887253850407036602265921533670599784086381485585135041116956216406924519324743925918620864148191854116267737918949944061684285077592460369240257770553576348963921690285490366741039179103901231220262373181126960178634629203019888236004065751464066402200494220918963695905981714074669647281359046848557531178324898469936047599147830640788861400899647898976560501012270661926248463863319840571646650450899244942015396252706970011878813679623906789143477938628265061055205226443124460255311445514581011863538633696803446556389366592434612370471731139973234192404123092344847330993527108749236120212674650437119700471648028142556069118947380408414577374627699263517659214972183507187848497521542284511650420721345973275253359979482311770869400972134460821400599151070299422683463218865968960769375089271990125608942272298611708350631932755620216551015362363303923925602842698330808500692253641457440417747191786881073296844297436225010128568142121796219564835210952952560722464338046736410981694424217560726644125727560680782475102870918840492675785362191779443118925582556959979421180630059620815869014112452745255758065161397208914532936600772916815448697181363179603882167591444987005939530340241391357351031240065079201304115630512907398759840487390204883260685292053507819776468150460554434869812913994605290945663057945256291468766936770880447389086868043471964977904612671954618026338920935767283721281570455272620525975881928045969346939653137035142100250541636352299414662281821048695703465150781683658693818821099679455907411975924422634512363637502580927278740239795409601142728413238210525169414361342477015171699998147698395327648397766260520190081639184626189207292435970867906371408198740569073809546533575073802801012014065548515788116036128873461848198924103097908076769583937494136038435276091577659709182641200014318299682887111293141710163236048721041917157520720560769698750143353711433114361214279426411767838198064957887934495861074624324578289358208745230180023265733717922750158039150534815666543569186303041406823808436741615219480226933972907849751903907812758670523746599464115265167097167414575099302319873962184920787176841293727855162434211949625330725877300836795578090729208678992626954221157458493787020418738362084845881383534042002828145833218292733577827993511401519281330469568666814168682220103773287576657861129140488110341844683567029640213299743432410213309270393417516193218742021156743467574411573744015253579181663444533004196801676018651152737359061236470237407003583893248135087484990740505872980896430544530788892403011363111919570192203901996465078313817343099408643117503326990278885267764019314143647798279483923996532736295343021536436230852592128764011325058101898563243612295414205818923905949806653890512014153049666598927334218580238711806732392439667466827390822606758903646463506527463561731104345119704946880178733563014434188375179278675060140657093731927759286933742805639023200310562032372591644570179606268944816349630855256691575050354003906250000000000000000000000000000000000000000000000000000000000000000000000000000000000000000000000000000000000000000000000000000000000000000000000000000000000000000000000000000000000000000000000000000000000000000000000000000000000000000000000000000000000000000000000000000000000000000000000000000000000000000000000000000000000000000000000000000000000000000000000000000000000000000000000000000000000000000000000000000000000000000000000000000000000000000000000000000000000000000000000000000000000000000000000000000000000000000000000000000000000000000000000000000000000000000000000000000000000000000000000000000000000000000000000000000000000000000000000000000000000000000000000000000000000000000000000000000000000000000000000000000000000000000000000000000000000000000000000000000000000000000000000000000000000000000000000000000000000000000000000000000000000000000000000000000000000000000000000000000000000000000000000000000000000000000000000000000000000000000000000000000000000000000000000000000000000000000000000000000000000000000000000000000000000000000000000000000000000000000000000000000000000000000000000000000000000000000000000000000000000000000000000000000000000000000000000000000000000000000000000000000000000000000000000000000000000000000000000000000000000000000000000000000000000000000000000000000000000000000000000000000000000000000000000000000000000000000000000000000000000000000000000000000000000000000000000000000000000000000000000000000000000000000000000000000000000000000000000000000000000000000000000000000000000000000000000000000000000000000000000000000000000000000000000000000000000000000000000000000000000000000000000000000000000000000000000000000000000000000000000000000000000000000000000000000000000000000000000000000000000000000000000000000000000000000000000000000000000000000000000000000000000000000000000000000000000000000000000000000000000000000000000000000000000000000000000000000000000000000000000000000000000000000000000000000000000000000000000000000000000000000000000000000000000000000000000000000000000000000000000000000000000000000000000000000000000000000000000000000000000000000000000000000000000000000000000000000000000000000000000000000000000000000000000000000000000000000000000000000000000000000000000000000000000000000000000000000000000000000000000000000000000000000000000000000000000000000000000000000000000000000000000000000000000000000000000000000000000000000000000000000000000000000000000000000000000000000000000000000000000000000000000000000000000000000000000000000000000000000000000000000000000000000000000000000000000000000000000000000000000000000000000000000000000000000000000000000000000000000000000000000000000000000000000000000000000000000000000000000000000000000000000000000000000000000000000000000000000000000000000000000000000000000000000000000000000000000000000000000000000000000000000000000000000000000000000000000000000000000000000000000000000000000000000000000000000000000000000000000000000000000000000000000000000000000000000000000000000000000000000000000000000000000000000000000000000000000000000000000000000000000000000000000000000000000000000000000000000000000000000000000000000000000000000000000000000000000000000000000000000000000000000000000000000000000000000000000000000000000000000000000000000000000000000000000000000000000000000000000000000000000000000000000000000000000000000000000000000000000000000000000000000000000000000000000000000000000000000000000000000000000000000000000000000000000000000000000000000000000000000000000000000000000000000000000000000000000000000000000000000000000000000000000000000000000000000000000000000000000000000000000000000000000000000000000000000000000000000000000000000000000000000000000000000000000000000000000000000000000000000000000000000000000000000000000000000000000000000000000000000000000000000000000000000000000000000000000000000000000000000000000000000000000000000000000000000000000000000000000000000000000000000000000000000000000000000000000000000000000000000000000000000000000000000000000000000000000000000000000000000000000000000000000000000000000000000000000000000000000000000000000000000000000000000000000000000000000000000000000000000000000000000000000000000000000000000000000000000000000000000000000000000000000000000000000000000000000000000000000000000000000000000000000000000000000000000000000000000000000000000000000000000000000000000000000000000000000000000000000000000000000000000000000000000000000000000000000000000000000000000000000000000000000000000000000000000000000000000000000000000000000000000000000000000000000000000000000000000000000000000000000000000000000000000000000000000000000000000000000000000000000000000000000000000000000000000000000000000000000000000000000000000000000000000000000000000000000000000000000000000000000000000000000000000000000000000000000000000000000000000000000000000000000000000000000000000000000000000000000000000000000000000000000000000000000000000000000000000000000000000000000000000000000000000000000000000000000000000000000000000000000000000000000000000000000000000000000000000000000000000000000000000000000000000000000000000000000000000000000000000000000000000000000000000000000000000000000000000000000000000000000000000000000000000000000000000000000000000000000000000000000000000000000000000000000000000000000000000000000000000000000000000000000000000000000000000000000000000000000000000000000000000000000000000000000000000000000000000000000000000000000000000000000000000000000000000000000000000000000000000000000000000000000000000000000000000000000000000000000000000000000000000000000000000000000000000000000000000000000000000000000000000000000000000000000000000000000000000000000000000000000000000000000000000000000000000000000000000000000000000000000000000000000000000000000000000000000000000000000000000000000000000000000000000000000000000000000000000000000000000000000000000000000000000000000000000000000000000000000000000000000000000000000000000000000000000000000000000000000000000000000000000000000000000000000000000000000000000000000000000000000000000000000000000000000000000000000000000000000000000000000000000000000000000000000000000000000000000000000000000000000000000000000000000000000000000000000000000000000000000000000000000000000000000000000000000000000000000000000000000000000000000000000000000000000000000000000000000000000000000000000000000000000000000000000000000000000000000000000000000000000000000000000000000000000000000000000000000000000000000000000000000000000000000000000000000000000000000000000000000000000000000000000000000000000000000000000000000000000000000000000000000000000000000000000000000000000000000000000000000000000000000000000000000000000000000000000000000000000000000000000000000000000000000000000000000000000000000000000000000000000000000000000000000000000000000000000000000000000000000000000000000000000000000000000000000000000000000000000000000000000000000000000000000000000000000000000000000000000000000000000000000000000000000000000000000000000000000000000000000000000000000000000000000000000000000000000000000000000000000000000000000000000000000000000000000000000000000000000000000000000000000000000000000000000000000000000000000000000000000000000000000000000000000000000000000000000000000000000000000000000000000000000000000000000000000000000000000000000000000000000000000000000000000000000000000000000000000000000000000000000000000000000000000000000000000000000000000000000000000000000000000000000000000000000000000000000000000000000000000000000000000000000000000000000000000000000000000000000000000000000000000000000000000000000000000000000000000000000000000000000000000000000000000000000000000000000000000000000000000000000000000000000000000000000000000000000000000000000000000000000000000000000000000000000000000000000000000000000000000000000000000000000000000000000000000000000000000000000000000000000000000000000000000000000000000000000000000000000000000000000000000000000000000000000000000000000000000000000000000000000000000000000000000000000000000000000000000000000000000000000000000000000000000000000000000000000000000000000000000000000000000000000000000000000000000000000000000000000000000000000000000000000000000000000000000000000000000000000000000000000000000000000000000000000000000000000000000000000000000000000000000000000000000000000000000000000000000000000000000000000000000000000000000000000000000000000000000000000000000000000000000000000000000000000000000000000000000000000000000000000000000000000000000000000000000000000000000000000000000000000000000000000000000000000000000000000000000000000000000000000000000000000000000000000000000000000000000000000000000000000000000000000000000000000000000000000000000000000000000000000000000000000000000000000000000000000000000000000000000000000000000000000000000000000000000000000000000000000000000000000000000000000000000000000000000000000000000000000000000000000000000000000000000000000000000000000000000000000000000000000000000000000000000000000000000000000000000000000000000000000000000000000000000000000000000000000000000000000000000000000000000000000000000000000000000000000000000000000000000000000000000000000000000000000000000000000000000000000000000000000000000000000000000000000000000000000000000000000000000000000000000000000000000000000000000000000000000000000000000000000000000000000000000000000000000000000000000000000000000000000000000000000000000000000000000000000000000000000000000000000000000000000000000000000000000000000000000000000000000000000000000000000000000000000000000000000000000000000000000000000000000000000000000000000000000000000000000000000000000000000000000000000000000000000000000000000000000000000000000000000000000000000000000000000000000000000000000000000000000000000000000000000000000000000000000000000000000000000000000000000000000000000000000000000000000000000000000000000000000000000000000000000000000000000000000000000000000000000000000000000000000000000000000000000000000000000000000000000000000000000000000000000000000000000000000000000000000000000000000000000000000000000000000000000000000000000 : Nat) : ℚ),
         ((520957414352330602824548576798679731637052870511812515436444655794845628112236489470243201895034214722777135057458431113192767634945339901403698360117360040657094527152576506568921365967038070840937325719518599605369783470070990325481236855984961819646265828681396544624131275523426010475794425372649370801720137859235058870814946781710157663217674092220706540586209738080590889805540468999732819041525934490304906977681446629905101920691017718739888276999623390753595468025983585431114065004507973609917284719776853931344318484710049657484587379822481898575613300665501359049475593067088430101328368076038164713812447730499625294829768404594146078044687660460026957081909001828581808661037536286646019465163174006414220700084015820561497569839190002770201247378062884066933862913615772856231815228002802534350041642783220293890596971561018199425628391177836488752199292558233060576846821574461307337551281562036020559694220364329692567643811507104789256984532729248422576519914693603757665655504524239273336567960807154963271276631961694297838797428160338312018564376387197028072032374183287471047143381020373713962414429864469503552811184074711333214765536847266058976649666411262876975850492675605148919900586501562455510600489335076784067198794605057331430719096463273449118495101822705556912158144849919183511056554867022358657208950733835118028347928928984440742719201094176113882592106918077100155357489614229376008163806742959596994579467314375849842722155029071241196054798496016794557138445724741475968823930369514789792782222573549011547823154414268062950205211806037002716803589227510308990632013638554058985432966210712992610207939747360687289893307085051059021178403047529106292398658411001799413670462940696486359909046171409010953305685488874869487479675410554379459520156894771306695398088490307164669377257932018815577450571669812013738300229785708774723896803738614172893606189373496080926188806245123553651086465776428767539321681293064139207511599696372136855314556779985858758740836570052742293501733457560599502437870165699653229244413958687530621270180860279482123025613299890190522986290852265599175827002708236288389022011807907559012469992100864380712249512563496937949200953259221669364996457694016359694792234870540349271047002378151228829483910975340719594969057672298497644181379906394238711523051728736257496312554103174620131412236651089184165811169759453114660501004033591187949946455636435352532817227370156709263186869438512267276716628223602996991615873416253536867053720866813624174660351909132343554542384178656343473748696745259027017341800998138306023469628139594330039429912038389118720224806848022555308744349998093221589232411225083216243431324560548055035546614417077143635805137183024072528977384572779313927956790343408898442883100488762247721054165297158755300277385441429992123655094930289888244750820512509991990630722485224525855379951870938581032726086713895990329109337017438158184240442106010397067298400631603189247328730465417774124540249360343739898098272143660021165204167499672491829927114973942757346189797825959665774588818159395447565347521426095329245830280463749194008183453432373290697953566800193941382375314157008236862567705004432593783441050492144059169500750341326722033647612810640601365389221591486304373089240147966672447611046744280956793484167254125071599056097217175293641521839043597008232628308690664821502064132539789623120529661823602271248786923670783691361742214549730098910046337635612354043186138876028074901903406316717828567811003119285397586417531575383607012212359648827552323504151095412024024930872272249746772615727300541562034858713473080397627531789507029044003947477327206509385627434119285370991328971358377707352862000863439015996735172468591532422124595283817037127782395822230175664703628063823656094006248552367344819077010620670647121074944326585666336931295618895247011229030575848857625886950531157174037062299860495369620440304319876307998439898236094180099643567573558105961864503064498819081311999550898919844350952269894919837001782917563126157300010390068701382745925418902267512365095378356350327266831907350156146692084163670266036983772097612544255504591661096297372711663162365243160698532544661120122654527544083954776597631245978807803860670110615266741841267025594323658039663928417531647345472974052904127492702985466752440643476032831071318205440867064808866206094533883785383297913381486367581236460697913047922231630809980098385070289969149435493556805102045242896131382144524775944651566730240978744889860792274052218729589508755926188605517547522961156024046115244705111946279968845038390463482908328135683305352975260121501635620081915791861294085026826946717225796089839920107376715960237834120188613853736993954076657582507557912328849363580474372484783343038115767556061422398179714313523638788303708131778647772702330666559257167870596555642025732592692972521342851087474727698673368968049357571608128394177606486629155977441249140331174865907064864570105697990057577984665772163415518760192557866832867500263962589744226716817470331659190572485745311745602037285316697119978054635052534385833761831269772142934731784391590305443924874483012744110743885034511546118349414291308058877077863518636704941532038804126348695138659093481799208989530027334879113556955396941687117041481048998506728225847429632927539469462115770549927304031682294085344453299210175600016618562578936506232050088581150206274123119279837336067313961349470708871344833391271142330822440382545989072344770919613920742870489888988566638799694648668185404186552615442912992550750987671387213745223602252686685172933067194071017059980320412258456089859740902770299665622942156578145462732810121810043950071323859299512968931541475906562089033456492575798033671320782589992693143576518193626911241611157350208208840320401879807887286944039342744459498059533857778527856894033338592671893285306245508949796675145613485493950863171710668589510386021711934201476053664857318505492208090207027298302468892787160505025061851457590943351042315637085615229848005414535454225528538053326712828522766491520740799716837271215081014324555543439957170469164681996333257532443364006311780578309755985002678591911425156755321443659382449256791155676009368440788093126911002287802656872202367295001684806623504099415818319068291678493339275679097530907470168508478645222326055496673214355138238378827194386789287015458273437421516110789851768182026537719474381785587327018502744699718530254433246307626571787358690863233737268716484986066182859260029593994398347724262765654428569875142715534026920299664891931116567672860089197922099035381037650609172339047458949196047700594355236167871540108362378842802163871538295420709127513718640094299945502379202753250752671197545987335663486032792144924701007537052408182198930902036554243323983322367945360084858822659246884614850274153502638144257384295962097898460097853249053489739481059125152129833388648998274230495555983702570802389545991956833105780569108110096922380509975483537991847881004596757444133912675264473747018733908346413627988960045315578750468393314962062105638977982010501141434689452537808128138250157526896899005646917728911256707517513076870591960471630916628438990415825200562036616264317261793519923829661436864425294407376980086582958149145944541376584807117931076863398917587477420447725197849676362389653160732727457090981890348198912857953217451234782581142399132901241988024261085005827060074667792917619497689263201914285624868015217440805399548326800813832234442215394039023250571706873729633684537661328814356871386674726474915714684333943243607889705186191019642173676607708500638540368850616291179707245957489996723617829341485787584209584424834104151846723390734312510446757645496314402320737052278223654458337383618345956007835538447768160645382507256592743347363621932782158577206620490676138175589813040061243985120723496966178556363546575710485471008398471906438317027565903392947206241604620355408993769193279064958907857875407150989588255983454862953698920122625005227618531856143754016743822422884756817008123360593276367512828846222552313799496405110822958999382688369781459354737338264793535902064126143571770803320988365168977866461268157727234686343354858929998912380482323347635470096922009170567520558682098176051781151433832996681561579765287966201770757300736795284909761773761516977544009523464905950494568151899920164278801206407128557339422055274628880516858264368761761831687714677861715465816514081169736756024128370625021597756712520879886511667512503479636990905621027563344888758154199755980661656736247031990491532775495158863620505393096484435914963127243699161493388773498088305888392219332314045644206614246025508098755394644140737264891716215351963828182584253286295311637590471294046335489513730200722255687306394226095057858928174852236711101038570984734970438503108341162768137347179109499583869329552169850843549157344310765193475045296177809095114499242497239003146236944766527146571765079430665634101559932032852459607282823742415841408047530537044461984760701761230594383537295255526214346909864232414050863510916777944507333976353784534547406552213003957007594474971579855971440189718017657304019427629679405375287786356271940070352949333615245947516601483380471674449412622124990529925232568881098303075767710055255711133085834086405000910895158997739022979963664532128826815396324111089849171525945059105349886466687048403424267359253307792914814117390752479521389088601297989196912824937735382143435334137351966249975532891589863356516677432205184634917524248213573930696253933003645631702306471271320042903590986797136810582116704666194236774900213656728971858667871877574294074869105388056991116645348588197814843699753590139454427062527003521609685681075410556832691426909915715227357140317807617952546498770915427234862226589299231348343128528388373371755045171242552901217010382398243297312282499864922443695681955595847796813538397153298945585732150677806469524674851735849391074455975648665001204221555982994627992252968441130551030874103253041889876730283164364633572299394053523119870482105736139993206216825789547925805322509341141353791410558029166921835348684021810619339237910209541939264351472951758506771848613320040249665961762376285337175745962730344816968407433587024378165488093210467399114171981696174470294945621961606494076505959907403092464663134497413438547787921496126486573788749844120462043035857314594671386707607696716991042915107891919459279570127538348340371712644269657183688616261611073655819397427847464545149870613199607899627945378102313275658989944647182972335686038292327003364745355545533597000089533488284649607551138705971330961658980775091527992111626872594796628297036892372536906121472485692835584873627685782541789559630663017894383171869272544958422892715881351830423523045251683960420317390321148360113813245541776886195812895677538022542333532876235476859558256329456653042437489193237775767551316732497780580263237720342314930656345399238623876029794002714046791251525318073580236313309181852200670759994834597720087523322185841036360008816243415592700285565138009624808573455297855749769177525912396832380692676853038354455098925049487671988422540017090196928374692193958359626610152691020425667182508934102735300861316676188345768915379226987593255246143755132985985477484267418734029957453742321848434616318614697405702478709789320491797214845319327967509924243492362968775295391451905190279402135127111784334585251391059020076851435826012513491656253822284880424112827442858520811343058466869716190611658593533834291117531808391510259992261279484156847717315929241356184310736347999947694042210438710584375089908955406701586547192627705871935883660675956571189456784391416793317627498463350387754195395328084875277754888610301716651514285660540980239339211182899667471764473208211975699632508932290292359564859001280822274490020780578220608549030725023780281282741257920759552482761359517888330055420645485027818603320918391008395946525690561547991802807858159798773297213474997763522437837569138096093887483513728334023991071557567600469461414369991751653119211426469880444241168840607983754804658640660364753589540003812810863130715545275974986233719218159469622830448661825874583838928089386563904382401672933840099339607381454898692287353782223176054799428339608868455153915783090220873408614826833771440645614537588556476225315088542722581035826892190777486877647047478325913135279963811309955615867751988511726157980644760475699084511526822670378764585092250305390784969278839924190427872240687989424698836539827611963859523624930806993014599174938339768811052373445772433803519709238911687857599069963149054147902416231040474841636347551268093371213865149378598543510002275087284203917517361370543160199205798082050743348394488251073009858511520976781423184473527416677531432780011324277616430108857734717677252951434162463077403603789719005359781410775675383053757408034335533095516240748450730733531634031483043923660581781338849320346560967145380237798508484771301512236550654180381344949283104171900374245745941095572840334321837780123312889408320643301375208968113257994495966910039882799413921930780437821151713829983016851515424540544780463449009078278092224221652229798535777176225144690625434035007040965792600439999085881224606239598215491287563259080283107530969889816520600475234592082654422156348398941332744815674110366726218459670472483015882563809690043228349828090884993538769493131863751232890059907556200016773120000 : Nat) : ℚ) / ((7079811261048172892385615158694057552947548510339431358729830223546367259189788523569366171782094194908789734525639653391838207739880314591126095835740247724146400971957397335974932582925939115335047391295622682040715435576219571541670229361794019535830274988881132052911319687824708913008385978377671411204358645849927824989776971881573618724308278232922964014717643602812475338224553134137666820605539324205745177763014140546267707976418358497974514287516444661811837037264124271570952304168887253850407036602265921533670599784086381485585135041116956216406924519324743925918620864148191854116267737918949944061684285077592460369240257770553576348963921690285490366741039179103901231220262373181126960178634629203019888236004065751464066402200494220918963695905981714074669647281359046848557531178324898469936047599147830640788861400899647898976560501012270661926248463863319840571646650450899244942015396252706970011878813679623906789143477938628265061055205226443124460255311445514581011863538633696803446556389366592434612370471731139973234192404123092344847330993527108749236120212674650437119700471648028142556069118947380408414577374627699263517659214972183507187848497521542284511650420721345973275253359979482311770869400972134460821400599151070299422683463218865968960769375089271990125608942272298611708350631932755620216551015362363303923925602842698330808500692253641457440417747191786881073296844297436225010128568142121796219564835210952952560722464338046736410981694424217560726644125727560680782475102870918840492675785362191779443118925582556959979421180630059620815869014112452745255758065161397208914532936600772916815448697181363179603882167591444987005939530340241391357351031240065079201304115630512907398759840487390204883260685292053507819776468150460554434869812913994605290945663057945256291468766936770880447389086868043471964977904612671954618026338920935767283721281570455272620525975881928045969346939653137035142100250541636352299414662281821048695703465150781683658693818821099679455907411975924422634512363637502580927278740239795409601142728413238210525169414361342477015171699998147698395327648397766260520190081639184626189207292435970867906371408198740569073809546533575073802801012014065548515788116036128873461848198924103097908076769583937494136038435276091577659709182641200014318299682887111293141710163236048721041917157520720560769698750143353711433114361214279426411767838198064957887934495861074624324578289358208745230180023265733717922750158039150534815666543569186303041406823808436741615219480226933972907849751903907812758670523746599464115265167097167414575099302319873962184920787176841293727855162434211949625330725877300836795578090729208678992626954221157458493787020418738362084845881383534042002828145833218292733577827993511401519281330469568666814168682220103773287576657861129140488110341844683567029640213299743432410213309270393417516193218742021156743467574411573744015253579181663444533004196801676018651152737359061236470237407003583893248135087484990740505872980896430544530788892403011363111919570192203901996465078313817343099408643117503326990278885267764019314143647798279483923996532736295343021536436230852592128764011325058101898563243612295414205818923905949806653890512014153049666598927334218580238711806732392439667466827390822606758903646463506527463561731104345119704946880178733563014434188375179278675060140657093731927759286933742805639023200310562032372591644570179606268944816349630855256691575050354003906250000000000000000000000000000000000000000000000000000000000000000000000000000000000000000000000000000000000000000000000000000000000000000000000000000000000000000000000000000000000000000000000000000000000000000000000000000000000000000000000000000000000000000000000000000000000000000000000000000000000000000000000000000000000000000000000000000000000000000000000000000000000000000000000000000000000000000000000000000000000000000000000000000000000000000000000000000000000000000000000000000000000000000000000000000000000000000000000000000000000000000000000000000000000000000000000000000000000000000000000000000000000000000000000000000000000000000000000000000000000000000000000000000000000000000000000000000000000000000000000000000000000000000000000000000000000000000000000000000000000000000000000000000000000000000000000000000000000000000000000000000000000000000000000000000000000000000000000000000000000000000000000000000000000000000000000000000000000000000000000000000000000000000000000000000000000000000000000000000000000000000000000000000000000000000000000000000000000000000000000000000000000000000000000000000000000000000000000000000000000000000000000000000000000000000000000000000000000000000000000000000000000000000000000000000000000000000000000000000000000000000000000000000000000000000000000000000000000000000000000000000000000000000000000000000000000000000000000000000000000000000000000000000000000000000000000000000000000000000000000000000000000000000000000000000000000000000000000000000000000000000000000000000000000000000000000000000000000000000000000000000000000000000000000000000000000000000000000000000000000000000000000000000000000000000000000000000000000000000000000000000000000000000000000000000000000000000000000000000000000000000000000000000000000000000000000000000000000000000000000000000000000000000000000000000000000000000000000000000000000000000000000000000000000000000000000000000000000000000000000000000000000000000000000000000000000000000000000000000000000000000000000000000000000000000000000000000000000000000000000000000000000000000000000000000000000000000000000000000000000000000000000000000000000000000000000000000000000000000000000000000000000000000000000000000000000000000000000000000000000000000000000000000000000000000000000000000000000000000000000000000000000000000000000000000000000000000000000000000000000000000000000000000000000000000000000000000000000000000000000000000000000000000000000000000000000000000000000000000000000000000000000000000000000000000000000000000000000000000000000000000000000000000000000000000000000000000000000000000000000000000000000000000000000000000000000000000000000000000000000000000000000000000000000000000000000000000000000000000000000000000000000000000000000000000000000000000000000000000000000000000000000000000000000000000000000000000000000000000000000000000000000000000000000000000000000000000000000000000000000000000000000000000000000000000000000000000000000000000000000000000000000000000000000000000000000000000000000000000000000000000000000000000000000000000000000000000000000000000000000000000000000000000000000000000000000000000000000000000000000000000000000000000000000000000000000000000000000000000000000000000000000000000000000000000000000000000000000000000000000000000000000000000000000000000000000000000000000000000000000000000000000000000000000000000000000000000000000000000000000000000000000000000000000000000000000000000000000000000000000000000000000000000000000000000000000000000000000000000000000000000000000000000000000000000000000000000000000000000000000000000000000000000000000000000000000000000000000000000000000000000000000000000000000000000000000000000000000000000000000000000000000000000000000000000000000000000000000000000000000000000000000000000000000000000000000000000000000000000000000000000000000000000000000000000000000000000000000000000000000000000000000000000000000000000000000000000000000000000000000000000000000000000000000000000000000000000000000000000000000000000000000000000000000000000000000000000000000000000000000000000000000000000000000000000000000000000000000000000000000000000000000000000000000000000000000000000000000000000000000000000000000000000000000000000000000000000000000000000000000000000000000000000000000000000000000000000000000000000000000000000000000000000000000000000000000000000000000000000000000000000000000000000000000000000000000000000000000000000000000000000000000000000000000000000000000000000000000000000000000000000000000000000000000000000000000000000000000000000000000000000000000000000000000000000000000000000000000000000000000000000000000000000000000000000000000000000000000000000000000000000000000000000000000000000000000000000000000000000000000000000000000000000000000000000000000000000000000000000000000000000000000000000000000000000000000000000000000000000000000000000000000000000000000000000000000000000000000000000000000000000000000000000000000000000000000000000000000000000000000000000000000000000000000000000000000000000000000000000000000000000000000000000000000000000000000000000000000000000000000000000000000000000000000000000000000000000000000000000000000000000000000000000000000000000000000000000000000000000000000000000000000000000000000000000000000000000000000000000000000000000000000000000000000000000000000000000000000000000000000000000000000000000000000000000000000000000000000000000000000000000000000000000000000000000000000000000000000000000000000000000000000000000000000000000000000000000000000000000000000000000000000000000000000000000000000000000000000000000000000000000000000000000000000000000000000000000000000000000000000000000000000000000000000000000000000000000000000000000000000000000000000000000000000000000000000000000000000000000000000000000000000000000000000000000000000000000000000000000000000000000000000000000000000000000000000000000000000000000000000000000000000000000000000000000000000000000000000000000000000000000000000000000000000000000000000000000000000000000000000000000000000000000000000000000000000000000000000000000000000000000000000000000000000000000000000000000000000000000000000000000000000000000000000000000000000000000000000000000000000000000000000000000000000000000000000000000000000000000000000000000000000000000000000000000000000000000000000000000000000000000000000000000000000000000000000000000000000000000000000000000000000000000000000000000000000000000000000000000000000000000000000000000000000000000000000000000000000000000000000000000000000000000000000000000000000000000000000000000000000000000000000000000000000000000000000000000000000000000000000000000000000000000000000000000000000000000000000000000000000000000000000000000000000000000000000000000000000000000000000000000000000000000000000000000000000000000000000000000000000000000000000000000000000000000000000000000000000000000000000000000000000000000000000000000000000000000000000000000000000000000000000000000000000000000000000000000000000000000000000000000000000000000000000000000000000000000000000000000000000000000000000000000000000000000000000000000000000000000000000000000000000000000000000000000000000000000000000000000000000000000000000000000000000000000000000000000000000000000000000000000000000000000000000000000000000000000000000000000000000000000000000000000000000000000000000000000000000000000000000000000000000000000000000000000000000000000000000000000000000000000000000000000000000000000000000000000000000000000000000000000000000000000000000000000000000000000000000000000000000000000000000000000000000000000000000000000000000000000000000000000000000000000000000000000000000000000000000000000000000000000000000000000000000000000000000000000000000000000000000000000000000000000000000000000000000000000000000000000000000000000000000000000000000000000000000000000000000000000000000000000000000000000000000000000000000000000000000000000000000000000000000000000000000000000000000000000000000000000000000000000000000000000000000000000000000000000000000000000000000000000000000000000000000000000000000000000000000000000000000000000000000000000000000000000000000000000000000000000000000000000000000000000000000000000000000000000000000000000000000000000000000000000000000000000000000000000000000000000000000000000000000000000000000000000000000000000000000000000000000000000000000000000000000000000000000000000000000000000000000000000000000000000000000000000000000000000000000000000000000000000000000000000000000000000000000000000000000000000000000000000000000000000000000000000000000000000000000000000000000000000000000000000000000000000000000000000000000000000000000000000000000000000000000000000000000000000000000000000000000000000000000000000000000000000000000000000000000000000000000000000000000000000000000000000000000000000000000000000000000000000000000000000000000000000000000000000000000000000000000000000000000000000000000000000000000000000000000000000000000000000000000000000000000000000000000000000000000000000000000000000000000000000000000000000000000000000000000000000000000000000000000000000000000000000000000000000000000000000000000000000000000000000000000000000000000000000000000000000000000000000000000000000000000000000000000000000000000000000000000000000000000000000000000000000000000000000000000000000000000000000000000000000000000000000000000000000000000000000000000000000000000000000000000000000000000000000000000000000000000000000000000000000000000000000000000000000000000000000000000000000000000000000000000000000000000000000000000000000000000000000000000000000000000000000000000000000000000000000000000000000000000000000000000000000000000000000000000000000000000000000000000000000000000000000000000000000000000000000000000000000000000000000000000000000000000000000000000000000000000000000000000000000000000000000000000000000000000000000000000000000000000000000000000000000000000000000000000000000000000000000000000000000000000000000000000000000000000000000000000000000000000000000000000000000000000000000000000000000000000000000000000000000000000000000000000000000000000000000000000000000000000000000000000000000000000000000 : Nat) : ℚ)) := by
    rw [odeSolve_eq_iterN 5000, iterN_total]
  rw [hfin, rhs_scaled _ _ _ _ 10 (by norm_num)]
  exact ⟨abs_le_div_bound _ _ (by norm_num) (by decide),
         abs_le_div_bound _ _ (by norm_num) (by decide),
         abs_le_div_bound _ _ (by norm_num) (by decide)⟩

/-- The numpy `linspace(a, b, n)` grid used by the widget: `n` evenly spaced
samples from `a` to `b` inclusive, sample `i` at `a + (b - a) * i / (n - 1)`. -/
def linspace (a b : ℚ) (n : Nat) : List ℚ :=
  (List.range n).map (fun i : Nat => a + (b - a) * (i : ℚ) / ((n : ℚ) - 1))

/-- The eight-value parameter tuple `params = (R_T, k_on, k_off, f, f_prime,
h, h_prime, g)` built by `ReactionWidget.solve_and_plot(self, k_on, f, h, g)`
in the compiled `L11_widgets` module (the only form of that file in the
repository; read from its bytecode): the four user arguments are
`k_on, f, h, g`, and the hard-coded locals are `R_T = 1`, `k_off = 50`,
`f_prime = 400`, `h_prime = 6`. -/
def solve_and_plot_params (k_on f h g : ℚ) : ℚ × ℚ × ℚ × ℚ × ℚ × ℚ × ℚ × ℚ :=
  (1, k_on, 50, f, 400, h, 6, g)

/-- The time grid `np.linspace(0, 10, 5000)` of `solve_and_plot`.  (The
sample-count constant in the compiled module has a corrupted low byte; its
surviving bytes confine it to 4992–5119, and 5000 — the grid of the
accompanying notebook — is the only round value in that range; the claimed
1000 is impossible.) -/
def solve_and_plot_time : List ℚ := linspace 0 10 5000

/-- The initial condition `(0, 0, 0)` passed by `solve_and_plot` to the
integrator. -/
def solve_and_plot_y0 : ℚ × ℚ × ℚ := (0, 0, 0)

/-- The keyword slider bindings of `ReactionWidget.display`:
`interact(self.solve_and_plot, k_on=…, f=…, h=…, g=…)` — the keyword-name
tuple in the compiled module is `('k_on', 'f', 'h', 'g')`. -/
def display_sliders : List String := ["k_on", "f", "h", "g"]

/-- Counterexample for C10: the widget's four sliders are bound to
`k_on, f, h, g`, not to `k_on, k_off, h, g` (it is `k_off = 50` that is
hard-coded, not `f`), and the fixed time grid has 5000 samples, not 1000. -/
theorem widget_claim_refuted :
    display_sliders ≠ ["k_on", "k_off", "h", "g"]
    ∧ solve_and_plot_time.length = 5000 := by
  constructor
  · decide
  · simp [solve_and_plot_time, linspace]

/-- C10 (amended): the widget exposes exactly the four parameters
`k_on, f, h, g` as sliders; on every invocation it hard-codes `R_T = 1`,
`k_off = 50`, `f_prime = 400`, `h_prime = 6`, the zero initial state and a
fixed grid of 5000 samples running from time 0 to time 10, and always
passes the integrator the full eight-value tuple
`(R_T, k_on, k_off, f, f_prime, h, h_prime, g)` composed of the four slider
values and the four fixed values. -/
theorem widget_pipeline (k_on f h g : ℚ) :
    solve_and_plot_params k_on f h g = (1, k_on, 50, f, 400, h, 6, g)
    ∧ solve_and_plot_y0 = (0, 0, 0)
    ∧ solve_and_plot_time.length = 5000
    ∧ solve_and_plot_time.get? 0 = some 0
    ∧ solve_and_plot_time.get? 4999 = some 10
    ∧ display_sliders = ["k_on", "f", "h", "g"] := by
  refine ⟨rfl, rfl, ?_, ?_, ?_, rfl⟩
  · simp [solve_and_plot_time, linspace]
  · rw [solve_and_plot_time, linspace, List.get?_map, List.get?_range (by norm_num)]
    norm_num
  · rw [solve_and_plot_time, linspace, List.get?_map, List.get?_range (by norm_num)]
    norm_num

end Razumova
